import Mathlib

/-!
# Resource-usage snapshots (MLB Utility, `RsrcUsage.cpp`)

A shallow embedding of the resource-usage core of `src/Utility/RsrcUsage.cpp`:
the snapshot value type, the field registry (`RsrcUsageSpec`), the delta of two
snapshots (`GetRsrcUsageDelta`), the collectors of the four builds (POSIX/BSD
`GetRsrcUsage`, Windows, System-V and the stub), the line formatter
(`ToStringList`), the duration-only and count-only formatters
(`ToStringListTimes`, `ToStringListValues`) and the compact text form
(`ToString`).

Conventions of the embedding.

* `RsrcUsageValue` (an unsigned 64-bit count) is a `Nat`; the one arithmetic
  operation the code performs on counts, the unsigned subtraction in the delta,
  is taken modulo `2 ^ 64`.
* `RsrcUsageTime` is a pair of integers `(tv_sec, tv_nsec)`; seconds and
  nanoseconds are mathematical integers.
* `std::string` is `String`; `std::vector<std::string>` is `List String`.
* The conditional compilation of the source (`__MSDOS__`, `_Windows`, `__SVR4`,
  otherwise POSIX/BSD) is a value of type `Platform`.
-/

namespace MLB.Utility

/-! ## Data model -/

/-- The four build targets selected by the preprocessor conditionals of the source. -/
inductive Platform where
  | msdos
  | windows
  | svr4
  | posix
  deriving DecidableEq, Repr

/-- Unsigned 64-bit count type of the snapshot (values are below `2 ^ 64`). -/
abbrev RsrcUsageValue := Nat

/-- Modulus of the unsigned 64-bit count type. -/
def RsrcUsageValueModulus : Nat := 2 ^ 64

/-- The value `std::numeric_limits<RsrcUsageValue>::max()`. -/
def RsrcUsageValueMax : RsrcUsageValue := 2 ^ 64 - 1

/-- The value `LONG_MAX` of a 64-bit `long`. -/
def LONG_MAX : Int := 2 ^ 63 - 1

/-- Duration value `(tv_sec, tv_nsec)` of the snapshot. -/
structure RsrcUsageTime where
  tv_sec : Int
  tv_nsec : Int
  deriving DecidableEq, Repr

/-- Source line 668: `static const RsrcUsageTime RsrcUsageTimeMax(LONG_MAX, LONG_MAX);`. -/
def RsrcUsageTimeMax : RsrcUsageTime := ⟨LONG_MAX, LONG_MAX⟩

/-- A duration is normalized when `0 <= tv_nsec < 1_000_000_000`. -/
def RsrcUsageTime.Normalized (t : RsrcUsageTime) : Prop :=
  0 ≤ t.tv_nsec ∧ t.tv_nsec < 1000000000

instance (t : RsrcUsageTime) : Decidable t.Normalized := by
  unfold RsrcUsageTime.Normalized
  infer_instance

/-- Total nanosecond count of a duration. -/
def RsrcUsageTime.totalNanos (t : RsrcUsageTime) : Int :=
  t.tv_sec * 1000000000 + t.tv_nsec

/-- Strict comparison of two durations: seconds first, then nanoseconds. -/
def RsrcUsageTime.lt (a b : RsrcUsageTime) : Bool :=
  decide (a.tv_sec < b.tv_sec) || (decide (a.tv_sec = b.tv_sec) && decide (a.tv_nsec < b.tv_nsec))

/-- Modelled from the spec: `TimeSpec::GetDifferenceAbs` lives in `Utility/TimeSpec.hpp`, which is
not among the sources. The spec describes it as the absolute value of the difference of two
durations, "computed on the normalized (seconds, nanoseconds) pair, not on a naively
subtracted raw scalar (sign and borrow across the nanosecond boundary must be handled
correctly)": the smaller pair is subtracted from the larger one, borrowing one second when
the nanoseconds of the larger are below those of the smaller. -/
def RsrcUsageTime.GetDifferenceAbs (time_1 time_2 : RsrcUsageTime) : RsrcUsageTime :=
  let hi := if time_1.lt time_2 then time_2 else time_1
  let lo := if time_1.lt time_2 then time_1 else time_2
  if hi.tv_nsec < lo.tv_nsec then
    ⟨hi.tv_sec - lo.tv_sec - 1, hi.tv_nsec + 1000000000 - lo.tv_nsec⟩
  else
    ⟨hi.tv_sec - lo.tv_sec, hi.tv_nsec - lo.tv_nsec⟩

/-- The snapshot: 10 durations followed by 20 counts, in the order the source initialises,
swaps, compares and prints them. -/
structure RsrcUsage where
  user_cpu_time : RsrcUsageTime
  system_cpu_time : RsrcUsageTime
  trap_cpu_time : RsrcUsageTime
  text_pagef_time : RsrcUsageTime
  data_pagef_time : RsrcUsageTime
  kernel_pagef_time : RsrcUsageTime
  user_lock_time : RsrcUsageTime
  other_sleep_time : RsrcUsageTime
  wait_cpu_time : RsrcUsageTime
  stopped_time : RsrcUsageTime
  minor_pagef : RsrcUsageValue
  major_pagef : RsrcUsageValue
  process_swaps : RsrcUsageValue
  input_blocks : RsrcUsageValue
  output_blocks : RsrcUsageValue
  messages_sent : RsrcUsageValue
  messages_received : RsrcUsageValue
  messages_other : RsrcUsageValue
  signals_received : RsrcUsageValue
  vol_context_switch : RsrcUsageValue
  invol_context_switch : RsrcUsageValue
  system_calls : RsrcUsageValue
  chars_read_written : RsrcUsageValue
  chars_read : RsrcUsageValue
  chars_written : RsrcUsageValue
  chars_other : RsrcUsageValue
  working_set_size : RsrcUsageValue
  working_set_size_peak : RsrcUsageValue
  pagefile_usage : RsrcUsageValue
  pagefile_usage_peak : RsrcUsageValue
  deriving DecidableEq, Repr

/-- Source lines 299-330: the constructor `RsrcUsage::RsrcUsage(bool)` with its flag off
initialises every duration to `(0, 0)` and every count to `0`. -/
def RsrcUsage.ctor : RsrcUsage :=
  { user_cpu_time := ⟨0, 0⟩
    system_cpu_time := ⟨0, 0⟩
    trap_cpu_time := ⟨0, 0⟩
    text_pagef_time := ⟨0, 0⟩
    data_pagef_time := ⟨0, 0⟩
    kernel_pagef_time := ⟨0, 0⟩
    user_lock_time := ⟨0, 0⟩
    other_sleep_time := ⟨0, 0⟩
    wait_cpu_time := ⟨0, 0⟩
    stopped_time := ⟨0, 0⟩
    minor_pagef := 0
    major_pagef := 0
    process_swaps := 0
    input_blocks := 0
    output_blocks := 0
    messages_sent := 0
    messages_received := 0
    messages_other := 0
    signals_received := 0
    vol_context_switch := 0
    invol_context_switch := 0
    system_calls := 0
    chars_read_written := 0
    chars_read := 0
    chars_written := 0
    chars_other := 0
    working_set_size := 0
    working_set_size_peak := 0
    pagefile_usage := 0
    pagefile_usage_peak := 0 }

/-- Modelled from the spec: `offsetof(RsrcUsage, member)` needs the declaration of `RsrcUsage`
in `Utility/RsrcUsage.hpp`, which is not among the sources. The spec identifies a field by
its slot in declaration order; slot `i` stands for the offset of the `i`-th member
(durations `0 .. 9`, counts `10 .. 29`). This reads the duration stored at a slot, as the
`reinterpret_cast` at `member_offset_` does (source lines 273-275). -/
def RsrcUsage.timeAt (r : RsrcUsage) (member_offset : Nat) : RsrcUsageTime :=
  match member_offset with
  | 0 => r.user_cpu_time
  | 1 => r.system_cpu_time
  | 2 => r.trap_cpu_time
  | 3 => r.text_pagef_time
  | 4 => r.data_pagef_time
  | 5 => r.kernel_pagef_time
  | 6 => r.user_lock_time
  | 7 => r.other_sleep_time
  | 8 => r.wait_cpu_time
  | 9 => r.stopped_time
  | _ => ⟨0, 0⟩

/-- The count stored at a slot (`10 .. 29`), as the `reinterpret_cast` at `member_offset_`
reads it (source lines 279-281). -/
def RsrcUsage.valueAt (r : RsrcUsage) (member_offset : Nat) : RsrcUsageValue :=
  match member_offset with
  | 10 => r.minor_pagef
  | 11 => r.major_pagef
  | 12 => r.process_swaps
  | 13 => r.input_blocks
  | 14 => r.output_blocks
  | 15 => r.messages_sent
  | 16 => r.messages_received
  | 17 => r.messages_other
  | 18 => r.signals_received
  | 19 => r.vol_context_switch
  | 20 => r.invol_context_switch
  | 21 => r.system_calls
  | 22 => r.chars_read_written
  | 23 => r.chars_read
  | 24 => r.chars_written
  | 25 => r.chars_other
  | 26 => r.working_set_size
  | 27 => r.working_set_size_peak
  | 28 => r.pagefile_usage
  | 29 => r.pagefile_usage_peak
  | _ => 0

/-! ## Delta of two snapshots -/

/-- The expression `std::max(a, b) - std::min(a, b)` on unsigned 64-bit operands. -/
def valueDelta (a b : RsrcUsageValue) : RsrcUsageValue :=
  (max a b - min a b) % RsrcUsageValueModulus

/-- Source lines 1156-1258 and 1262-1268: `RsrcUsage::GetRsrcUsageDelta(start_rusage,
end_rusage)`. Every duration is `GetDifferenceAbs(end.f, start.f)`; every count is
`max - min`, where the last three counts are computed from `working_set_size`, exactly as
the source text has it. -/
def GetRsrcUsageDelta (start_rusage end_rusage : RsrcUsage) : RsrcUsage :=
  { user_cpu_time :=
      RsrcUsageTime.GetDifferenceAbs end_rusage.user_cpu_time start_rusage.user_cpu_time
    system_cpu_time :=
      RsrcUsageTime.GetDifferenceAbs end_rusage.system_cpu_time start_rusage.system_cpu_time
    trap_cpu_time :=
      RsrcUsageTime.GetDifferenceAbs end_rusage.trap_cpu_time start_rusage.trap_cpu_time
    text_pagef_time :=
      RsrcUsageTime.GetDifferenceAbs end_rusage.text_pagef_time start_rusage.text_pagef_time
    data_pagef_time :=
      RsrcUsageTime.GetDifferenceAbs end_rusage.data_pagef_time start_rusage.data_pagef_time
    kernel_pagef_time :=
      RsrcUsageTime.GetDifferenceAbs end_rusage.kernel_pagef_time start_rusage.kernel_pagef_time
    user_lock_time :=
      RsrcUsageTime.GetDifferenceAbs end_rusage.user_lock_time start_rusage.user_lock_time
    other_sleep_time :=
      RsrcUsageTime.GetDifferenceAbs end_rusage.other_sleep_time start_rusage.other_sleep_time
    wait_cpu_time :=
      RsrcUsageTime.GetDifferenceAbs end_rusage.wait_cpu_time start_rusage.wait_cpu_time
    stopped_time :=
      RsrcUsageTime.GetDifferenceAbs end_rusage.stopped_time start_rusage.stopped_time
    minor_pagef := valueDelta start_rusage.minor_pagef end_rusage.minor_pagef
    major_pagef := valueDelta start_rusage.major_pagef end_rusage.major_pagef
    process_swaps := valueDelta start_rusage.process_swaps end_rusage.process_swaps
    input_blocks := valueDelta start_rusage.input_blocks end_rusage.input_blocks
    output_blocks := valueDelta start_rusage.output_blocks end_rusage.output_blocks
    messages_sent := valueDelta start_rusage.messages_sent end_rusage.messages_sent
    messages_received := valueDelta start_rusage.messages_received end_rusage.messages_received
    messages_other := valueDelta start_rusage.messages_other end_rusage.messages_other
    signals_received := valueDelta start_rusage.signals_received end_rusage.signals_received
    vol_context_switch :=
      valueDelta start_rusage.vol_context_switch end_rusage.vol_context_switch
    invol_context_switch :=
      valueDelta start_rusage.invol_context_switch end_rusage.invol_context_switch
    system_calls := valueDelta start_rusage.system_calls end_rusage.system_calls
    chars_read_written :=
      valueDelta start_rusage.chars_read_written end_rusage.chars_read_written
    chars_read := valueDelta start_rusage.chars_read end_rusage.chars_read
    chars_written := valueDelta start_rusage.chars_written end_rusage.chars_written
    chars_other := valueDelta start_rusage.chars_other end_rusage.chars_other
    working_set_size := valueDelta start_rusage.working_set_size end_rusage.working_set_size
    working_set_size_peak :=
      valueDelta start_rusage.working_set_size end_rusage.working_set_size
    pagefile_usage := valueDelta start_rusage.working_set_size end_rusage.working_set_size
    pagefile_usage_peak :=
      valueDelta start_rusage.working_set_size end_rusage.working_set_size }

/-! ## Field registry -/

/-- The member names of `RsrcUsage`, as the registry macros name them. -/
inductive Member where
  | user_cpu_time
  | system_cpu_time
  | trap_cpu_time
  | text_pagef_time
  | data_pagef_time
  | kernel_pagef_time
  | user_lock_time
  | other_sleep_time
  | wait_cpu_time
  | stopped_time
  | minor_pagef
  | major_pagef
  | process_swaps
  | input_blocks
  | output_blocks
  | messages_sent
  | messages_received
  | messages_other
  | signals_received
  | vol_context_switch
  | invol_context_switch
  | system_calls
  | chars_read_written
  | chars_read
  | chars_written
  | chars_other
  | working_set_size
  | working_set_size_peak
  | pagefile_usage
  | pagefile_usage_peak
  deriving DecidableEq, Repr

/-- Modelled from the spec: `offsetof(RsrcUsage, member_name)` needs the declaration of
`RsrcUsage` in `Utility/RsrcUsage.hpp`, which is not among the sources; the slot of a member in
declaration order stands for its offset. -/
def offsetof : Member → Nat
  | .user_cpu_time => 0
  | .system_cpu_time => 1
  | .trap_cpu_time => 2
  | .text_pagef_time => 3
  | .data_pagef_time => 4
  | .kernel_pagef_time => 5
  | .user_lock_time => 6
  | .other_sleep_time => 7
  | .wait_cpu_time => 8
  | .stopped_time => 9
  | .minor_pagef => 10
  | .major_pagef => 11
  | .process_swaps => 12
  | .input_blocks => 13
  | .output_blocks => 14
  | .messages_sent => 15
  | .messages_received => 16
  | .messages_other => 17
  | .signals_received => 18
  | .vol_context_switch => 19
  | .invol_context_switch => 20
  | .system_calls => 21
  | .chars_read_written => 22
  | .chars_read => 23
  | .chars_written => 24
  | .chars_other => 25
  | .working_set_size => 26
  | .working_set_size_peak => 27
  | .pagefile_usage => 28
  | .pagefile_usage_peak => 29

/-- The stringised member name `#member_name` of the macro `RsrcUsageElement_DEF`. -/
def Member.stringize : Member → String
  | .user_cpu_time => "user_cpu_time"
  | .system_cpu_time => "system_cpu_time"
  | .trap_cpu_time => "trap_cpu_time"
  | .text_pagef_time => "text_pagef_time"
  | .data_pagef_time => "data_pagef_time"
  | .kernel_pagef_time => "kernel_pagef_time"
  | .user_lock_time => "user_lock_time"
  | .other_sleep_time => "other_sleep_time"
  | .wait_cpu_time => "wait_cpu_time"
  | .stopped_time => "stopped_time"
  | .minor_pagef => "minor_pagef"
  | .major_pagef => "major_pagef"
  | .process_swaps => "process_swaps"
  | .input_blocks => "input_blocks"
  | .output_blocks => "output_blocks"
  | .messages_sent => "messages_sent"
  | .messages_received => "messages_received"
  | .messages_other => "messages_other"
  | .signals_received => "signals_received"
  | .vol_context_switch => "vol_context_switch"
  | .invol_context_switch => "invol_context_switch"
  | .system_calls => "system_calls"
  | .chars_read_written => "chars_read_written"
  | .chars_read => "chars_read"
  | .chars_written => "chars_written"
  | .chars_other => "chars_other"
  | .working_set_size => "working_set_size"
  | .working_set_size_peak => "working_set_size_peak"
  | .pagefile_usage => "pagefile_usage"
  | .pagefile_usage_peak => "pagefile_usage_peak"

/-- Source lines 76-97: a field descriptor. -/
structure RsrcUsageElement where
  member_offset_ : Nat
  title_name_ : String
  member_name_ : String
  is_time_flag_ : Bool
  is_supported_flag_ : Bool
  deriving DecidableEq, Repr

/-- Source lines 117-119: the macro `RsrcUsageElement_DEF`; the constructor of
`RsrcUsageElement` sets `is_supported_flag_` to `true`. -/
def RsrcUsageElement_DEF (member_title : String) (member_name : Member) (time_flag : Bool) :
    RsrcUsageElement :=
  { member_offset_ := offsetof member_name
    title_name_ := member_title
    member_name_ := member_name.stringize
    is_time_flag_ := time_flag
    is_supported_flag_ := true }

/-- Source lines 137-170: the table `PRIVATE_RsrcUsageMemberList`. -/
def PRIVATE_RsrcUsageMemberList : List RsrcUsageElement :=
  [
    RsrcUsageElement_DEF "User Level CPU Time" .user_cpu_time true,
    RsrcUsageElement_DEF "System Call CPU Time" .system_cpu_time true,
    RsrcUsageElement_DEF "Other System Trap CPU Time" .trap_cpu_time true,
    RsrcUsageElement_DEF "Text Page Fault Sleep Time" .text_pagef_time true,
    RsrcUsageElement_DEF "Data Page Fault Sleep Time" .data_pagef_time true,
    RsrcUsageElement_DEF "Kernel Page Fault Sleep Time" .kernel_pagef_time true,
    RsrcUsageElement_DEF "User Lock Wait Sleep Time" .user_lock_time true,
    RsrcUsageElement_DEF "Other Sleep Time" .other_sleep_time true,
    RsrcUsageElement_DEF "Wait-CPU Latency Time" .wait_cpu_time true,
    RsrcUsageElement_DEF "Stopped Time" .stopped_time true,
    RsrcUsageElement_DEF "Minor Page Faults" .minor_pagef false,
    RsrcUsageElement_DEF "Major Page Faults" .major_pagef false,
    RsrcUsageElement_DEF "Process Swaps" .process_swaps false,
    RsrcUsageElement_DEF "Input Blocks" .input_blocks false,
    RsrcUsageElement_DEF "Output Blocks" .output_blocks false,
    RsrcUsageElement_DEF "Messages Sent" .messages_sent false,
    RsrcUsageElement_DEF "Messages Received" .messages_received false,
    RsrcUsageElement_DEF "Messages Other" .messages_other false,
    RsrcUsageElement_DEF "Signals Received" .signals_received false,
    RsrcUsageElement_DEF "Voluntary Context Switches" .vol_context_switch false,
    RsrcUsageElement_DEF "Involuntary Context Switches" .invol_context_switch false,
    RsrcUsageElement_DEF "System Calls" .system_calls false,
    RsrcUsageElement_DEF "Characters Read and Written" .chars_read_written false,
    RsrcUsageElement_DEF "Characters Read" .chars_read false,
    RsrcUsageElement_DEF "Characters Written" .chars_written false,
    RsrcUsageElement_DEF "Characters Other" .chars_other false,
    RsrcUsageElement_DEF "Working Set Size" .working_set_size false,
    RsrcUsageElement_DEF "Working Set Size Peak" .working_set_size_peak false,
    RsrcUsageElement_DEF "Pagefile Usage" .pagefile_usage false,
    RsrcUsageElement_DEF "Pagefile Usage Peak" .pagefile_usage_peak false
  ]

/-- Insertion of one element into a `std::set<RsrcUsageElement>`, kept as a list in
ascending order of `operator <` (source lines 88-90: by `member_offset_`); an element
equivalent to one already present is not inserted. -/
def setInsert (e : RsrcUsageElement) : List RsrcUsageElement → List RsrcUsageElement
  | [] => [e]
  | x :: xs =>
    if e.member_offset_ < x.member_offset_ then e :: x :: xs
    else if x.member_offset_ < e.member_offset_ then x :: setInsert e xs
    else x :: xs

/-- Range construction of a `std::set` from a list: the elements are inserted in turn. -/
def setOfRange (l : List RsrcUsageElement) : List RsrcUsageElement :=
  l.foldl (fun s e => setInsert e s) []

/-- Source lines 128-133: the macro `RsrcUsageSpec_NULL_DEF` finds the element with the
member's offset and clears its `is_supported_flag_`. -/
def RsrcUsageSpec_NULL_DEF (member_name : Member) (member_set_ : List RsrcUsageElement) :
    List RsrcUsageElement :=
  member_set_.map fun e =>
    if e.member_offset_ = offsetof member_name then { e with is_supported_flag_ := false }
    else e

/-- Source lines 101-113: the registry, a set of descriptors in iteration order. -/
structure RsrcUsageSpec where
  member_set_ : List RsrcUsageElement
  deriving DecidableEq, Repr

/-- Source lines 181-197: the members cleared on the `_Windows` build. -/
def nullDefsWindows : List Member :=
  [.trap_cpu_time, .text_pagef_time, .data_pagef_time, .kernel_pagef_time, .user_lock_time,
   .other_sleep_time, .wait_cpu_time, .stopped_time, .minor_pagef, .process_swaps,
   .input_blocks, .output_blocks, .signals_received, .vol_context_switch,
   .invol_context_switch, .system_calls]

/-- Source lines 198-206: the members cleared on the `__SVR4` build. -/
def nullDefsSvr4 : List Member :=
  [.messages_other, .chars_read, .chars_written, .chars_other, .working_set_size,
   .working_set_size_peak, .pagefile_usage, .pagefile_usage_peak]

/-- Source lines 207-225: the members cleared on every other build (POSIX/BSD). -/
def nullDefsPosix : List Member :=
  [.trap_cpu_time, .text_pagef_time, .data_pagef_time, .kernel_pagef_time, .user_lock_time,
   .other_sleep_time, .wait_cpu_time, .stopped_time, .messages_other, .system_calls,
   .chars_read_written, .chars_read, .chars_written, .chars_other, .working_set_size,
   .working_set_size_peak, .pagefile_usage, .pagefile_usage_peak]

/-- The `RsrcUsageSpec_NULL_DEF` statements the preprocessor keeps for a build target
(source lines 180-226); the `__MSDOS__` branch is empty. -/
def nullDefs : Platform → List Member
  | .msdos => []
  | .windows => nullDefsWindows
  | .svr4 => nullDefsSvr4
  | .posix => nullDefsPosix

/-- Source lines 176-227: the constructor `RsrcUsageSpec::RsrcUsageSpec()`. The set is built
from the member table, then the statements of the build target are run in order. -/
def RsrcUsageSpec.ctor (p : Platform) : RsrcUsageSpec :=
  { member_set_ :=
      (nullDefs p).foldl (fun s m => RsrcUsageSpec_NULL_DEF m s)
        (setOfRange PRIVATE_RsrcUsageMemberList) }

/-- Source line 293: the process-wide registry instance of a build. -/
def PRIVATE_RsrcUsageSpec_INSTANCE (p : Platform) : RsrcUsageSpec :=
  RsrcUsageSpec.ctor p

/-! ## Formatter -/

/-- The empty-field policy `RsrcUsage::RsrcUsageEmptyFormat`. -/
inductive RsrcUsageEmptyFormat where
  | RsrcUsageEmptyFormatNone
  | RsrcUsageEmptyFormatZero
  | RsrcUsageEmptyFormatNull
  | RsrcUsageEmptyFormatSkip
  deriving DecidableEq, Repr

/-- Stream insertion of a string under `std::left << std::setw(width)`: the text followed by
fill spaces up to `width` characters; a longer text is written whole. -/
def setwLeft (width : Nat) (s : String) : String :=
  s ++ String.mk (List.replicate (width - s.length) ' ')

/-- Stream insertion of a string under `std::right << std::setw(width)`: fill spaces up to
`width` characters followed by the text; a longer text is written whole. -/
def setwRight (width : Nat) (s : String) : String :=
  String.mk (List.replicate (width - s.length) ' ') ++ s

/-- Modelled from the spec: `IntegralValueMaxLengthDecUnsigned<RsrcUsageValue>()` lives in
`Utility/IntegralValueMaxLength.hpp`, which is not among the sources. The spec gives the
count column a "width equal to the maximum decimal digit count for the count type": the
number of decimal digits of the largest count. -/
def IntegralValueMaxLengthDecUnsigned : Nat :=
  (Nat.toDigits 10 RsrcUsageValueMax).length

/-- The placeholder a duration gets under policy `Null` (source line 253). -/
def nullTimeText : String := "?????? ??:??:??.?????????"

/-- The text a duration gets under policy `Zero` (source line 261). -/
def zeroTimeText : String := "000000 00:00:00.000000000"

/-- Source lines 244-283: the body of the loop of `RsrcUsageSpec::ToStringList` for one
descriptor. The result is the line pushed onto `tmp_list`, or `none` where the body runs
`continue`. `ToStringInterval` stands for `TimeSpec::ToStringInterval`, which lives in
`Utility/TimeSpec.hpp`, not among the sources. -/
def formatElement (ToStringInterval : RsrcUsageTime → String) (rusage_datum : RsrcUsage)
    (null_format_type : RsrcUsageEmptyFormat) (text_width : Nat) (separator : String)
    (e : RsrcUsageElement) : Option String :=
  if !e.is_supported_flag_ then
    if null_format_type = .RsrcUsageEmptyFormatSkip then none
    else
      let o_str := setwLeft text_width e.title_name_ ++ separator
      if null_format_type = .RsrcUsageEmptyFormatNull then
        if e.is_time_flag_ then some (o_str ++ nullTimeText)
        else some (o_str ++ setwRight IntegralValueMaxLengthDecUnsigned "?")
      else
        if e.is_time_flag_ then some (o_str ++ zeroTimeText)
        else some (o_str ++ setwRight IntegralValueMaxLengthDecUnsigned "0")
  else
    let o_str := setwLeft text_width e.title_name_ ++ separator
    if e.is_time_flag_ then
      some (o_str ++ ToStringInterval (rusage_datum.timeAt e.member_offset_))
    else
      some (o_str ++
        setwRight IntegralValueMaxLengthDecUnsigned
          (toString (rusage_datum.valueAt e.member_offset_)))

/-- Source lines 243-284: the end of one pass of the loop, `tmp_list.push_back(o_str.str())`
with the line of the body, or nothing where the body ran `continue`. -/
def pushLine (tmp_list : List String) : Option String → List String
  | none => tmp_list
  | some line => tmp_list ++ [line]

/-- Source lines 231-289: `RsrcUsageSpec::ToStringList`. The loop runs over the set in
iteration order and pushes the lines onto `tmp_list`; the final `out_list.swap(tmp_list)`
makes `tmp_list` the result, whatever `out_list` held. -/
def RsrcUsageSpec.ToStringList (spec : RsrcUsageSpec)
    (ToStringInterval : RsrcUsageTime → String) (rusage_datum : RsrcUsage)
    (null_format_type : RsrcUsageEmptyFormat) (text_width : Nat) (separator : String)
    (_out_list : List String) : List String :=
  spec.member_set_.foldl
    (fun tmp_list e =>
      pushLine tmp_list
        (formatElement ToStringInterval rusage_datum null_format_type text_width separator e))
    []

/-- Source lines 570-587: `RsrcUsage::ToStringList`, which renders the snapshot through the
registry instance of the build into a fresh list. -/
def RsrcUsage.ToStringList (p : Platform) (ToStringInterval : RsrcUsageTime → String)
    (rusage_datum : RsrcUsage) (null_format_type : RsrcUsageEmptyFormat) (text_width : Nat)
    (separator : String) : List String :=
  (PRIVATE_RsrcUsageSpec_INSTANCE p).ToStringList ToStringInterval rusage_datum
    null_format_type text_width separator []

/-! ## POSIX/BSD collector -/

/-- The `struct timeval` of the operating system. -/
structure timeval where
  tv_sec : Int
  tv_usec : Int
  deriving DecidableEq, Repr

/-- The members of the operating system's `struct rusage` that the collector reads. -/
structure rusage where
  ru_utime : timeval
  ru_stime : timeval
  ru_minflt : Int
  ru_majflt : Int
  ru_nswap : Int
  ru_inblock : Int
  ru_oublock : Int
  ru_msgsnd : Int
  ru_msgrcv : Int
  ru_nsignals : Int
  ru_nvcsw : Int
  ru_nivcsw : Int
  deriving DecidableEq, Repr

/-- The conversion `static_cast<RsrcUsageValue>(v)` of a signed `long` to the unsigned
64-bit count type. -/
def castToRsrcUsageValue (v : Int) : RsrcUsageValue :=
  (v % 2 ^ 64).toNat

/-- The selector `RUSAGE_SELF` of the operating system. -/
def RUSAGE_SELF : Int := 0

/-- The selector `RUSAGE_CHILDREN` of the operating system. -/
def RUSAGE_CHILDREN : Int := -1

/-- Source lines 1010-1068: `RsrcUsage::GetRsrcUsage(selector)` on the POSIX/BSD build.
`getrusage selector` is the outcome of the system call (`none` when it reports failure);
`timeOfTimeval` stands for the constructor `RsrcUsageTime(const timeval &)` of
`Utility/TimeSpec.hpp`, not among the sources. A failure throws with the message of the
source; otherwise the result is the snapshot assigned to `*this`. The assignments to the
other members are comments in the source, so those members keep what the constructor of
`rusage_datum` gave them. -/
def GetRsrcUsage (timeOfTimeval : timeval → RsrcUsageTime) (getrusage : Int → Option rusage)
    (selector : Int) : Except String RsrcUsage :=
  match getrusage selector with
  | none =>
    .error ("Attempt to retrieve the process usage information for " ++
      (if selector = RUSAGE_SELF then "this process"
       else if selector = RUSAGE_CHILDREN then "this process children"
       else "*** UNKNOWN ***") ++ " failed")
  | some tmp_rusage =>
    let rusage_datum := RsrcUsage.ctor
    .ok { rusage_datum with
      user_cpu_time := timeOfTimeval tmp_rusage.ru_utime
      system_cpu_time := timeOfTimeval tmp_rusage.ru_stime
      minor_pagef := castToRsrcUsageValue tmp_rusage.ru_minflt
      major_pagef := castToRsrcUsageValue tmp_rusage.ru_majflt
      process_swaps := castToRsrcUsageValue tmp_rusage.ru_nswap
      input_blocks := castToRsrcUsageValue tmp_rusage.ru_inblock
      output_blocks := castToRsrcUsageValue tmp_rusage.ru_oublock
      messages_sent := castToRsrcUsageValue tmp_rusage.ru_msgsnd
      messages_received := castToRsrcUsageValue tmp_rusage.ru_msgrcv
      signals_received := castToRsrcUsageValue tmp_rusage.ru_nsignals
      vol_context_switch := castToRsrcUsageValue tmp_rusage.ru_nvcsw
      invol_context_switch := castToRsrcUsageValue tmp_rusage.ru_nivcsw }

/-- Source lines 272-281: the value text of a supported field, the interval text of a
duration or the decimal of a count right-justified in the count column. -/
def supportedValueText (ToStringInterval : RsrcUsageTime → String) (rusage_datum : RsrcUsage)
    (e : RsrcUsageElement) : String :=
  if e.is_time_flag_ then ToStringInterval (rusage_datum.timeAt e.member_offset_)
  else
    setwRight IntegralValueMaxLengthDecUnsigned
      (toString (rusage_datum.valueAt e.member_offset_))

/-- Source lines 251-266: the value text of an unsupported field under a policy other than
`Skip`: the placeholder under `Null`, the zero form otherwise. -/
def unsupportedValueText (null_format_type : RsrcUsageEmptyFormat) (e : RsrcUsageElement) :
    String :=
  if null_format_type = .RsrcUsageEmptyFormatNull then
    if e.is_time_flag_ then nullTimeText
    else setwRight IntegralValueMaxLengthDecUnsigned "?"
  else
    if e.is_time_flag_ then zeroTimeText
    else setwRight IntegralValueMaxLengthDecUnsigned "0"

/-! ## Duration-only and count-only rendering -/

/-- Source lines 1340-1352: the title list `NameListTimesVec`. -/
def NameListTimesVec : List String :=
  ["User Level CPU Time",
   "System Call CPU Time",
   "Other System Trap CPU Time",
   "Text Page Fault Sleep Time",
   "Data Page Fault Sleep Time",
   "Kernel Page Fault Sleep Time",
   "User Lock Wait Sleep Time",
   "Other Sleep Time",
   "Wait-CPU Latency Time",
   "Stopped Time"]

/-- Source lines 1367-1389: the title list `NameListValuesVec`. -/
def NameListValuesVec : List String :=
  ["Minor Page Faults",
   "Major Page Faults",
   "Process Swaps",
   "Input Blocks",
   "Output Blocks",
   "Messages Sent",
   "Messages Received",
   "Messages Other",
   "Signals Received",
   "Voluntary Context Switches",
   "Involuntary Context Switches",
   "System Calls",
   "Characters Read and Written",
   "Characters Read",
   "Characters Written",
   "Characters Other",
   "Working Set Size",
   "Working Set Size Peak",
   "Pagefile Usage",
   "Pagefile Usage Peak"]

/-- Source lines 1358-1361: `RsrcUsage::GetNameListTimes`. -/
def GetNameListTimes : List String := NameListTimesVec

/-- Source lines 1395-1398: `RsrcUsage::GetNameListValues`. -/
def GetNameListValues : List String := NameListValuesVec

/-- Source lines 1402-1416: `RsrcUsage::GetListTimes`. -/
def RsrcUsage.GetListTimes (r : RsrcUsage) : List RsrcUsageTime :=
  [r.user_cpu_time, r.system_cpu_time, r.trap_cpu_time, r.text_pagef_time, r.data_pagef_time,
   r.kernel_pagef_time, r.user_lock_time, r.other_sleep_time, r.wait_cpu_time, r.stopped_time]

/-- Source lines 1420-1444: `RsrcUsage::GetListValues`. -/
def RsrcUsage.GetListValues (r : RsrcUsage) : List RsrcUsageValue :=
  [r.minor_pagef, r.major_pagef, r.process_swaps, r.input_blocks, r.output_blocks,
   r.messages_sent, r.messages_received, r.messages_other, r.signals_received, r.vol_context_switch,
   r.invol_context_switch, r.system_calls, r.chars_read_written, r.chars_read, r.chars_written,
   r.chars_other, r.working_set_size, r.working_set_size_peak, r.pagefile_usage, r.pagefile_usage_peak]

/-- Source lines 1284-1296: the body of the loop of `ToStringListTimes` for one title and
one duration. The result is the line pushed onto `out_list`, or `none` where the body runs
`continue`; under a policy that none of the tests names, the line is pushed as it stands
after the separator. The test `!=` on durations compares both members. -/
def timesLine (ToStringInterval : RsrcUsageTime → String)
    (null_format_type : RsrcUsageEmptyFormat) (text_width : Nat) (separator : String)
    (name : String) (datum : RsrcUsageTime) : Option String :=
  let o_str := setwLeft text_width name ++ separator
  if datum ≠ RsrcUsageTimeMax then some (o_str ++ ToStringInterval datum)
  else if null_format_type = .RsrcUsageEmptyFormatZero then some (o_str ++ zeroTimeText)
  else if null_format_type = .RsrcUsageEmptyFormatNull then some (o_str ++ nullTimeText)
  else if null_format_type = .RsrcUsageEmptyFormatSkip then none
  else some o_str

/-- Source lines 1314-1332: the body of the loop of `ToStringListValues` for one title and
one count. -/
def valuesLine (null_format_type : RsrcUsageEmptyFormat) (text_width : Nat)
    (separator : String) (name : String) (datum : RsrcUsageValue) : Option String :=
  let o_str := setwLeft text_width name ++ separator
  if datum ≠ RsrcUsageValueMax then
    some (o_str ++ setwRight IntegralValueMaxLengthDecUnsigned (toString datum))
  else if null_format_type = .RsrcUsageEmptyFormatZero then
    some (o_str ++ setwRight IntegralValueMaxLengthDecUnsigned "0")
  else if null_format_type = .RsrcUsageEmptyFormatNull then
    some (o_str ++ setwRight IntegralValueMaxLengthDecUnsigned "?")
  else if null_format_type = .RsrcUsageEmptyFormatSkip then none
  else some o_str

/-- Source lines 1272-1298: `RsrcUsage::ToStringListTimes`. The loop counts `count_1` from 0
to `name_list.size()` and appends to the caller's `out_list`. -/
def RsrcUsage.ToStringListTimes (r : RsrcUsage) (ToStringInterval : RsrcUsageTime → String)
    (null_format_type : RsrcUsageEmptyFormat) (text_width : Nat) (out_list : List String)
    (separator : String) : List String :=
  let name_list := GetNameListTimes
  let data_list := r.GetListTimes
  (List.range name_list.length).foldl
    (fun out count_1 =>
      pushLine out
        (timesLine ToStringInterval null_format_type text_width separator
          (name_list.getD count_1 "") (data_list.getD count_1 ⟨0, 0⟩)))
    out_list

/-- Source lines 1302-1334: `RsrcUsage::ToStringListValues`. -/
def RsrcUsage.ToStringListValues (r : RsrcUsage) (null_format_type : RsrcUsageEmptyFormat)
    (text_width : Nat) (out_list : List String) (separator : String) : List String :=
  let name_list := GetNameListValues
  let data_list := r.GetListValues
  (List.range name_list.length).foldl
    (fun out count_1 =>
      pushLine out
        (valuesLine null_format_type text_width separator
          (name_list.getD count_1 "") (data_list.getD count_1 0)))
    out_list

/-- Whether the snapshot holds the unsupported sentinel of the descriptor's type in the
descriptor's field. -/
def fieldHoldsSentinel (r : RsrcUsage) (e : RsrcUsageElement) : Bool :=
  if e.is_time_flag_ then decide (r.timeAt e.member_offset_ = RsrcUsageTimeMax)
  else decide (r.valueAt e.member_offset_ = RsrcUsageValueMax)

/-- The snapshot agrees with the registry of the build: a field holds the unsupported
sentinel of its type exactly when its descriptor is marked unsupported. -/
def SentinelsAgree (p : Platform) (r : RsrcUsage) : Prop :=
  ∀ e ∈ (PRIVATE_RsrcUsageSpec_INSTANCE p).member_set_,
    fieldHoldsSentinel r e = !e.is_supported_flag_

instance (p : Platform) (r : RsrcUsage) : Decidable (SentinelsAgree p r) := by
  unfold SentinelsAgree
  infer_instance

/-! ## The collector as a member call -/

/-- The two conditions a collection can fail with. `ThrowErrno` (`Utility/ThrowErrno.hpp`,
not among the sources) raises the system-error condition with the text it is given. -/
inductive ErrorCondition where
  | systemError (what : String)
  | invalidArgument (what : String)
  deriving DecidableEq, Repr

/-- What a call of the member function `GetRsrcUsage` leaves behind: the condition thrown,
if any, the snapshot `*this` after the call, and the selectors `getrusage` was called
with, in order. -/
structure CallOutcome where
  thrown : Option ErrorCondition
  self : RsrcUsage
  getrusage_calls : List Int
  deriving DecidableEq, Repr

/-- Source lines 1010-1068: the member call `this->GetRsrcUsage(selector)` on the POSIX/BSD
build. The function calls `getrusage(selector, &tmp_rusage)` once, at line 1019, before
anything else looks at `selector`; a failure throws through `ThrowErrno` and leaves
`*this` as it was, a success ends in `*this = rusage_datum` (line 1067). -/
def RsrcUsage.GetRsrcUsage (this : RsrcUsage) (timeOfTimeval : timeval → RsrcUsageTime)
    (getrusage : Int → Option rusage) (selector : Int) : CallOutcome :=
  match MLB.Utility.GetRsrcUsage timeOfTimeval getrusage selector with
  | .error what =>
    { thrown := some (.systemError what), self := this, getrusage_calls := [selector] }
  | .ok rusage_datum =>
    { thrown := none, self := rusage_datum, getrusage_calls := [selector] }

/-- The field a descriptor's offset names, as a pair: the duration read there and the count
read there. -/
def RsrcUsage.slotAt (r : RsrcUsage) (member_offset : Nat) : RsrcUsageTime × RsrcUsageValue :=
  (r.timeAt member_offset, r.valueAt member_offset)

/-- The snapshot a successful collection for this process assigns to an all-zero `*this`,
when `getrusage` hands back `r`. -/
def collectedSnapshot (timeOfTimeval : timeval → RsrcUsageTime) (r : rusage) : RsrcUsage :=
  (RsrcUsage.ctor.GetRsrcUsage timeOfTimeval (fun _ => some r) RUSAGE_SELF).self

/-- A conversion of a `timeval` to a duration for concrete runs: the seconds, and the
microseconds as nanoseconds. -/
def sampleTimeOfTimeval (tv : timeval) : RsrcUsageTime :=
  ⟨tv.tv_sec, tv.tv_usec * 1000⟩

/-- A `struct rusage` for concrete runs, every member 0. -/
def sampleRusageZero : rusage :=
  ⟨⟨0, 0⟩, ⟨0, 0⟩, 0, 0, 0, 0, 0, 0, 0, 0, 0, 0⟩

/-- A `struct rusage` for concrete runs, with a different value in every member. -/
def sampleRusage : rusage :=
  ⟨⟨1, 200⟩, ⟨3, 400⟩, 5, 6, 7, 8, 9, 10, 11, 12, 13, 14⟩

/-- An operating system for concrete runs: `getrusage` accepts `RUSAGE_SELF` and
`RUSAGE_CHILDREN` and reports failure for every other selector. -/
def sampleGetrusage (selector : Int) : Option rusage :=
  if selector = RUSAGE_SELF ∨ selector = RUSAGE_CHILDREN then some sampleRusage else none

/-! ## Windows collector: process times -/

/-- The conversion `(long) v` of an unsigned 64-bit value on the Windows build, where `long`
has 32 bits: the value modulo `2 ^ 32`, read as a signed number. -/
def castToLong32 (v : Nat) : Int :=
  ((v + 2 ^ 31) % 2 ^ 32 : Nat) - 2 ^ 31

/-- Source lines 729-736: the duration `GetRsrcUsageByWindowsHandle` stores for a process
time of `scalar_data` ticks of 100 nanoseconds (an unsigned 64-bit value):
`tv_sec = (long) ((scalar_data / 10) / 1000000)` and
`tv_nsec = (long) ((scalar_data / 10) % 1000000000)`. -/
def windowsTimeOfTicks (scalar_data : Nat) : RsrcUsageTime :=
  { tv_sec := castToLong32 ((scalar_data / 10) / 1000000)
    tv_nsec := castToLong32 ((scalar_data / 10) % 1000000000) }

/-- Source lines 715-737: the part of `GetRsrcUsageByWindowsHandle` that fills the two CPU
times of `tmp_datum` from the user and kernel times `GetProcessTimes` reported. -/
def windowsStoreProcessTimes (tmp_datum : RsrcUsage) (user_time kernel_time : Nat) :
    RsrcUsage :=
  { tmp_datum with
    user_cpu_time := windowsTimeOfTicks user_time
    system_cpu_time := windowsTimeOfTicks kernel_time }

/-- The exclusion list of a build as its registry shows it: the member names of the
descriptors whose `is_supported_flag_` the constructor has cleared, in registry order. -/
def clearedMembers (p : Platform) : List String :=
  ((PRIVATE_RsrcUsageSpec_INSTANCE p).member_set_.filter
    fun e => !e.is_supported_flag_).map fun e => e.member_name_

/-! ## Stub collector, compact text form, delta through references -/

/-- Source lines 888-893: `RsrcUsage::GetRsrcUsage(selector)` on the `__MSDOS__` build,
`*this = RsrcUsage();`. The result is the snapshot assigned to `*this`. -/
def RsrcUsage.GetRsrcUsageStub (_this : RsrcUsage) (_selector : Int) : RsrcUsage :=
  RsrcUsage.ctor

/-- Source lines 507-544: `RsrcUsage::ToString`. A duration is inserted as its interval text
(`ToStringInterval`, from `Utility/TimeSpec.hpp`, is a parameter), a count as its
decimal. -/
def RsrcUsage.ToString (r : RsrcUsage) (ToStringInterval : RsrcUsageTime → String) : String :=
  "[" ++ ToStringInterval r.user_cpu_time ++ "]" ++
  "[" ++ ToStringInterval r.system_cpu_time ++ "]" ++
  "[" ++ ToStringInterval r.trap_cpu_time ++ "]" ++
  "[" ++ ToStringInterval r.text_pagef_time ++ "]" ++
  "[" ++ ToStringInterval r.data_pagef_time ++ "]" ++
  "[" ++ ToStringInterval r.kernel_pagef_time ++ "]" ++
  "[" ++ ToStringInterval r.user_lock_time ++ "]" ++
  "[" ++ ToStringInterval r.other_sleep_time ++ "]" ++
  "[" ++ ToStringInterval r.wait_cpu_time ++ "]" ++
  "[" ++ ToStringInterval r.stopped_time ++ "]" ++
  "[" ++ toString r.minor_pagef ++ "]" ++
  "[" ++ toString r.major_pagef ++ "]" ++
  "[" ++ toString r.process_swaps ++ "]" ++
  "[" ++ toString r.input_blocks ++ "]" ++
  "[" ++ toString r.output_blocks ++ "]" ++
  "[" ++ toString r.messages_sent ++ "]" ++
  "[" ++ toString r.messages_received ++ "]" ++
  "[" ++ toString r.messages_other ++ "]" ++
  "[" ++ toString r.signals_received ++ "]" ++
  "[" ++ toString r.vol_context_switch ++ "]" ++
  "[" ++ toString r.invol_context_switch ++ "]" ++
  "[" ++ toString r.system_calls ++ "]" ++
  "[" ++ toString r.chars_read_written ++ "]" ++
  "[" ++ toString r.chars_read ++ "]" ++
  "[" ++ toString r.chars_written ++ "]" ++
  "[" ++ toString r.chars_other ++ "]" ++
  "[" ++ toString r.working_set_size ++ "]" ++
  "[" ++ toString r.working_set_size_peak ++ "]" ++
  "[" ++ toString r.pagefile_usage ++ "]" ++
  "[" ++ toString r.pagefile_usage_peak ++ "]"

/-- Source lines 1156-1258: the three-argument `GetRsrcUsageDelta(start_rusage, end_rusage,
delta_rusage)`, whose arguments are references. Structures live in a store and are named
by their addresses, so two arguments can name the same structure. The function fills the
local `tmp_delta_rusage` from the two operands, then swaps it into `delta_rusage`; the
result is the store after the call. -/
def GetRsrcUsageDeltaRef (store : Nat → RsrcUsage) (start_rusage end_rusage delta_rusage : Nat) :
    Nat → RsrcUsage :=
  let tmp_delta_rusage := GetRsrcUsageDelta (store start_rusage) (store end_rusage)
  Function.update store delta_rusage tmp_delta_rusage

/-! ## Windows collector: the population logic and the handle -/

/-- The members of the operating system's `PROCESS_MEMORY_COUNTERS` the collector reads. -/
structure PROCESS_MEMORY_COUNTERS where
  PageFaultCount : Nat
  WorkingSetSize : Nat
  PeakWorkingSetSize : Nat
  PagefileUsage : Nat
  PeakPagefileUsage : Nat
  deriving DecidableEq, Repr

/-- The operating system's `IO_COUNTERS`. -/
structure IO_COUNTERS where
  ReadOperationCount : Nat
  WriteOperationCount : Nat
  OtherOperationCount : Nat
  ReadTransferCount : Nat
  WriteTransferCount : Nat
  OtherTransferCount : Nat
  deriving DecidableEq, Repr

/-- What the operating system answers to the calls of the Windows collector. A handle is a
number. A query is `none` when `GetProcAddress` does not find it; found, it answers for a
handle with `none` when the call reports failure. -/
structure WindowsSystem where
  CurrentProcessId : Nat
  GetCurrentProcess : Nat
  OpenProcess : Nat → Option Nat
  moduleKernel32 : Bool
  GetProcessTimes : Option (Nat → Option (Nat × Nat))
  modulePsapi : Bool
  loadLibraryPsapi : Bool
  GetProcessMemoryInfo : Option (Nat → Option PROCESS_MEMORY_COUNTERS)
  GetProcessIoCounters : Option (Nat → Option IO_COUNTERS)

/-- Source lines 698-810: `RsrcUsage::GetRsrcUsageByWindowsHandle(selector, datum)` (with
`_MSC_VER >= 1300`). The result is the snapshot assigned to `datum`, or the condition
thrown, each through `ThrowSystemError`, before `datum` is touched. `GetProcessTimes`
answers with the kernel time and the user time, in that order. After a successful
`LoadLibraryA` the second `GetModuleHandleA("psapi")` finds the module. -/
def GetRsrcUsageByWindowsHandle (os : WindowsSystem) (selector : Nat) :
    Except ErrorCondition RsrcUsage :=
  let tmp_datum := RsrcUsage.ctor
  if !os.moduleKernel32 then
    .error (.systemError "Call to 'GetModuleHandleA()' for 'Kernel32' failed.")
  else
    let after_times : Except ErrorCondition RsrcUsage :=
      match os.GetProcessTimes with
      | none => .ok tmp_datum
      | some proc_times_fptr =>
        match proc_times_fptr selector with
        | none => .error (.systemError "Call to 'GetProcessTimes()' failed.")
        | some (kernel_time, user_time) =>
          .ok (windowsStoreProcessTimes tmp_datum user_time kernel_time)
    match after_times with
    | .error e => .error e
    | .ok tmp_datum =>
      if !os.modulePsapi && !os.loadLibraryPsapi then
        .error (.systemError "Call to 'LoadLibrary()' for 'psapi.dll' failed.")
      else
        let after_memory : Except ErrorCondition RsrcUsage :=
          match os.GetProcessMemoryInfo with
          | none => .ok tmp_datum
          | some mem_info_fptr =>
            match mem_info_fptr selector with
            | none => .error (.systemError "Call to 'GetProcessMemoryInfo()' failed.")
            | some mem_counters =>
              .ok { tmp_datum with
                major_pagef := mem_counters.PageFaultCount
                working_set_size := mem_counters.WorkingSetSize
                working_set_size_peak := mem_counters.PeakWorkingSetSize
                pagefile_usage := mem_counters.PagefileUsage
                pagefile_usage_peak := mem_counters.PeakPagefileUsage }
        match after_memory with
        | .error e => .error e
        | .ok tmp_datum =>
          match os.GetProcessIoCounters with
          | none => .ok tmp_datum
          | some proc_io_fptr =>
            match proc_io_fptr selector with
            | none => .error (.systemError "Call to 'GetProcessIoCounters()' failed.")
            | some io_counters =>
              .ok { tmp_datum with
                messages_sent := io_counters.WriteOperationCount
                messages_received := io_counters.ReadOperationCount
                messages_other := io_counters.OtherOperationCount
                chars_read_written :=
                  (io_counters.ReadTransferCount + io_counters.WriteTransferCount) %
                    RsrcUsageValueModulus
                chars_read := io_counters.ReadTransferCount
                chars_written := io_counters.WriteTransferCount
                chars_other := io_counters.OtherTransferCount }

/-- The calls of the Windows collector that acquire or release a process handle. -/
inductive WindowsEvent where
  | OpenProcess (process_id : Nat)
  | CloseHandle (handle : Nat)
  deriving DecidableEq, Repr

/-- What a call of `GetRsrcUsage` leaves behind on the Windows build: the condition thrown,
if any, the snapshot `*this` after the call, and the handle calls made, in order. -/
structure WindowsOutcome where
  thrown : Option ErrorCondition
  self : RsrcUsage
  events : List WindowsEvent
  deriving DecidableEq, Repr

/-- Source lines 898-917: `RsrcUsage::GetRsrcUsage(selector)` on the `_Windows` build. For
the current process the pseudo handle of `GetCurrentProcess()` is used. Otherwise
`OpenProcess` is called; a `NULL` answer throws; else the population logic runs inside
`try`, the handler `catch (const std::exception &)` calls `CloseHandle` and throws again,
and after the `try` block `CloseHandle` is called. -/
def RsrcUsage.GetRsrcUsageWindows (this : RsrcUsage) (os : WindowsSystem) (selector : Nat) :
    WindowsOutcome :=
  if selector = os.CurrentProcessId then
    match GetRsrcUsageByWindowsHandle os os.GetCurrentProcess with
    | .error e => { thrown := some e, self := this, events := [] }
    | .ok datum => { thrown := none, self := datum, events := [] }
  else
    match os.OpenProcess selector with
    | none =>
      { thrown := some (.systemError
          ("Call to 'OpenProcess()' for process id " ++ toString selector ++ " failed."))
        self := this
        events := [.OpenProcess selector] }
    | some selector_handle =>
      match GetRsrcUsageByWindowsHandle os selector_handle with
      | .error e =>
        { thrown := some e, self := this
          events := [.OpenProcess selector] ++ [.CloseHandle selector_handle] }
      | .ok datum =>
        { thrown := none, self := datum
          events := [.OpenProcess selector] ++ [.CloseHandle selector_handle] }

/-- An operating system for concrete runs: the current process is 100 with pseudo handle 0,
`OpenProcess` answers handle `1000 + id` for the process ids below 50000 and `NULL`
otherwise, every query is found, and every query fails for handle 1013. -/
def sampleWindowsSystem : WindowsSystem :=
  { CurrentProcessId := 100
    GetCurrentProcess := 0
    OpenProcess := fun process_id => if process_id < 50000 then some (1000 + process_id) else none
    moduleKernel32 := true
    GetProcessTimes := some fun h => if h = 1013 then none else some (20000000, 25384687500)
    modulePsapi := true
    loadLibraryPsapi := true
    GetProcessMemoryInfo :=
      some fun h => if h = 1013 then none else some ⟨7, 4096, 8192, 100, 200⟩
    GetProcessIoCounters :=
      some fun h => if h = 1013 then none else some ⟨1, 2, 3, 40, 50, 60⟩ }

/-! ## System-V collector -/

/-- The operating system's `timestruc_t`: seconds and nanoseconds. -/
structure timestruc where
  tv_sec : Int
  tv_nsec : Int
  deriving DecidableEq, Repr

/-- The members of the operating system's `struct prusage` the collector reads. -/
structure prusage where
  pr_utime : timestruc
  pr_stime : timestruc
  pr_ttime : timestruc
  pr_tftime : timestruc
  pr_dftime : timestruc
  pr_kftime : timestruc
  pr_ltime : timestruc
  pr_slptime : timestruc
  pr_wtime : timestruc
  pr_stoptime : timestruc
  pr_minf : Nat
  pr_majf : Nat
  pr_nswap : Nat
  pr_inblk : Nat
  pr_oublk : Nat
  pr_msnd : Nat
  pr_mrcv : Nat
  pr_sigs : Nat
  pr_vctx : Nat
  pr_ictx : Nat
  pr_sysc : Nat
  pr_ioch : Nat
  deriving DecidableEq, Repr

/-- Source line 950: the name of the control file,
`"/proc/" + ZeroFill(selector % 99999, 5)`. `ZeroFill` (a helper of the library, not among
the sources) is a parameter; `%` on `int` truncates towards zero. -/
def procFileName (ZeroFill : Int → Nat → String) (selector : Int) : String :=
  "/proc/" ++ ZeroFill (selector.tmod 99999) 5

/-- Modelled from the spec: `ZeroFill` is a helper of the library, not among the sources. The
spec speaks of "a zero-padded process id": the decimal digits of the value, with zeros in
front up to the width. -/
def sampleZeroFill (value : Int) (width : Nat) : String :=
  String.mk (List.replicate (width - (toString value.toNat).length) '0') ++
    toString value.toNat

/-- Source lines 999-1002: one pass of the loop, `timeval_ptr->tv_usec /= 1000000L`, on a
duration: the pointer to `struct timeval` addresses the second member of the duration,
its `tv_nsec`; `/` on `long` truncates towards zero. -/
def divideSubSecond (t : RsrcUsageTime) : RsrcUsageTime :=
  { t with tv_nsec := t.tv_nsec.tdiv 1000000 }

/-- Source lines 996-1002: the loop that walks `timeval_ptr` from the first duration
(`user_cpu_time`) to the last (`stopped_time`) of `rusage_datum`; the 10 durations lie one
after another and each has the size of a `struct timeval`. -/
def scaleTimes (rusage_datum : RsrcUsage) : RsrcUsage :=
  { rusage_datum with
    user_cpu_time := divideSubSecond rusage_datum.user_cpu_time
    system_cpu_time := divideSubSecond rusage_datum.system_cpu_time
    trap_cpu_time := divideSubSecond rusage_datum.trap_cpu_time
    text_pagef_time := divideSubSecond rusage_datum.text_pagef_time
    data_pagef_time := divideSubSecond rusage_datum.data_pagef_time
    kernel_pagef_time := divideSubSecond rusage_datum.kernel_pagef_time
    user_lock_time := divideSubSecond rusage_datum.user_lock_time
    other_sleep_time := divideSubSecond rusage_datum.other_sleep_time
    wait_cpu_time := divideSubSecond rusage_datum.wait_cpu_time
    stopped_time := divideSubSecond rusage_datum.stopped_time }

/-- The calls of the System-V collector on the control file. -/
inductive ProcFileEvent where
  | opened (name : String)
  | closed (file_handle : Int)
  deriving DecidableEq, Repr

/-- What a call of `GetRsrcUsage` leaves behind on the System-V build. -/
structure ProcFileOutcome where
  thrown : Option ErrorCondition
  self : RsrcUsage
  events : List ProcFileEvent
  deriving DecidableEq, Repr

/-- Source lines 923-1005: `RsrcUsage::GetRsrcUsage(selector)` on the `__SVR4` build.
`openReadOnly name` is the answer of `open(name, O_RDONLY)` (`none` for -1), `ioctlUsage`
the answer of `ioctl(file_handle, PIOCUSAGE, &tmp_prusage)` (`none` for -1);
`timeOfTimestruc` stands for the constructor of `RsrcUsageTime` from a `timestruc_t`
(`Utility/TimeSpec.hpp`, not among the sources). Both failures throw through
`ThrowErrno`. -/
def RsrcUsage.GetRsrcUsageSvr4 (this : RsrcUsage) (ZeroFill : Int → Nat → String)
    (timeOfTimestruc : timestruc → RsrcUsageTime) (openReadOnly : String → Option Int)
    (ioctlUsage : Int → Option prusage) (selector : Int) : ProcFileOutcome :=
  let proc_file_name := procFileName ZeroFill selector
  match openReadOnly proc_file_name with
  | none =>
    { thrown := some (.systemError
        ("Unable to open process control file '" ++ proc_file_name ++ "' for reading."))
      self := this
      events := [.opened proc_file_name] }
  | some file_handle =>
    match ioctlUsage file_handle with
    | none =>
      { thrown := some (.systemError
          "Attempt to retrieve the process usage information for pid ")
        self := this
        events := [.opened proc_file_name, .closed file_handle] }
    | some tmp_prusage =>
      let rusage_datum : RsrcUsage :=
        { RsrcUsage.ctor with
          user_cpu_time := timeOfTimestruc tmp_prusage.pr_utime
          system_cpu_time := timeOfTimestruc tmp_prusage.pr_stime
          trap_cpu_time := timeOfTimestruc tmp_prusage.pr_ttime
          text_pagef_time := timeOfTimestruc tmp_prusage.pr_tftime
          data_pagef_time := timeOfTimestruc tmp_prusage.pr_dftime
          kernel_pagef_time := timeOfTimestruc tmp_prusage.pr_kftime
          user_lock_time := timeOfTimestruc tmp_prusage.pr_ltime
          other_sleep_time := timeOfTimestruc tmp_prusage.pr_slptime
          wait_cpu_time := timeOfTimestruc tmp_prusage.pr_wtime
          stopped_time := timeOfTimestruc tmp_prusage.pr_stoptime
          minor_pagef := tmp_prusage.pr_minf
          major_pagef := tmp_prusage.pr_majf
          process_swaps := tmp_prusage.pr_nswap
          input_blocks := tmp_prusage.pr_inblk
          output_blocks := tmp_prusage.pr_oublk
          messages_sent := tmp_prusage.pr_msnd
          messages_received := tmp_prusage.pr_mrcv
          signals_received := tmp_prusage.pr_sigs
          vol_context_switch := tmp_prusage.pr_vctx
          invol_context_switch := tmp_prusage.pr_ictx
          system_calls := tmp_prusage.pr_sysc
          chars_read_written := tmp_prusage.pr_ioch }
      { thrown := none
        self := scaleTimes rusage_datum
        events := [.opened proc_file_name, .closed file_handle] }

/-- A usage record for concrete runs: `pr_utime` is 5 s 123456789 ns, the other times 0. -/
def samplePrusage : prusage :=
  ⟨⟨5, 123456789⟩, ⟨0, 0⟩, ⟨0, 0⟩, ⟨0, 0⟩, ⟨0, 0⟩, ⟨0, 0⟩, ⟨0, 0⟩, ⟨0, 0⟩, ⟨0, 0⟩, ⟨0, 0⟩,
    1, 2, 3, 4, 5, 6, 7, 8, 9, 10, 11, 12⟩

/-- A constructor of a duration from a `timestruc_t` for concrete runs: both members are
copied. -/
def sampleTimeOfTimestruc (t : timestruc) : RsrcUsageTime :=
  ⟨t.tv_sec, t.tv_nsec⟩

/-! ## Comparison, swap and assignment of snapshots -/

/-- Source lines 428-432: `GenericCompare`,
`(lhs < rhs) ? -1 : ((lhs > rhs) ? 1 : 0)`, over the `<` and `>` of the datum type. -/
def GenericCompare {α : Type} (less greater : α → α → Bool) (lhs rhs : α) : Int :=
  if less lhs rhs then -1 else if greater lhs rhs then 1 else 0

/-- The operator `<` of the unsigned count type. -/
def valueLess (a b : RsrcUsageValue) : Bool := decide (a < b)

/-- The operator `>` of the unsigned count type. -/
def valueGreater (a b : RsrcUsageValue) : Bool := decide (a > b)

/-- One step of `RsrcUsage::Compare`: `if ((cmp = ...) != 0) return(cmp);` followed by the
rest of the function. -/
def returnIfNonZero (cmp rest : Int) : Int :=
  if cmp ≠ 0 then cmp else rest

/-- Source lines 436-502: `RsrcUsage::Compare`. `timeLess` and `timeGreater` stand for the
operators `<` and `>` of `RsrcUsageTime` (`Utility/TimeSpec.hpp`, not among the
sources). -/
def RsrcUsage.Compare (timeLess timeGreater : RsrcUsageTime → RsrcUsageTime → Bool)
    (this other : RsrcUsage) : Int :=
  returnIfNonZero (GenericCompare timeLess timeGreater this.user_cpu_time other.user_cpu_time) <|
  returnIfNonZero (GenericCompare timeLess timeGreater this.system_cpu_time other.system_cpu_time) <|
  returnIfNonZero (GenericCompare timeLess timeGreater this.trap_cpu_time other.trap_cpu_time) <|
  returnIfNonZero (GenericCompare timeLess timeGreater this.text_pagef_time other.text_pagef_time) <|
  returnIfNonZero (GenericCompare timeLess timeGreater this.data_pagef_time other.data_pagef_time) <|
  returnIfNonZero (GenericCompare timeLess timeGreater this.kernel_pagef_time other.kernel_pagef_time) <|
  returnIfNonZero (GenericCompare timeLess timeGreater this.user_lock_time other.user_lock_time) <|
  returnIfNonZero (GenericCompare timeLess timeGreater this.other_sleep_time other.other_sleep_time) <|
  returnIfNonZero (GenericCompare timeLess timeGreater this.wait_cpu_time other.wait_cpu_time) <|
  returnIfNonZero (GenericCompare timeLess timeGreater this.stopped_time other.stopped_time) <|
  returnIfNonZero (GenericCompare valueLess valueGreater this.minor_pagef other.minor_pagef) <|
  returnIfNonZero (GenericCompare valueLess valueGreater this.major_pagef other.major_pagef) <|
  returnIfNonZero (GenericCompare valueLess valueGreater this.process_swaps other.process_swaps) <|
  returnIfNonZero (GenericCompare valueLess valueGreater this.input_blocks other.input_blocks) <|
  returnIfNonZero (GenericCompare valueLess valueGreater this.output_blocks other.output_blocks) <|
  returnIfNonZero (GenericCompare valueLess valueGreater this.messages_sent other.messages_sent) <|
  returnIfNonZero (GenericCompare valueLess valueGreater this.messages_received other.messages_received) <|
  returnIfNonZero (GenericCompare valueLess valueGreater this.messages_other other.messages_other) <|
  returnIfNonZero (GenericCompare valueLess valueGreater this.signals_received other.signals_received) <|
  returnIfNonZero (GenericCompare valueLess valueGreater this.vol_context_switch other.vol_context_switch) <|
  returnIfNonZero (GenericCompare valueLess valueGreater this.invol_context_switch other.invol_context_switch) <|
  returnIfNonZero (GenericCompare valueLess valueGreater this.system_calls other.system_calls) <|
  returnIfNonZero (GenericCompare valueLess valueGreater this.chars_read_written other.chars_read_written) <|
  returnIfNonZero (GenericCompare valueLess valueGreater this.chars_read other.chars_read) <|
  returnIfNonZero (GenericCompare valueLess valueGreater this.chars_written other.chars_written) <|
  returnIfNonZero (GenericCompare valueLess valueGreater this.chars_other other.chars_other) <|
  returnIfNonZero (GenericCompare valueLess valueGreater this.working_set_size other.working_set_size) <|
  returnIfNonZero (GenericCompare valueLess valueGreater this.working_set_size_peak other.working_set_size_peak) <|
  returnIfNonZero (GenericCompare valueLess valueGreater this.pagefile_usage other.pagefile_usage) <|
  returnIfNonZero (GenericCompare valueLess valueGreater this.pagefile_usage_peak other.pagefile_usage_peak) <|
  0

/-- Source lines 421-424: `RsrcUsage::operator <`, `Compare(other) < 0`. -/
def RsrcUsage.operatorLess (timeLess timeGreater : RsrcUsageTime → RsrcUsageTime → Bool)
    (this other : RsrcUsage) : Bool :=
  decide (RsrcUsage.Compare timeLess timeGreater this other < 0)

/-- The comparison `Compare` makes of the fields at one slot: `GenericCompare` of the two
durations for a slot below 10, of the two counts otherwise. -/
def fieldCompare (timeLess timeGreater : RsrcUsageTime → RsrcUsageTime → Bool)
    (a b : RsrcUsage) (slot : Nat) : Int :=
  if slot < 10 then GenericCompare timeLess timeGreater (a.slotAt slot).1 (b.slotAt slot).1
  else GenericCompare valueLess valueGreater (a.slotAt slot).2 (b.slotAt slot).2

/-- The assumption on the comparison operators of a datum type: `>` is `<` with the operands
exchanged, and `<` is a strict total order. -/
def IsStrictTotalComparison {α : Type} (less greater : α → α → Bool) : Prop :=
  (∀ a b, greater a b = less b a) ∧ (∀ a, less a a = false) ∧
  (∀ a b c, less a b = true → less b c = true → less a c = true) ∧
  (∀ a b, a ≠ b → less a b = true ∨ less b a = true)

/-- Source lines 384-416: `RsrcUsage::swap`, one `std::swap` per member. The result is the
pair of `*this` and `other` after the call. -/
def RsrcUsage.swap (this other : RsrcUsage) : RsrcUsage × RsrcUsage :=
  ({ user_cpu_time := other.user_cpu_time,
     system_cpu_time := other.system_cpu_time,
     trap_cpu_time := other.trap_cpu_time,
     text_pagef_time := other.text_pagef_time,
     data_pagef_time := other.data_pagef_time,
     kernel_pagef_time := other.kernel_pagef_time,
     user_lock_time := other.user_lock_time,
     other_sleep_time := other.other_sleep_time,
     wait_cpu_time := other.wait_cpu_time,
     stopped_time := other.stopped_time,
     minor_pagef := other.minor_pagef,
     major_pagef := other.major_pagef,
     process_swaps := other.process_swaps,
     input_blocks := other.input_blocks,
     output_blocks := other.output_blocks,
     messages_sent := other.messages_sent,
     messages_received := other.messages_received,
     messages_other := other.messages_other,
     signals_received := other.signals_received,
     vol_context_switch := other.vol_context_switch,
     invol_context_switch := other.invol_context_switch,
     system_calls := other.system_calls,
     chars_read_written := other.chars_read_written,
     chars_read := other.chars_read,
     chars_written := other.chars_written,
     chars_other := other.chars_other,
     working_set_size := other.working_set_size,
     working_set_size_peak := other.working_set_size_peak,
     pagefile_usage := other.pagefile_usage,
     pagefile_usage_peak := other.pagefile_usage_peak },
   { user_cpu_time := this.user_cpu_time,
     system_cpu_time := this.system_cpu_time,
     trap_cpu_time := this.trap_cpu_time,
     text_pagef_time := this.text_pagef_time,
     data_pagef_time := this.data_pagef_time,
     kernel_pagef_time := this.kernel_pagef_time,
     user_lock_time := this.user_lock_time,
     other_sleep_time := this.other_sleep_time,
     wait_cpu_time := this.wait_cpu_time,
     stopped_time := this.stopped_time,
     minor_pagef := this.minor_pagef,
     major_pagef := this.major_pagef,
     process_swaps := this.process_swaps,
     input_blocks := this.input_blocks,
     output_blocks := this.output_blocks,
     messages_sent := this.messages_sent,
     messages_received := this.messages_received,
     messages_other := this.messages_other,
     signals_received := this.signals_received,
     vol_context_switch := this.vol_context_switch,
     invol_context_switch := this.invol_context_switch,
     system_calls := this.system_calls,
     chars_read_written := this.chars_read_written,
     chars_read := this.chars_read,
     chars_written := this.chars_written,
     chars_other := this.chars_other,
     working_set_size := this.working_set_size,
     working_set_size_peak := this.working_set_size_peak,
     pagefile_usage := this.pagefile_usage,
     pagefile_usage_peak := this.pagefile_usage_peak })

/-- Source lines 337-369: the copy constructor, one member initialiser per member. -/
def RsrcUsage.copy (other : RsrcUsage) : RsrcUsage :=
  { user_cpu_time := other.user_cpu_time,
    system_cpu_time := other.system_cpu_time,
    trap_cpu_time := other.trap_cpu_time,
    text_pagef_time := other.text_pagef_time,
    data_pagef_time := other.data_pagef_time,
    kernel_pagef_time := other.kernel_pagef_time,
    user_lock_time := other.user_lock_time,
    other_sleep_time := other.other_sleep_time,
    wait_cpu_time := other.wait_cpu_time,
    stopped_time := other.stopped_time,
    minor_pagef := other.minor_pagef,
    major_pagef := other.major_pagef,
    process_swaps := other.process_swaps,
    input_blocks := other.input_blocks,
    output_blocks := other.output_blocks,
    messages_sent := other.messages_sent,
    messages_received := other.messages_received,
    messages_other := other.messages_other,
    signals_received := other.signals_received,
    vol_context_switch := other.vol_context_switch,
    invol_context_switch := other.invol_context_switch,
    system_calls := other.system_calls,
    chars_read_written := other.chars_read_written,
    chars_read := other.chars_read,
    chars_written := other.chars_written,
    chars_other := other.chars_other,
    working_set_size := other.working_set_size,
    working_set_size_peak := other.working_set_size_peak,
    pagefile_usage := other.pagefile_usage,
    pagefile_usage_peak := other.pagefile_usage_peak }

/-- Source lines 373-380: `RsrcUsage::operator =`, a copy of `other` into `tmp_datum`
followed by `swap(tmp_datum)`. The result is the pair of `*this` and `other` after the
call; `other` is a reference to a constant. -/
def RsrcUsage.assign (this other : RsrcUsage) : RsrcUsage × RsrcUsage :=
  let tmp_datum := RsrcUsage.copy other
  ((this.swap tmp_datum).1, other)

/-! ## `TimeTM` (`TimeTM.hpp`) -/

/-- The wrapper `TimeTM` around `struct tm`, by public inheritance: the nine members of
`struct tm`. -/
structure TimeTM where
  tm_sec : Int
  tm_min : Int
  tm_hour : Int
  tm_mday : Int
  tm_mon : Int
  tm_year : Int
  tm_wday : Int
  tm_yday : Int
  tm_isdst : Int
  deriving DecidableEq, Repr

/-- Source lines 110-125 of `TimeTM.hpp`: the static `TimeTM::Compare(lhs, rhs)`. -/
def TimeTM.Compare (lhs rhs : TimeTM) : Int :=
  if lhs.tm_year > rhs.tm_year then 1 else
  if lhs.tm_year < rhs.tm_year then -1 else
  if lhs.tm_mon > rhs.tm_mon then 1 else
  if lhs.tm_mon < rhs.tm_mon then -1 else
  if lhs.tm_mday > rhs.tm_mday then 1 else
  if lhs.tm_mday < rhs.tm_mday then -1 else
  if lhs.tm_hour > rhs.tm_hour then 1 else
  if lhs.tm_hour < rhs.tm_hour then -1 else
  if lhs.tm_min > rhs.tm_min then 1 else
  if lhs.tm_min < rhs.tm_min then -1 else
  if lhs.tm_sec > rhs.tm_sec then 1 else
  if lhs.tm_sec < rhs.tm_sec then -1 else 0

/-- The three values of `std::strong_ordering`. -/
inductive StrongOrdering where
  | less
  | equal
  | greater
  deriving DecidableEq, Repr

/-- Source lines 64-70 of `TimeTM.hpp`: `TimeTM::operator<=>`. -/
def TimeTM.operatorSpaceship (this other : TimeTM) : StrongOrdering :=
  let cmp := TimeTM.Compare this other
  if cmp < 0 then .less else if cmp > 0 then .greater else .equal

/-- Source lines 71-74 of `TimeTM.hpp`: `TimeTM::operator==`. -/
def TimeTM.operatorEq (this other : TimeTM) : Bool :=
  decide (TimeTM.Compare this other = 0)

/-- The six members `TimeTM::Compare` reads, of `lhs` before those of `rhs` in the
lexicographic order. -/
def TimeTM.lexLess (lhs rhs : TimeTM) : Prop :=
  lhs.tm_year < rhs.tm_year ∨ (lhs.tm_year = rhs.tm_year ∧
  (lhs.tm_mon < rhs.tm_mon ∨ (lhs.tm_mon = rhs.tm_mon ∧
  (lhs.tm_mday < rhs.tm_mday ∨ (lhs.tm_mday = rhs.tm_mday ∧
  (lhs.tm_hour < rhs.tm_hour ∨ (lhs.tm_hour = rhs.tm_hour ∧
  (lhs.tm_min < rhs.tm_min ∨ (lhs.tm_min = rhs.tm_min ∧
  lhs.tm_sec < rhs.tm_sec)))))))))

/-- One level of the nested conditional expression of `TimeTM::Compare`:
`(x > y) ? 1 : ((x < y) ? -1 : rest)`. -/
def compareStep (x y rest : Int) : Int :=
  if x > y then 1 else if x < y then -1 else rest

/-! ## `ValueTraits.hpp` -/

/-- The value an integer `x` converts to in a signed integer type of `w` bits: the value of
the type congruent to `x` modulo `2 ^ w`, in the range from `-2 ^ (w - 1)` to
`2 ^ (w - 1) - 1`. -/
def wrapSigned (w : Nat) (x : Int) : Int :=
  (x + 2 ^ (w - 1)) % 2 ^ w - 2 ^ (w - 1)

/-- The expression `-in_value` of the source, returned as `SomeType`, for a signed
`SomeType` of `w` bits where `int` has `int_bits` bits. An operand of a type narrower than
`int` is promoted to `int`, which holds the negation of every value of the type, and the
`return` converts the `int` to `SomeType` (`wrapSigned`). For `int` and the wider types the
negation is done in the type itself; when the mathematical result is not a value of the type
the operation is a signed overflow, for which the language defines no result: `none`. -/
def negateSigned (int_bits w : Nat) (in_value : Int) : Option Int :=
  if w < int_bits then some (wrapSigned w (-in_value))
  else if -(2 : Int) ^ (w - 1) ≤ -in_value ∧ -in_value < (2 : Int) ^ (w - 1) then
    some (-in_value)
  else none

/-- Source lines 60-64 of `ValueTraits.hpp`: `IsSignedType<false>::IsNegative`. -/
def IsSignedTypeFalse.IsNegative (_in_value : Int) : Bool := false

/-- Source lines 66-70 of `ValueTraits.hpp`: `IsSignedType<false>::GetValueNegated`. -/
def IsSignedTypeFalse.GetValueNegated (in_value : Int) : Int := in_value

/-- Source lines 72-76 of `ValueTraits.hpp`: `IsSignedType<false>::GetValueAbsolute`. -/
def IsSignedTypeFalse.GetValueAbsolute (in_value : Int) : Int := in_value

/-- Source lines 80-84 of `ValueTraits.hpp`: `IsSignedType<true>::IsNegative`. -/
def IsSignedTypeTrue.IsNegative (in_value : Int) : Bool := decide (in_value < 0)

/-- Source lines 86-90 of `ValueTraits.hpp`: `IsSignedType<true>::GetValueNegated`,
`return(-in_value)` for a signed `SomeType` of `w` bits; `none` where the negation is a
signed overflow. -/
def IsSignedTypeTrue.GetValueNegated (int_bits w : Nat) (in_value : Int) : Option Int :=
  negateSigned int_bits w in_value

/-- Source lines 92-96 of `ValueTraits.hpp`: `IsSignedType<true>::GetValueAbsolute`,
`return((IsNegative(in_value)) ? (-in_value) : in_value)`; `none` where the negation is a
signed overflow. -/
def IsSignedTypeTrue.GetValueAbsolute (int_bits w : Nat) (in_value : Int) : Option Int :=
  if IsSignedTypeTrue.IsNegative in_value then negateSigned int_bits w in_value
  else some in_value

/-- Source lines 101-107 of `ValueTraits.hpp`: `IsValueNegative`, dispatched on
`std::numeric_limits<PodType>::is_signed`. -/
def IsValueNegative (is_signed : Bool) (in_value : Int) : Bool :=
  if is_signed then IsSignedTypeTrue.IsNegative in_value
  else IsSignedTypeFalse.IsNegative in_value

/-- Source lines 110-116 of `ValueTraits.hpp`: `GetValueNegated` for a type of `w` bits,
`int` having `int_bits` bits. -/
def GetValueNegated (is_signed : Bool) (int_bits w : Nat) (in_value : Int) : Option Int :=
  if is_signed then IsSignedTypeTrue.GetValueNegated int_bits w in_value
  else some (IsSignedTypeFalse.GetValueNegated in_value)

/-- Source lines 119-125 of `ValueTraits.hpp`: `GetValueAbsolute` for a type of `w` bits,
`int` having `int_bits` bits. -/
def GetValueAbsolute (is_signed : Bool) (int_bits w : Nat) (in_value : Int) : Option Int :=
  if is_signed then IsSignedTypeTrue.GetValueAbsolute int_bits w in_value
  else some (IsSignedTypeFalse.GetValueAbsolute in_value)

/-- A snapshot for concrete runs that agrees with the registry of the POSIX/BSD build: the
18 fields that registry marks unsupported hold the sentinels, the others 0. -/
def samplePosixAgreeing : RsrcUsage :=
  { RsrcUsage.ctor with
    trap_cpu_time := RsrcUsageTimeMax, text_pagef_time := RsrcUsageTimeMax,
    data_pagef_time := RsrcUsageTimeMax, kernel_pagef_time := RsrcUsageTimeMax,
    user_lock_time := RsrcUsageTimeMax, other_sleep_time := RsrcUsageTimeMax,
    wait_cpu_time := RsrcUsageTimeMax, stopped_time := RsrcUsageTimeMax,
    messages_other := RsrcUsageValueMax, system_calls := RsrcUsageValueMax,
    chars_read_written := RsrcUsageValueMax, chars_read := RsrcUsageValueMax,
    chars_written := RsrcUsageValueMax, chars_other := RsrcUsageValueMax,
    working_set_size := RsrcUsageValueMax, working_set_size_peak := RsrcUsageValueMax,
    pagefile_usage := RsrcUsageValueMax, pagefile_usage_peak := RsrcUsageValueMax }

/-! ## Durations: the absolute difference -/

theorem RsrcUsageTime.GetDifferenceAbs_self (t : RsrcUsageTime) :
    RsrcUsageTime.GetDifferenceAbs t t = ⟨0, 0⟩ := by
  simp [RsrcUsageTime.GetDifferenceAbs, RsrcUsageTime.lt]

theorem RsrcUsageTime.GetDifferenceAbs_comm (a b : RsrcUsageTime) :
    RsrcUsageTime.GetDifferenceAbs a b = RsrcUsageTime.GetDifferenceAbs b a := by
  obtain ⟨as, an⟩ := a
  obtain ⟨bs, bn⟩ := b
  simp only [RsrcUsageTime.GetDifferenceAbs, RsrcUsageTime.lt, Bool.or_eq_true,
    Bool.and_eq_true, decide_eq_true_eq]
  by_cases h1 : as < bs ∨ as = bs ∧ an < bn
  · have h2 : ¬ (bs < as ∨ bs = as ∧ bn < an) := by omega
    simp [h1, h2]
  · by_cases h2 : bs < as ∨ bs = as ∧ bn < an
    · simp [h1, h2]
    · have hs : as = bs := by omega
      have hn : an = bn := by omega
      subst hs hn
      rfl

theorem RsrcUsageTime.GetDifferenceAbs_spec (a b : RsrcUsageTime) (ha : a.Normalized)
    (hb : b.Normalized) :
    (RsrcUsageTime.GetDifferenceAbs a b).Normalized ∧
      (RsrcUsageTime.GetDifferenceAbs a b).totalNanos = |a.totalNanos - b.totalNanos| ∧
      0 ≤ (RsrcUsageTime.GetDifferenceAbs a b).tv_sec ∧
      (RsrcUsageTime.GetDifferenceAbs a b).tv_sec ≤ |a.tv_sec - b.tv_sec| := by
  obtain ⟨as, an⟩ := a
  obtain ⟨bs, bn⟩ := b
  simp only [RsrcUsageTime.Normalized] at ha hb
  simp only [RsrcUsageTime.GetDifferenceAbs, RsrcUsageTime.lt, Bool.or_eq_true,
    Bool.and_eq_true, decide_eq_true_eq, RsrcUsageTime.Normalized, RsrcUsageTime.totalNanos]
  by_cases h1 : as < bs ∨ as = bs ∧ an < bn
  · rw [if_pos h1, if_pos h1]
    have hneg : as * 1000000000 + an - (bs * 1000000000 + bn) < 0 := by omega
    have hsec : as - bs ≤ 0 := by omega
    rw [abs_of_neg hneg, abs_of_nonpos hsec]
    split <;> dsimp only at * <;> refine ⟨⟨?_, ?_⟩, ?_, ?_, ?_⟩ <;> omega
  · rw [if_neg h1, if_neg h1]
    have hnn : 0 ≤ as * 1000000000 + an - (bs * 1000000000 + bn) := by omega
    have hsec : 0 ≤ as - bs := by omega
    rw [abs_of_nonneg hnn, abs_of_nonneg hsec]
    split <;> dsimp only at * <;> refine ⟨⟨?_, ?_⟩, ?_, ?_, ?_⟩ <;> omega

/-! ## Counts: the absolute difference -/

theorem valueDelta_self (a : RsrcUsageValue) : valueDelta a a = 0 := by
  simp [valueDelta]

theorem valueDelta_comm (a b : RsrcUsageValue) : valueDelta a b = valueDelta b a := by
  simp [valueDelta, max_comm, min_comm]

/-! ## The delta of two snapshots -/

/-- C1 (the code at the failing input). The start snapshot is all zero but for 5 in
`working_set_size_peak`, `pagefile_usage` and `pagefile_usage_peak`; the end snapshot has 9
in those three fields. `max - min` of each field is 4, yet `GetRsrcUsageDelta` returns 0 in
all three, because it computes them from `working_set_size`, which is 0 in both operands. -/
theorem GetRsrcUsageDelta_last_three_counts_read_working_set_size :
    (GetRsrcUsageDelta
        { RsrcUsage.ctor with
          working_set_size_peak := 5, pagefile_usage := 5, pagefile_usage_peak := 5 }
        { RsrcUsage.ctor with
          working_set_size_peak := 9, pagefile_usage := 9, pagefile_usage_peak := 9 }).valueAt 27
        = 0 ∧
    (GetRsrcUsageDelta
        { RsrcUsage.ctor with
          working_set_size_peak := 5, pagefile_usage := 5, pagefile_usage_peak := 5 }
        { RsrcUsage.ctor with
          working_set_size_peak := 9, pagefile_usage := 9, pagefile_usage_peak := 9 }).valueAt 28
        = 0 ∧
    (GetRsrcUsageDelta
        { RsrcUsage.ctor with
          working_set_size_peak := 5, pagefile_usage := 5, pagefile_usage_peak := 5 }
        { RsrcUsage.ctor with
          working_set_size_peak := 9, pagefile_usage := 9, pagefile_usage_peak := 9 }).valueAt 29
        = 0 ∧
    max 5 9 - min 5 9 = 4 := by
  decide

/-- C2. For two snapshots and any of the 10 duration slots whose values are normalized in
both, the delta stored at that slot is normalized and its total nanosecond count is the
absolute value of `total(end) - total(start)`; its seconds lie between 0 and the absolute
difference of the operands' seconds, so they fit the seconds type whenever that difference
does. The scenario of the spec, start `(10, 500_000_000)` and end `(12, 100_000_000)` in
`user_cpu_time`, gives `(1, 600_000_000)`. -/
theorem GetRsrcUsageDelta_duration_is_abs_difference (start_rusage end_rusage : RsrcUsage)
    (slot : Nat) (hslot : slot < 10) (hstart : (start_rusage.timeAt slot).Normalized)
    (h_end : (end_rusage.timeAt slot).Normalized) :
    ((GetRsrcUsageDelta start_rusage end_rusage).timeAt slot).Normalized ∧
    ((GetRsrcUsageDelta start_rusage end_rusage).timeAt slot).totalNanos =
      |(end_rusage.timeAt slot).totalNanos - (start_rusage.timeAt slot).totalNanos| ∧
    0 ≤ ((GetRsrcUsageDelta start_rusage end_rusage).timeAt slot).tv_sec ∧
    ((GetRsrcUsageDelta start_rusage end_rusage).timeAt slot).tv_sec ≤
      |(end_rusage.timeAt slot).tv_sec - (start_rusage.timeAt slot).tv_sec| ∧
    (GetRsrcUsageDelta { RsrcUsage.ctor with user_cpu_time := ⟨10, 500000000⟩ }
        { RsrcUsage.ctor with user_cpu_time := ⟨12, 100000000⟩ }).user_cpu_time =
      ⟨1, 600000000⟩ := by
  have hd : (GetRsrcUsageDelta start_rusage end_rusage).timeAt slot =
      RsrcUsageTime.GetDifferenceAbs (end_rusage.timeAt slot) (start_rusage.timeAt slot) := by
    interval_cases slot <;> rfl
  rw [hd]
  have hall := RsrcUsageTime.GetDifferenceAbs_spec _ _ h_end hstart
  exact ⟨hall.1, hall.2.1, hall.2.2.1, hall.2.2.2, by decide⟩

/-- C2, at the scenario of the spec: slot 0 (`user_cpu_time`) with start `(10, 500_000_000)`
and end `(12, 100_000_000)`. -/
theorem GetRsrcUsageDelta_duration_is_abs_difference_witness :
    (0 : Nat) < 10 ∧
    (({ RsrcUsage.ctor with user_cpu_time := ⟨10, 500000000⟩ } : RsrcUsage).timeAt 0).Normalized ∧
    (({ RsrcUsage.ctor with user_cpu_time := ⟨12, 100000000⟩ } : RsrcUsage).timeAt 0).Normalized ∧
    ((GetRsrcUsageDelta { RsrcUsage.ctor with user_cpu_time := ⟨10, 500000000⟩ }
        { RsrcUsage.ctor with user_cpu_time := ⟨12, 100000000⟩ }).timeAt 0).totalNanos =
      |(({ RsrcUsage.ctor with user_cpu_time := ⟨12, 100000000⟩ } : RsrcUsage).timeAt 0).totalNanos
        - (({ RsrcUsage.ctor with user_cpu_time := ⟨10, 500000000⟩ } : RsrcUsage).timeAt
            0).totalNanos| :=
  ⟨by decide, by decide, by decide,
    (GetRsrcUsageDelta_duration_is_abs_difference
      { RsrcUsage.ctor with user_cpu_time := ⟨10, 500000000⟩ }
      { RsrcUsage.ctor with user_cpu_time := ⟨12, 100000000⟩ } 0 (by decide) (by decide)
      (by decide)).2.1⟩

/-- C3. The delta of a snapshot with itself is the all-zero snapshot: each of the 20 counts
is 0 and each of the 10 durations is `(0, 0)`. -/
theorem GetRsrcUsageDelta_self (s : RsrcUsage) : GetRsrcUsageDelta s s = RsrcUsage.ctor := by
  simp [GetRsrcUsageDelta, RsrcUsage.ctor, RsrcUsageTime.GetDifferenceAbs_self,
    valueDelta_self]

/-- C4. The delta is symmetric in its operands on all 30 fields. -/
theorem GetRsrcUsageDelta_comm (a b : RsrcUsage) :
    GetRsrcUsageDelta a b = GetRsrcUsageDelta b a := by
  simp only [GetRsrcUsageDelta]
  rw [RsrcUsageTime.GetDifferenceAbs_comm b.user_cpu_time,
    RsrcUsageTime.GetDifferenceAbs_comm b.system_cpu_time,
    RsrcUsageTime.GetDifferenceAbs_comm b.trap_cpu_time,
    RsrcUsageTime.GetDifferenceAbs_comm b.text_pagef_time,
    RsrcUsageTime.GetDifferenceAbs_comm b.data_pagef_time,
    RsrcUsageTime.GetDifferenceAbs_comm b.kernel_pagef_time,
    RsrcUsageTime.GetDifferenceAbs_comm b.user_lock_time,
    RsrcUsageTime.GetDifferenceAbs_comm b.other_sleep_time,
    RsrcUsageTime.GetDifferenceAbs_comm b.wait_cpu_time,
    RsrcUsageTime.GetDifferenceAbs_comm b.stopped_time,
    valueDelta_comm a.minor_pagef, valueDelta_comm a.major_pagef,
    valueDelta_comm a.process_swaps, valueDelta_comm a.input_blocks,
    valueDelta_comm a.output_blocks, valueDelta_comm a.messages_sent,
    valueDelta_comm a.messages_received, valueDelta_comm a.messages_other,
    valueDelta_comm a.signals_received, valueDelta_comm a.vol_context_switch,
    valueDelta_comm a.invol_context_switch, valueDelta_comm a.system_calls,
    valueDelta_comm a.chars_read_written, valueDelta_comm a.chars_read,
    valueDelta_comm a.chars_written, valueDelta_comm a.chars_other,
    valueDelta_comm a.working_set_size]

/-- C5 (the code at the failing input). Both snapshots hold the unsupported sentinel
`RsrcUsageValueMax` in `pagefile_usage`, and working-set sizes 4096 and 8192. The delta's
`pagefile_usage` is 4096, not 0: it is computed from `working_set_size`. -/
theorem GetRsrcUsageDelta_sentinel_pagefile_usage_not_zero :
    ({ RsrcUsage.ctor with
        working_set_size := 4096, pagefile_usage := RsrcUsageValueMax } : RsrcUsage).pagefile_usage
      = RsrcUsageValueMax ∧
    ({ RsrcUsage.ctor with
        working_set_size := 8192, pagefile_usage := RsrcUsageValueMax } : RsrcUsage).pagefile_usage
      = RsrcUsageValueMax ∧
    (GetRsrcUsageDelta
        { RsrcUsage.ctor with working_set_size := 4096, pagefile_usage := RsrcUsageValueMax }
        { RsrcUsage.ctor with working_set_size := 8192, pagefile_usage := RsrcUsageValueMax
        }).pagefile_usage = 4096 := by
  decide

/-! ## The POSIX/BSD collector -/

/-- C6 (the code on every successful call). Whatever `rusage` the system call returns, the
collected snapshot holds `(0, 0)` in the 8 durations and 0 in the 10 counts the POSIX/BSD
strategy does not populate, and neither is the unsupported sentinel of its type. -/
theorem GetRsrcUsage_posix_unpopulated_fields_are_zero
    (timeOfTimeval : timeval → RsrcUsageTime) (r : rusage) (selector : Int) :
    ∃ d : RsrcUsage, GetRsrcUsage timeOfTimeval (fun _ => some r) selector = .ok d ∧
      d.trap_cpu_time = ⟨0, 0⟩ ∧ d.text_pagef_time = ⟨0, 0⟩ ∧ d.data_pagef_time = ⟨0, 0⟩ ∧
      d.kernel_pagef_time = ⟨0, 0⟩ ∧ d.user_lock_time = ⟨0, 0⟩ ∧
      d.other_sleep_time = ⟨0, 0⟩ ∧ d.wait_cpu_time = ⟨0, 0⟩ ∧ d.stopped_time = ⟨0, 0⟩ ∧
      d.messages_other = 0 ∧ d.system_calls = 0 ∧ d.chars_read_written = 0 ∧
      d.chars_read = 0 ∧ d.chars_written = 0 ∧ d.chars_other = 0 ∧
      d.working_set_size = 0 ∧ d.working_set_size_peak = 0 ∧ d.pagefile_usage = 0 ∧
      d.pagefile_usage_peak = 0 ∧
      (⟨0, 0⟩ : RsrcUsageTime) ≠ RsrcUsageTimeMax ∧ (0 : RsrcUsageValue) ≠ RsrcUsageValueMax :=
  ⟨_, rfl, rfl, rfl, rfl, rfl, rfl, rfl, rfl, rfl, rfl, rfl, rfl, rfl, rfl, rfl, rfl, rfl,
    rfl, rfl, by decide, by decide⟩

/-! ## The formatter -/

theorem foldl_push_eq_filterMap {α : Type} (f : α → Option String) (l : List α)
    (acc : List String) :
    l.foldl (fun tmp e => pushLine tmp (f e)) acc = acc ++ l.filterMap f := by
  induction l generalizing acc with
  | nil => simp
  | cons x xs ih =>
    rw [List.foldl_cons, ih, List.filterMap_cons]
    cases f x <;> simp [pushLine]

theorem ToStringList_eq_filterMap (p : Platform) (ToStringInterval : RsrcUsageTime → String)
    (rusage_datum : RsrcUsage) (null_format_type : RsrcUsageEmptyFormat) (text_width : Nat)
    (separator : String) :
    RsrcUsage.ToStringList p ToStringInterval rusage_datum null_format_type text_width
        separator =
      (PRIVATE_RsrcUsageSpec_INSTANCE p).member_set_.filterMap
        (formatElement ToStringInterval rusage_datum null_format_type text_width separator) := by
  have h := foldl_push_eq_filterMap
    (formatElement ToStringInterval rusage_datum null_format_type text_width separator)
    (PRIVATE_RsrcUsageSpec_INSTANCE p).member_set_ []
  rw [List.nil_append] at h
  exact h

/-- The text of an unsupported field under a policy other than `Skip`. -/
theorem formatElement_unsupported_Null (ToStringInterval : RsrcUsageTime → String)
    (rusage_datum : RsrcUsage) (text_width : Nat) (separator : String) (e : RsrcUsageElement)
    (h : e.is_supported_flag_ = false) :
    formatElement ToStringInterval rusage_datum .RsrcUsageEmptyFormatNull text_width separator e
      = some (setwLeft text_width e.title_name_ ++ separator ++
          (if e.is_time_flag_ then "?????? ??:??:??.?????????"
           else setwRight IntegralValueMaxLengthDecUnsigned "?")) := by
  unfold formatElement
  cases ht : e.is_time_flag_ <;> simp [h, ht, nullTimeText]

theorem formatElement_unsupported_Zero (ToStringInterval : RsrcUsageTime → String)
    (rusage_datum : RsrcUsage) (text_width : Nat) (separator : String) (e : RsrcUsageElement)
    (h : e.is_supported_flag_ = false) :
    formatElement ToStringInterval rusage_datum .RsrcUsageEmptyFormatZero text_width separator e
      = some (setwLeft text_width e.title_name_ ++ separator ++
          (if e.is_time_flag_ then "000000 00:00:00.000000000"
           else setwRight IntegralValueMaxLengthDecUnsigned "0")) := by
  unfold formatElement
  cases ht : e.is_time_flag_ <;> simp [h, ht, zeroTimeText]

theorem formatElement_supported (ToStringInterval : RsrcUsageTime → String)
    (rusage_datum : RsrcUsage) (null_format_type : RsrcUsageEmptyFormat) (text_width : Nat)
    (separator : String) (e : RsrcUsageElement) (h : e.is_supported_flag_ = true) :
    formatElement ToStringInterval rusage_datum null_format_type text_width separator e
      = some (setwLeft text_width e.title_name_ ++ separator ++
          supportedValueText ToStringInterval rusage_datum e) := by
  unfold formatElement supportedValueText
  cases ht : e.is_time_flag_ <;> simp [h, ht]

theorem formatElement_Skip_unsupported (ToStringInterval : RsrcUsageTime → String)
    (rusage_datum : RsrcUsage) (text_width : Nat) (separator : String) (e : RsrcUsageElement)
    (h : e.is_supported_flag_ = false) :
    formatElement ToStringInterval rusage_datum .RsrcUsageEmptyFormatSkip text_width separator e
      = none := by
  simp [formatElement, h]

theorem formatElement_isSome_of_ne_Skip (ToStringInterval : RsrcUsageTime → String)
    (rusage_datum : RsrcUsage) (null_format_type : RsrcUsageEmptyFormat) (text_width : Nat)
    (separator : String) (e : RsrcUsageElement)
    (h : null_format_type ≠ .RsrcUsageEmptyFormatSkip) :
    (formatElement ToStringInterval rusage_datum null_format_type text_width separator
      e).isSome = true := by
  unfold formatElement
  cases e.is_supported_flag_ <;> cases e.is_time_flag_ <;>
    cases null_format_type <;> simp at h ⊢

theorem filterMap_length_of_isSome {α β : Type} (f : α → Option β) (l : List α)
    (h : ∀ a, (f a).isSome = true) : (l.filterMap f).length = l.length := by
  induction l with
  | nil => rfl
  | cons x xs ih =>
    have hx := h x
    cases hfx : f x with
    | none => simp [hfx] at hx
    | some y => simp [List.filterMap_cons, hfx, ih]

theorem getElem?_filterMap_of_isSome {α β : Type} (f : α → Option β) (l : List α)
    (h : ∀ a, (f a).isSome = true) (i : Nat) :
    (l.filterMap f)[i]? = l[i]?.bind f := by
  induction l generalizing i with
  | nil => simp
  | cons x xs ih =>
    have hx := h x
    cases hfx : f x with
    | none => simp [hfx] at hx
    | some y =>
      cases i with
      | zero => simp [List.filterMap_cons, hfx]
      | succ n => simp [List.filterMap_cons, hfx, ih]

theorem member_set_length (p : Platform) :
    (PRIVATE_RsrcUsageSpec_INSTANCE p).member_set_.length = 30 := by
  cases p <;> decide

theorem filterMap_formatElement_Skip (ToStringInterval : RsrcUsageTime → String)
    (rusage_datum : RsrcUsage) (text_width : Nat) (separator : String)
    (l : List RsrcUsageElement) :
    l.filterMap
        (formatElement ToStringInterval rusage_datum .RsrcUsageEmptyFormatSkip text_width
          separator) =
      (l.filter fun e => e.is_supported_flag_).map fun e =>
        setwLeft text_width e.title_name_ ++ separator ++
          supportedValueText ToStringInterval rusage_datum e := by
  induction l with
  | nil => rfl
  | cons x xs ih =>
    cases hx : x.is_supported_flag_ with
    | false =>
      rw [List.filterMap_cons, formatElement_Skip_unsupported _ _ _ _ _ hx, ih]
      simp [List.filter_cons, hx]
    | true =>
      rw [List.filterMap_cons, formatElement_supported _ _ _ _ _ _ hx, ih]
      simp [List.filter_cons, hx]

theorem ToStringList_length_of_ne_Skip (p : Platform)
    (ToStringInterval : RsrcUsageTime → String) (rusage_datum : RsrcUsage)
    (null_format_type : RsrcUsageEmptyFormat) (text_width : Nat) (separator : String)
    (h : null_format_type ≠ .RsrcUsageEmptyFormatSkip) :
    (RsrcUsage.ToStringList p ToStringInterval rusage_datum null_format_type text_width
      separator).length = 30 := by
  rw [ToStringList_eq_filterMap, filterMap_length_of_isSome _ _
    (formatElement_isSome_of_ne_Skip _ _ _ _ _ · h), member_set_length]

/-- C7. Under policy `Null`, the line of every descriptor the registry of a build marks
unsupported (the `i`-th line for the `i`-th descriptor) is the title left-justified in the
label column, the separator, and the fixed placeholder: `"?????? ??:??:??.?????????"` for a
duration, a single `"?"` right-justified in the count column for a count. The placeholder
holds no decimal digit. On the POSIX/BSD build the line of "Other System Trap CPU Time"
(the third) carries the duration placeholder. -/
theorem ToStringList_Null_renders_placeholder (p : Platform)
    (ToStringInterval : RsrcUsageTime → String) (rusage_datum : RsrcUsage) (text_width : Nat)
    (separator : String) (i : Nat) (e : RsrcUsageElement)
    (he : (PRIVATE_RsrcUsageSpec_INSTANCE p).member_set_[i]? = some e)
    (hunsupported : e.is_supported_flag_ = false) :
    (RsrcUsage.ToStringList p ToStringInterval rusage_datum .RsrcUsageEmptyFormatNull
        text_width separator)[i]? =
      some (setwLeft text_width e.title_name_ ++ separator ++
        (if e.is_time_flag_ then "?????? ??:??:??.?????????"
         else setwRight IntegralValueMaxLengthDecUnsigned "?")) ∧
    (∀ c ∈ (if e.is_time_flag_ then "?????? ??:??:??.?????????"
         else setwRight IntegralValueMaxLengthDecUnsigned "?").toList, c.isDigit = false) ∧
    (RsrcUsage.ToStringList .posix ToStringInterval rusage_datum .RsrcUsageEmptyFormatNull
        text_width separator)[2]? =
      some (setwLeft text_width "Other System Trap CPU Time" ++ separator ++
        "?????? ??:??:??.?????????") := by
  have hsome : ∀ a, (formatElement ToStringInterval rusage_datum .RsrcUsageEmptyFormatNull
      text_width separator a).isSome = true :=
    fun a => formatElement_isSome_of_ne_Skip _ _ _ _ _ a (by decide)
  refine ⟨?_, ?_, ?_⟩
  · rw [ToStringList_eq_filterMap, getElem?_filterMap_of_isSome _ _ hsome, he,
      Option.some_bind, formatElement_unsupported_Null _ _ _ _ _ hunsupported]
  · cases e.is_time_flag_ <;> decide
  · have h2 : (PRIVATE_RsrcUsageSpec_INSTANCE .posix).member_set_[2]? =
        some ⟨2, "Other System Trap CPU Time", "trap_cpu_time", true, false⟩ := by decide
    rw [ToStringList_eq_filterMap, getElem?_filterMap_of_isSome _ _ hsome, h2,
      Option.some_bind, formatElement_unsupported_Null _ _ _ _ _ rfl]
    rfl

/-- C7, at the POSIX/BSD registry: descriptor 17 is "Messages Other", a count the registry
marks unsupported; the snapshot is all zero, the width 30 and the separator `": "`. -/
theorem ToStringList_Null_renders_placeholder_witness :
    (PRIVATE_RsrcUsageSpec_INSTANCE .posix).member_set_[17]? =
      some ⟨17, "Messages Other", "messages_other", false, false⟩ ∧
    (RsrcUsage.ToStringList .posix (fun _ => "000000 00:00:00.000000000") RsrcUsage.ctor
        .RsrcUsageEmptyFormatNull 30 ": ")[17]? =
      some (setwLeft 30 "Messages Other" ++ ": " ++
        setwRight IntegralValueMaxLengthDecUnsigned "?") :=
  ⟨by decide,
    (ToStringList_Null_renders_placeholder .posix (fun _ => "000000 00:00:00.000000000")
      RsrcUsage.ctor 30 ": " 17 ⟨17, "Messages Other", "messages_other", false, false⟩
      (by decide) rfl).1⟩

/-- C8. Under policy `Skip` the lines are exactly the lines of the descriptors the registry of
the build marks supported, in registry order, each the title left-justified in the label
column, the separator and the value of the field; so there are never more of them than
under any policy. On the POSIX/BSD build there are 12, against 30 under `Zero`, `Null` and
`None`. -/
theorem ToStringList_Skip_lines_are_supported_fields (p : Platform)
    (ToStringInterval : RsrcUsageTime → String) (rusage_datum : RsrcUsage)
    (null_format_type : RsrcUsageEmptyFormat) (text_width : Nat) (separator : String) :
    RsrcUsage.ToStringList p ToStringInterval rusage_datum .RsrcUsageEmptyFormatSkip text_width
        separator =
      (((PRIVATE_RsrcUsageSpec_INSTANCE p).member_set_.filter
          fun e => e.is_supported_flag_).map fun e =>
        setwLeft text_width e.title_name_ ++ separator ++
          supportedValueText ToStringInterval rusage_datum e) ∧
    (RsrcUsage.ToStringList p ToStringInterval rusage_datum .RsrcUsageEmptyFormatSkip
        text_width separator).length ≤
      (RsrcUsage.ToStringList p ToStringInterval rusage_datum null_format_type text_width
        separator).length ∧
    (RsrcUsage.ToStringList .posix ToStringInterval rusage_datum .RsrcUsageEmptyFormatSkip
        text_width separator).length = 12 ∧
    (RsrcUsage.ToStringList .posix ToStringInterval rusage_datum .RsrcUsageEmptyFormatZero
        text_width separator).length = 30 ∧
    (RsrcUsage.ToStringList .posix ToStringInterval rusage_datum .RsrcUsageEmptyFormatNull
        text_width separator).length = 30 ∧
    (RsrcUsage.ToStringList .posix ToStringInterval rusage_datum .RsrcUsageEmptyFormatNone
        text_width separator).length = 30 := by
  have hskip : ∀ q : Platform,
      RsrcUsage.ToStringList q ToStringInterval rusage_datum .RsrcUsageEmptyFormatSkip
          text_width separator =
        (((PRIVATE_RsrcUsageSpec_INSTANCE q).member_set_.filter
            fun e => e.is_supported_flag_).map fun e =>
          setwLeft text_width e.title_name_ ++ separator ++
            supportedValueText ToStringInterval rusage_datum e) := fun q => by
    rw [ToStringList_eq_filterMap, filterMap_formatElement_Skip]
  refine ⟨hskip p, ?_, ?_, ?_, ?_, ?_⟩
  · by_cases hfmt : null_format_type = .RsrcUsageEmptyFormatSkip
    · rw [hfmt]
    · rw [ToStringList_length_of_ne_Skip _ _ _ _ _ _ hfmt, hskip, List.length_map,
        ← member_set_length p]
      exact List.length_filter_le _ _
  · rw [hskip, List.length_map]
    decide
  · exact ToStringList_length_of_ne_Skip _ _ _ _ _ _ (by decide)
  · exact ToStringList_length_of_ne_Skip _ _ _ _ _ _ (by decide)
  · exact ToStringList_length_of_ne_Skip _ _ _ _ _ _ (by decide)

/-- C9. Under policy `Zero`, the line of every descriptor the registry of a build marks
unsupported (the `i`-th line for the `i`-th descriptor) is the title left-justified in the
label column, the separator, and the literal zero form: `"000000 00:00:00.000000000"` for a
duration, `"0"` right-justified in the count column for a count, whatever the snapshot
stores in the field. -/
theorem ToStringList_Zero_renders_zero_form (p : Platform)
    (ToStringInterval : RsrcUsageTime → String) (rusage_datum : RsrcUsage) (text_width : Nat)
    (separator : String) (i : Nat) (e : RsrcUsageElement)
    (he : (PRIVATE_RsrcUsageSpec_INSTANCE p).member_set_[i]? = some e)
    (hunsupported : e.is_supported_flag_ = false) :
    (RsrcUsage.ToStringList p ToStringInterval rusage_datum .RsrcUsageEmptyFormatZero
        text_width separator)[i]? =
      some (setwLeft text_width e.title_name_ ++ separator ++
        (if e.is_time_flag_ then "000000 00:00:00.000000000"
         else setwRight IntegralValueMaxLengthDecUnsigned "0")) := by
  have hsome : ∀ a, (formatElement ToStringInterval rusage_datum .RsrcUsageEmptyFormatZero
      text_width separator a).isSome = true :=
    fun a => formatElement_isSome_of_ne_Skip _ _ _ _ _ a (by decide)
  rw [ToStringList_eq_filterMap, getElem?_filterMap_of_isSome _ _ hsome, he,
    Option.some_bind, formatElement_unsupported_Zero _ _ _ _ _ hunsupported]

/-- C9, at the POSIX/BSD registry: descriptor 28 is "Pagefile Usage", a count the registry
marks unsupported; the snapshot stores 777 there, yet the line shows the zero form. -/
theorem ToStringList_Zero_renders_zero_form_witness :
    (PRIVATE_RsrcUsageSpec_INSTANCE .posix).member_set_[28]? =
      some ⟨28, "Pagefile Usage", "pagefile_usage", false, false⟩ ∧
    (RsrcUsage.ToStringList .posix (fun _ => "000000 00:00:00.000000000")
        { RsrcUsage.ctor with pagefile_usage := 777 } .RsrcUsageEmptyFormatZero 30 ": ")[28]? =
      some (setwLeft 30 "Pagefile Usage" ++ ": " ++
        setwRight IntegralValueMaxLengthDecUnsigned "0") :=
  ⟨by decide,
    ToStringList_Zero_renders_zero_form .posix (fun _ => "000000 00:00:00.000000000")
      { RsrcUsage.ctor with pagefile_usage := 777 } 30 ": " 28
      ⟨28, "Pagefile Usage", "pagefile_usage", false, false⟩ (by decide) rfl⟩

/-- C10. Policy `None` returns exactly the list of lines policy `Zero` returns. -/
theorem ToStringList_None_eq_Zero (p : Platform) (ToStringInterval : RsrcUsageTime → String)
    (rusage_datum : RsrcUsage) (text_width : Nat) (separator : String) :
    RsrcUsage.ToStringList p ToStringInterval rusage_datum .RsrcUsageEmptyFormatNone text_width
        separator =
      RsrcUsage.ToStringList p ToStringInterval rusage_datum .RsrcUsageEmptyFormatZero
        text_width separator := by
  have h : formatElement ToStringInterval rusage_datum .RsrcUsageEmptyFormatNone text_width
        separator =
      formatElement ToStringInterval rusage_datum .RsrcUsageEmptyFormatZero text_width
        separator := by
    funext e
    simp [formatElement]
  rw [ToStringList_eq_filterMap, ToStringList_eq_filterMap, h]

/-! ## Duration-only and count-only rendering against the registry -/

theorem ToStringListTimes_eq_filterMap (r : RsrcUsage)
    (ToStringInterval : RsrcUsageTime → String) (null_format_type : RsrcUsageEmptyFormat)
    (text_width : Nat) (out_list : List String) (separator : String) :
    r.ToStringListTimes ToStringInterval null_format_type text_width out_list separator =
      out_list ++ (PRIVATE_RsrcUsageMemberList.filter fun e => e.is_time_flag_).filterMap
        (fun e => timesLine ToStringInterval null_format_type text_width separator
          e.title_name_ (r.timeAt e.member_offset_)) := by
  have h := foldl_push_eq_filterMap
    (fun count_1 => timesLine ToStringInterval null_format_type text_width separator
      (GetNameListTimes.getD count_1 "") (r.GetListTimes.getD count_1 ⟨0, 0⟩))
    (List.range GetNameListTimes.length) out_list
  exact h

theorem ToStringListValues_eq_filterMap (r : RsrcUsage)
    (null_format_type : RsrcUsageEmptyFormat) (text_width : Nat) (out_list : List String)
    (separator : String) :
    r.ToStringListValues null_format_type text_width out_list separator =
      out_list ++ (PRIVATE_RsrcUsageMemberList.filter fun e => !e.is_time_flag_).filterMap
        (fun e => valuesLine null_format_type text_width separator
          e.title_name_ (r.valueAt e.member_offset_)) := by
  have h := foldl_push_eq_filterMap
    (fun count_1 => valuesLine null_format_type text_width separator
      (GetNameListValues.getD count_1 "") (r.GetListValues.getD count_1 0))
    (List.range GetNameListValues.length) out_list
  exact h

/-- The registry of every build lists the titles, offsets and kinds of the member table, in
the order of the table. -/
theorem member_set_descriptors (p : Platform) :
    (PRIVATE_RsrcUsageSpec_INSTANCE p).member_set_.map
        (fun e => (e.title_name_, e.member_offset_, e.is_time_flag_)) =
      PRIVATE_RsrcUsageMemberList.map
        (fun e => (e.title_name_, e.member_offset_, e.is_time_flag_)) := by
  cases p <;> decide

theorem filterMap_filter_descriptors (F : String × Nat × Bool → Option String)
    (P : String × Nat × Bool → Bool) (l : List RsrcUsageElement) :
    (l.filter fun e => P (e.title_name_, e.member_offset_, e.is_time_flag_)).filterMap
        (fun e => F (e.title_name_, e.member_offset_, e.is_time_flag_)) =
      ((l.map fun e => (e.title_name_, e.member_offset_, e.is_time_flag_)).filter
        P).filterMap F := by
  induction l with
  | nil => rfl
  | cons x xs ih =>
    cases hP : P (x.title_name_, x.member_offset_, x.is_time_flag_) <;>
      simp [List.filter_cons, List.filterMap_cons, hP, ih]

theorem filterMap_times_registry (p : Platform) (F : String × Nat × Bool → Option String) :
    ((PRIVATE_RsrcUsageSpec_INSTANCE p).member_set_.filter
        fun e => e.is_time_flag_).filterMap
        (fun e => F (e.title_name_, e.member_offset_, e.is_time_flag_)) =
      (PRIVATE_RsrcUsageMemberList.filter fun e => e.is_time_flag_).filterMap
        (fun e => F (e.title_name_, e.member_offset_, e.is_time_flag_)) := by
  rw [filterMap_filter_descriptors F (fun d => d.2.2),
    filterMap_filter_descriptors F (fun d => d.2.2), member_set_descriptors]

theorem filterMap_values_registry (p : Platform) (F : String × Nat × Bool → Option String) :
    ((PRIVATE_RsrcUsageSpec_INSTANCE p).member_set_.filter
        fun e => !e.is_time_flag_).filterMap
        (fun e => F (e.title_name_, e.member_offset_, e.is_time_flag_)) =
      (PRIVATE_RsrcUsageMemberList.filter fun e => !e.is_time_flag_).filterMap
        (fun e => F (e.title_name_, e.member_offset_, e.is_time_flag_)) := by
  rw [filterMap_filter_descriptors F (fun d => !d.2.2),
    filterMap_filter_descriptors F (fun d => !d.2.2), member_set_descriptors]

/-- Where the field of a duration descriptor holds the sentinel exactly when the descriptor
is unsupported, the registry-driven body and the sentinel-driven body give the same line
under every policy but `None`. -/
theorem formatElement_eq_timesLine (ToStringInterval : RsrcUsageTime → String)
    (rusage_datum : RsrcUsage) (null_format_type : RsrcUsageEmptyFormat) (text_width : Nat)
    (separator : String) (e : RsrcUsageElement) (htime : e.is_time_flag_ = true)
    (hagree : fieldHoldsSentinel rusage_datum e = !e.is_supported_flag_)
    (hfmt : null_format_type ≠ .RsrcUsageEmptyFormatNone) :
    formatElement ToStringInterval rusage_datum null_format_type text_width separator e =
      timesLine ToStringInterval null_format_type text_width separator e.title_name_
        (rusage_datum.timeAt e.member_offset_) := by
  unfold fieldHoldsSentinel at hagree
  rw [if_pos htime] at hagree
  unfold formatElement timesLine
  cases hs : e.is_supported_flag_ <;> cases null_format_type <;>
    simp_all [nullTimeText, zeroTimeText]

theorem formatElement_eq_valuesLine (ToStringInterval : RsrcUsageTime → String)
    (rusage_datum : RsrcUsage) (null_format_type : RsrcUsageEmptyFormat) (text_width : Nat)
    (separator : String) (e : RsrcUsageElement) (htime : e.is_time_flag_ = false)
    (hagree : fieldHoldsSentinel rusage_datum e = !e.is_supported_flag_)
    (hfmt : null_format_type ≠ .RsrcUsageEmptyFormatNone) :
    formatElement ToStringInterval rusage_datum null_format_type text_width separator e =
      valuesLine null_format_type text_width separator e.title_name_
        (rusage_datum.valueAt e.member_offset_) := by
  unfold fieldHoldsSentinel at hagree
  rw [htime] at hagree
  simp only [Bool.false_eq_true, if_false] at hagree
  unfold formatElement valuesLine
  cases hs : e.is_supported_flag_ <;> cases null_format_type <;>
    simp_all

/-- The registry of every build lists the durations first, then the counts. -/
theorem member_set_times_then_values (p : Platform) :
    (PRIVATE_RsrcUsageSpec_INSTANCE p).member_set_ =
      ((PRIVATE_RsrcUsageSpec_INSTANCE p).member_set_.filter fun e => e.is_time_flag_) ++
        ((PRIVATE_RsrcUsageSpec_INSTANCE p).member_set_.filter fun e => !e.is_time_flag_) := by
  cases p <;> decide

theorem filterMap_congr_mem {α β : Type} (f g : α → Option β) (l : List α)
    (h : ∀ a ∈ l, f a = g a) : l.filterMap f = l.filterMap g := by
  induction l with
  | nil => rfl
  | cons x xs ih =>
    rw [List.filterMap_cons, List.filterMap_cons, h x (List.mem_cons_self _ _),
      ih fun a ha => h a (List.mem_cons_of_mem _ ha)]

theorem ToStringListTimes_eq_registry_lines (p : Platform)
    (ToStringInterval : RsrcUsageTime → String) (r : RsrcUsage)
    (null_format_type : RsrcUsageEmptyFormat) (text_width : Nat) (separator : String)
    (out_list : List String) (hagree : SentinelsAgree p r)
    (hfmt : null_format_type ≠ .RsrcUsageEmptyFormatNone) :
    r.ToStringListTimes ToStringInterval null_format_type text_width out_list separator =
      out_list ++
        ((PRIVATE_RsrcUsageSpec_INSTANCE p).member_set_.filter
          fun e => e.is_time_flag_).filterMap
          (formatElement ToStringInterval r null_format_type text_width separator) := by
  rw [ToStringListTimes_eq_filterMap,
    ← filterMap_times_registry p (fun d =>
      timesLine ToStringInterval null_format_type text_width separator d.1 (r.timeAt d.2.1))]
  congr 1
  apply filterMap_congr_mem
  intro e he
  rw [List.mem_filter] at he
  exact (formatElement_eq_timesLine _ _ _ _ _ e he.2 (hagree e he.1) hfmt).symm

theorem ToStringListValues_eq_registry_lines (p : Platform)
    (ToStringInterval : RsrcUsageTime → String) (r : RsrcUsage)
    (null_format_type : RsrcUsageEmptyFormat) (text_width : Nat) (separator : String)
    (out_list : List String) (hagree : SentinelsAgree p r)
    (hfmt : null_format_type ≠ .RsrcUsageEmptyFormatNone) :
    r.ToStringListValues null_format_type text_width out_list separator =
      out_list ++
        ((PRIVATE_RsrcUsageSpec_INSTANCE p).member_set_.filter
          fun e => !e.is_time_flag_).filterMap
          (formatElement ToStringInterval r null_format_type text_width separator) := by
  rw [ToStringListValues_eq_filterMap,
    ← filterMap_values_registry p (fun d =>
      valuesLine null_format_type text_width separator d.1 (r.valueAt d.2.1))]
  congr 1
  apply filterMap_congr_mem
  intro e he
  rw [List.mem_filter] at he
  have ht : e.is_time_flag_ = false := by simpa using he.2
  exact (formatElement_eq_valuesLine _ _ _ _ _ e ht (hagree e he.1) hfmt).symm

/-- C11 (the claim fails as stated). On the POSIX/BSD build, for the all-zero snapshot under
policy `Null` with width 30 and separator `": "`, `ToStringListTimes` on an empty list does
not return the 10 duration lines of `ToStringList` (the first 10 of its 30 lines): the
registry marks `trap_cpu_time` unsupported, so `ToStringList` shows the placeholder, while
`ToStringListTimes` finds no sentinel in the field and shows the interval text. -/
theorem ToStringListTimes_differs_from_ToStringList_durations :
    RsrcUsage.ctor.ToStringListTimes (fun _ => "000000 00:00:00.000000000")
        .RsrcUsageEmptyFormatNull 30 [] ": " ≠
      (RsrcUsage.ToStringList .posix (fun _ => "000000 00:00:00.000000000") RsrcUsage.ctor
        .RsrcUsageEmptyFormatNull 30 ": ").take 10 := by
  decide

/-- C11 (amended). For a snapshot that agrees with the registry of the build (a field holds
the unsupported sentinel of its type exactly when its descriptor is marked unsupported) and
a policy other than `None`, `ToStringListTimes` on an empty list returns exactly the lines
`ToStringList` produces for the duration descriptors, `ToStringListValues` exactly the
lines it produces for the count descriptors, and the whole-snapshot list is the first
followed by the second. -/
theorem ToStringListTimes_Values_agree_with_ToStringList (p : Platform)
    (ToStringInterval : RsrcUsageTime → String) (r : RsrcUsage)
    (null_format_type : RsrcUsageEmptyFormat) (text_width : Nat) (separator : String)
    (hagree : SentinelsAgree p r)
    (hfmt : null_format_type ≠ .RsrcUsageEmptyFormatNone) :
    r.ToStringListTimes ToStringInterval null_format_type text_width [] separator =
      ((PRIVATE_RsrcUsageSpec_INSTANCE p).member_set_.filter
        fun e => e.is_time_flag_).filterMap
        (formatElement ToStringInterval r null_format_type text_width separator) ∧
    r.ToStringListValues null_format_type text_width [] separator =
      ((PRIVATE_RsrcUsageSpec_INSTANCE p).member_set_.filter
        fun e => !e.is_time_flag_).filterMap
        (formatElement ToStringInterval r null_format_type text_width separator) ∧
    RsrcUsage.ToStringList p ToStringInterval r null_format_type text_width separator =
      ((PRIVATE_RsrcUsageSpec_INSTANCE p).member_set_.filter
        fun e => e.is_time_flag_).filterMap
        (formatElement ToStringInterval r null_format_type text_width separator) ++
      ((PRIVATE_RsrcUsageSpec_INSTANCE p).member_set_.filter
        fun e => !e.is_time_flag_).filterMap
        (formatElement ToStringInterval r null_format_type text_width separator) := by
  refine ⟨?_, ?_, ?_⟩
  · rw [ToStringListTimes_eq_registry_lines p _ _ _ _ _ _ hagree hfmt, List.nil_append]
  · rw [ToStringListValues_eq_registry_lines p ToStringInterval _ _ _ _ _ hagree hfmt,
      List.nil_append]
  · rw [ToStringList_eq_filterMap, ← List.filterMap_append, ← member_set_times_then_values]

/-- C11 (amended), at the POSIX/BSD registry: the snapshot holds the sentinels in the 18
fields the registry marks unsupported and zero elsewhere; policy `Null`, width 30,
separator `": "`. -/
theorem ToStringListTimes_Values_agree_with_ToStringList_witness :
    SentinelsAgree .posix
      { RsrcUsage.ctor with
          trap_cpu_time := RsrcUsageTimeMax, text_pagef_time := RsrcUsageTimeMax,
          data_pagef_time := RsrcUsageTimeMax, kernel_pagef_time := RsrcUsageTimeMax,
          user_lock_time := RsrcUsageTimeMax, other_sleep_time := RsrcUsageTimeMax,
          wait_cpu_time := RsrcUsageTimeMax, stopped_time := RsrcUsageTimeMax,
          messages_other := RsrcUsageValueMax, system_calls := RsrcUsageValueMax,
          chars_read_written := RsrcUsageValueMax, chars_read := RsrcUsageValueMax,
          chars_written := RsrcUsageValueMax, chars_other := RsrcUsageValueMax,
          working_set_size := RsrcUsageValueMax, working_set_size_peak := RsrcUsageValueMax,
          pagefile_usage := RsrcUsageValueMax, pagefile_usage_peak := RsrcUsageValueMax } ∧
    ({ RsrcUsage.ctor with
          trap_cpu_time := RsrcUsageTimeMax, text_pagef_time := RsrcUsageTimeMax,
          data_pagef_time := RsrcUsageTimeMax, kernel_pagef_time := RsrcUsageTimeMax,
          user_lock_time := RsrcUsageTimeMax, other_sleep_time := RsrcUsageTimeMax,
          wait_cpu_time := RsrcUsageTimeMax, stopped_time := RsrcUsageTimeMax,
          messages_other := RsrcUsageValueMax, system_calls := RsrcUsageValueMax,
          chars_read_written := RsrcUsageValueMax, chars_read := RsrcUsageValueMax,
          chars_written := RsrcUsageValueMax, chars_other := RsrcUsageValueMax,
          working_set_size := RsrcUsageValueMax, working_set_size_peak := RsrcUsageValueMax,
          pagefile_usage := RsrcUsageValueMax, pagefile_usage_peak := RsrcUsageValueMax } : RsrcUsage).ToStringListTimes
        (fun _ => "000000 00:00:00.000000000") .RsrcUsageEmptyFormatNull 30 [] ": " =
      ((PRIVATE_RsrcUsageSpec_INSTANCE .posix).member_set_.filter
        fun e => e.is_time_flag_).filterMap
        (formatElement (fun _ => "000000 00:00:00.000000000")
          { RsrcUsage.ctor with
          trap_cpu_time := RsrcUsageTimeMax, text_pagef_time := RsrcUsageTimeMax,
          data_pagef_time := RsrcUsageTimeMax, kernel_pagef_time := RsrcUsageTimeMax,
          user_lock_time := RsrcUsageTimeMax, other_sleep_time := RsrcUsageTimeMax,
          wait_cpu_time := RsrcUsageTimeMax, stopped_time := RsrcUsageTimeMax,
          messages_other := RsrcUsageValueMax, system_calls := RsrcUsageValueMax,
          chars_read_written := RsrcUsageValueMax, chars_read := RsrcUsageValueMax,
          chars_written := RsrcUsageValueMax, chars_other := RsrcUsageValueMax,
          working_set_size := RsrcUsageValueMax, working_set_size_peak := RsrcUsageValueMax,
          pagefile_usage := RsrcUsageValueMax, pagefile_usage_peak := RsrcUsageValueMax }
          .RsrcUsageEmptyFormatNull 30 ": ") :=
  ⟨by decide,
    (ToStringListTimes_Values_agree_with_ToStringList .posix
      (fun _ => "000000 00:00:00.000000000")
      { RsrcUsage.ctor with
          trap_cpu_time := RsrcUsageTimeMax, text_pagef_time := RsrcUsageTimeMax,
          data_pagef_time := RsrcUsageTimeMax, kernel_pagef_time := RsrcUsageTimeMax,
          user_lock_time := RsrcUsageTimeMax, other_sleep_time := RsrcUsageTimeMax,
          wait_cpu_time := RsrcUsageTimeMax, stopped_time := RsrcUsageTimeMax,
          messages_other := RsrcUsageValueMax, system_calls := RsrcUsageValueMax,
          chars_read_written := RsrcUsageValueMax, chars_read := RsrcUsageValueMax,
          chars_written := RsrcUsageValueMax, chars_other := RsrcUsageValueMax,
          working_set_size := RsrcUsageValueMax, working_set_size_peak := RsrcUsageValueMax,
          pagefile_usage := RsrcUsageValueMax, pagefile_usage_peak := RsrcUsageValueMax }
      .RsrcUsageEmptyFormatNull 30 ": " (by decide) (by decide)).1⟩

/-- C12 (the code at the failing input). With `trap_cpu_time` holding the duration sentinel,
the third line of `ToStringListTimes` under policy `None` ends after the separator, while
under `Zero` it carries `"000000 00:00:00.000000000"`; with `messages_other` holding the
count sentinel, the eighth line of `ToStringListValues` under `None` ends after the
separator, while under `Zero` it carries the right-justified `"0"`. -/
theorem ToStringListTimes_Values_None_leaves_value_out :
    (({ RsrcUsage.ctor with trap_cpu_time := RsrcUsageTimeMax } : RsrcUsage).ToStringListTimes
        (fun _ => "000000 00:00:00.000000000") .RsrcUsageEmptyFormatNone 30 [] ": ")[2]? =
      some (setwLeft 30 "Other System Trap CPU Time" ++ ": ") ∧
    (({ RsrcUsage.ctor with trap_cpu_time := RsrcUsageTimeMax } : RsrcUsage).ToStringListTimes
        (fun _ => "000000 00:00:00.000000000") .RsrcUsageEmptyFormatZero 30 [] ": ")[2]? =
      some (setwLeft 30 "Other System Trap CPU Time" ++ ": " ++ "000000 00:00:00.000000000") ∧
    (({ RsrcUsage.ctor with messages_other := RsrcUsageValueMax } : RsrcUsage).ToStringListValues
        .RsrcUsageEmptyFormatNone 30 [] ": ")[7]? =
      some (setwLeft 30 "Messages Other" ++ ": ") ∧
    (({ RsrcUsage.ctor with messages_other := RsrcUsageValueMax } : RsrcUsage).ToStringListValues
        .RsrcUsageEmptyFormatZero 30 [] ": ")[7]? =
      some (setwLeft 30 "Messages Other" ++ ": " ++
        setwRight IntegralValueMaxLengthDecUnsigned "0") := by
  decide

/-! ## The shape and the order of the lines -/

theorem formatElement_unsupported (ToStringInterval : RsrcUsageTime → String)
    (rusage_datum : RsrcUsage) (null_format_type : RsrcUsageEmptyFormat) (text_width : Nat)
    (separator : String) (e : RsrcUsageElement) (h : e.is_supported_flag_ = false)
    (hfmt : null_format_type ≠ .RsrcUsageEmptyFormatSkip) :
    formatElement ToStringInterval rusage_datum null_format_type text_width separator e =
      some (setwLeft text_width e.title_name_ ++ separator ++
        unsupportedValueText null_format_type e) := by
  unfold formatElement unsupportedValueText
  cases ht : e.is_time_flag_ <;> cases null_format_type <;> simp_all

theorem setwLeft_toList (width : Nat) (s : String) :
    (setwLeft width s).toList = s.toList ++ List.replicate (width - s.length) ' ' := by
  simp [setwLeft, String.toList]

/-- The text after the separator in the line of a descriptor, under a policy other than
`Skip`. -/
theorem formatElement_of_ne_Skip (ToStringInterval : RsrcUsageTime → String)
    (rusage_datum : RsrcUsage) (null_format_type : RsrcUsageEmptyFormat) (text_width : Nat)
    (separator : String) (e : RsrcUsageElement)
    (hfmt : null_format_type ≠ .RsrcUsageEmptyFormatSkip) :
    formatElement ToStringInterval rusage_datum null_format_type text_width separator e =
      some (setwLeft text_width e.title_name_ ++ separator ++
        (if e.is_supported_flag_ then supportedValueText ToStringInterval rusage_datum e
         else unsupportedValueText null_format_type e)) := by
  cases hs : e.is_supported_flag_
  · simpa using formatElement_unsupported _ _ _ _ _ e hs hfmt
  · simpa using formatElement_supported _ _ _ _ _ e hs

theorem filterMap_eq_map_of_some {α β : Type} (f : α → Option β) (g : α → β) (l : List α)
    (h : ∀ a, f a = some (g a)) : l.filterMap f = l.map g := by
  induction l with
  | nil => rfl
  | cons x xs ih => rw [List.filterMap_cons, h x, ih, List.map_cons]

/-- C13. Every line `ToStringList` returns belongs to a descriptor of the registry and is the
descriptor's title left-justified in the label column (the title followed by fill spaces up
to the width, never cut), the separator, and a value; for a supported descriptor the value
is the interval text of the duration or the decimal of the count right-justified in the
count column, whatever the measured value. And the line of every supported descriptor is
in the list. -/
theorem ToStringList_line_is_title_separator_value (p : Platform)
    (ToStringInterval : RsrcUsageTime → String) (rusage_datum : RsrcUsage)
    (null_format_type : RsrcUsageEmptyFormat) (text_width : Nat) (separator : String)
    (line : String)
    (hline : line ∈ RsrcUsage.ToStringList p ToStringInterval rusage_datum null_format_type
      text_width separator) :
    (∃ e ∈ (PRIVATE_RsrcUsageSpec_INSTANCE p).member_set_, ∃ value : String,
      line = setwLeft text_width e.title_name_ ++ separator ++ value ∧
      (e.is_supported_flag_ = true →
        value =
          if e.is_time_flag_ then ToStringInterval (rusage_datum.timeAt e.member_offset_)
          else setwRight IntegralValueMaxLengthDecUnsigned
            (toString (rusage_datum.valueAt e.member_offset_))) ∧
      (setwLeft text_width e.title_name_).toList =
        e.title_name_.toList ++ List.replicate (text_width - e.title_name_.length) ' ') ∧
    (∀ e ∈ (PRIVATE_RsrcUsageSpec_INSTANCE p).member_set_, e.is_supported_flag_ = true →
      setwLeft text_width e.title_name_ ++ separator ++
          (if e.is_time_flag_ then ToStringInterval (rusage_datum.timeAt e.member_offset_)
           else setwRight IntegralValueMaxLengthDecUnsigned
            (toString (rusage_datum.valueAt e.member_offset_))) ∈
        RsrcUsage.ToStringList p ToStringInterval rusage_datum null_format_type text_width
          separator) := by
  rw [ToStringList_eq_filterMap] at hline ⊢
  constructor
  · obtain ⟨e, he, hfe⟩ := List.mem_filterMap.mp hline
    refine ⟨e, he, ?_⟩
    cases hs : e.is_supported_flag_
    · by_cases hfmt : null_format_type = .RsrcUsageEmptyFormatSkip
      · rw [hfmt, formatElement_Skip_unsupported _ _ _ _ e hs] at hfe
        cases hfe
      · rw [formatElement_unsupported _ _ _ _ _ e hs hfmt] at hfe
        exact ⟨unsupportedValueText null_format_type e, (Option.some.inj hfe).symm,
          fun h => absurd h Bool.false_ne_true, setwLeft_toList _ _⟩
    · rw [formatElement_supported _ _ _ _ _ e hs] at hfe
      exact ⟨supportedValueText ToStringInterval rusage_datum e, (Option.some.inj hfe).symm,
        fun _ => rfl, setwLeft_toList _ _⟩
  · intro e he hs
    exact List.mem_filterMap.mpr ⟨e, he, formatElement_supported _ _ _ _ _ e hs⟩

/-- C13, on the POSIX/BSD build: the line of the supported count "Minor Page Faults" of the
all-zero snapshot under policy `Null`, width 30, separator `": "`; the measured value is
zero and the line shows the decimal `0`, not the placeholder. -/
theorem ToStringList_line_is_title_separator_value_witness :
    (setwLeft 30 "Minor Page Faults" ++ ": " ++
        setwRight IntegralValueMaxLengthDecUnsigned "0") ∈
      RsrcUsage.ToStringList .posix (fun _ => "000000 00:00:00.000000000") RsrcUsage.ctor
        .RsrcUsageEmptyFormatNull 30 ": " ∧
    ∃ e ∈ (PRIVATE_RsrcUsageSpec_INSTANCE .posix).member_set_, ∃ value : String,
      (setwLeft 30 "Minor Page Faults" ++ ": " ++
          setwRight IntegralValueMaxLengthDecUnsigned "0") =
        setwLeft 30 e.title_name_ ++ ": " ++ value ∧
      (e.is_supported_flag_ = true →
        value =
          if e.is_time_flag_ then
            (fun _ => "000000 00:00:00.000000000") (RsrcUsage.ctor.timeAt e.member_offset_)
          else setwRight IntegralValueMaxLengthDecUnsigned
            (toString (RsrcUsage.ctor.valueAt e.member_offset_))) ∧
      (setwLeft 30 e.title_name_).toList =
        e.title_name_.toList ++ List.replicate (30 - e.title_name_.length) ' ' :=
  ⟨by decide,
    (ToStringList_line_is_title_separator_value .posix (fun _ => "000000 00:00:00.000000000")
      RsrcUsage.ctor .RsrcUsageEmptyFormatNull 30 ": " _ (by decide)).1⟩

/-- C14. Under a policy other than `Skip`, `ToStringList` returns exactly 30 lines; the
`i`-th is the `i`-th title of `PRIVATE_RsrcUsageMemberList` left-justified in the label
column, the separator and a value. The titles run in the order of the table, the 10
duration titles from "User Level CPU Time" to "Stopped Time", then the 20 count titles
from "Minor Page Faults" to "Pagefile Usage Peak". -/
theorem ToStringList_thirty_lines_in_declaration_order (p : Platform)
    (ToStringInterval : RsrcUsageTime → String) (rusage_datum : RsrcUsage)
    (null_format_type : RsrcUsageEmptyFormat) (text_width : Nat) (separator : String)
    (hfmt : null_format_type ≠ .RsrcUsageEmptyFormatSkip) :
    (RsrcUsage.ToStringList p ToStringInterval rusage_datum null_format_type text_width
      separator).length = 30 ∧
    (∃ values : List String, values.length = 30 ∧
      RsrcUsage.ToStringList p ToStringInterval rusage_datum null_format_type text_width
          separator =
        List.zipWith (fun title value => setwLeft text_width title ++ separator ++ value)
          (PRIVATE_RsrcUsageMemberList.map fun e => e.title_name_) values) ∧
    (PRIVATE_RsrcUsageMemberList.map fun e => e.title_name_) =
      ["User Level CPU Time",
       "System Call CPU Time",
       "Other System Trap CPU Time",
       "Text Page Fault Sleep Time",
       "Data Page Fault Sleep Time",
       "Kernel Page Fault Sleep Time",
       "User Lock Wait Sleep Time",
       "Other Sleep Time",
       "Wait-CPU Latency Time",
       "Stopped Time",
       "Minor Page Faults",
       "Major Page Faults",
       "Process Swaps",
       "Input Blocks",
       "Output Blocks",
       "Messages Sent",
       "Messages Received",
       "Messages Other",
       "Signals Received",
       "Voluntary Context Switches",
       "Involuntary Context Switches",
       "System Calls",
       "Characters Read and Written",
       "Characters Read",
       "Characters Written",
       "Characters Other",
       "Working Set Size",
       "Working Set Size Peak",
       "Pagefile Usage",
       "Pagefile Usage Peak"] ∧
    (PRIVATE_RsrcUsageMemberList.map fun e => e.is_time_flag_) =
      List.replicate 10 true ++ List.replicate 20 false := by
  refine ⟨ToStringList_length_of_ne_Skip _ _ _ _ _ _ hfmt, ?_, by decide, by decide⟩
  refine ⟨(PRIVATE_RsrcUsageSpec_INSTANCE p).member_set_.map fun e =>
    if e.is_supported_flag_ then supportedValueText ToStringInterval rusage_datum e
    else unsupportedValueText null_format_type e, ?_, ?_⟩
  · rw [List.length_map, member_set_length]
  · have htitles : (PRIVATE_RsrcUsageSpec_INSTANCE p).member_set_.map (fun e => e.title_name_) =
        PRIVATE_RsrcUsageMemberList.map fun e => e.title_name_ := by
      cases p <;> decide
    rw [ToStringList_eq_filterMap, ← htitles, List.zipWith_map, List.zipWith_same]
    exact filterMap_eq_map_of_some _ _ _
      (fun e => formatElement_of_ne_Skip _ _ _ _ _ e hfmt)

/-- C14, on the POSIX/BSD build: the all-zero snapshot under policy `Zero`, width 30 and
separator `": "`. -/
theorem ToStringList_thirty_lines_in_declaration_order_witness :
    RsrcUsageEmptyFormat.RsrcUsageEmptyFormatZero ≠ .RsrcUsageEmptyFormatSkip ∧
    (RsrcUsage.ToStringList .posix (fun _ => "000000 00:00:00.000000000") RsrcUsage.ctor
      .RsrcUsageEmptyFormatZero 30 ": ").length = 30 :=
  ⟨by decide,
    (ToStringList_thirty_lines_in_declaration_order .posix
      (fun _ => "000000 00:00:00.000000000") RsrcUsage.ctor .RsrcUsageEmptyFormatZero 30 ": "
      (by decide)).1⟩

/-! ## The POSIX/BSD collector as a member call -/

theorem castToRsrcUsageValue_spec (v : Int) :
    (castToRsrcUsageValue v : Int) = v % 2 ^ 64 := by
  unfold castToRsrcUsageValue
  exact Int.toNat_of_nonneg (Int.emod_nonneg v (by norm_num))

/-- C15 (the claim fails as stated). Selector 7 is neither `RUSAGE_SELF` nor
`RUSAGE_CHILDREN`; on an operating system that rejects it, `GetRsrcUsage(7)` has called
`getrusage` once, with 7, and the condition thrown is the system error of `ThrowErrno`,
not an invalid-argument condition. -/
theorem GetRsrcUsage_unknown_selector_reaches_getrusage :
    (7 : Int) ≠ RUSAGE_SELF ∧ (7 : Int) ≠ RUSAGE_CHILDREN ∧
    (RsrcUsage.ctor.GetRsrcUsage sampleTimeOfTimeval sampleGetrusage 7).getrusage_calls.length
      = 1 ∧
    (RsrcUsage.ctor.GetRsrcUsage sampleTimeOfTimeval sampleGetrusage 7).thrown =
      some (.systemError
        "Attempt to retrieve the process usage information for *** UNKNOWN *** failed") := by
  decide

/-- C15 (amended). For a selector that is neither `RUSAGE_SELF` nor `RUSAGE_CHILDREN`,
`GetRsrcUsage(selector)` makes exactly one call of `getrusage`, with that selector; it
fails exactly when that call reports failure, then with the system-error condition whose
text names the selector `*** UNKNOWN ***` and with `*this` unchanged; when the call
succeeds nothing is thrown. -/
theorem GetRsrcUsage_unknown_selector_single_call (this : RsrcUsage)
    (timeOfTimeval : timeval → RsrcUsageTime) (getrusage : Int → Option rusage)
    (selector : Int) (hself : selector ≠ RUSAGE_SELF) (hchildren : selector ≠ RUSAGE_CHILDREN) :
    (this.GetRsrcUsage timeOfTimeval getrusage selector).getrusage_calls = [selector] ∧
    ((this.GetRsrcUsage timeOfTimeval getrusage selector).thrown.isSome = true ↔
      getrusage selector = none) ∧
    (getrusage selector = none →
      (this.GetRsrcUsage timeOfTimeval getrusage selector).thrown =
        some (.systemError
          "Attempt to retrieve the process usage information for *** UNKNOWN *** failed") ∧
      (this.GetRsrcUsage timeOfTimeval getrusage selector).self = this) := by
  unfold RsrcUsage.GetRsrcUsage MLB.Utility.GetRsrcUsage
  cases h : getrusage selector <;> simp [hself, hchildren]

/-- C15 (amended), at selector 7 on an operating system that rejects it. -/
theorem GetRsrcUsage_unknown_selector_single_call_witness :
    (7 : Int) ≠ RUSAGE_SELF ∧ (7 : Int) ≠ RUSAGE_CHILDREN ∧
    (RsrcUsage.ctor.GetRsrcUsage sampleTimeOfTimeval sampleGetrusage 7).getrusage_calls = [7] :=
  ⟨by decide, by decide,
    (GetRsrcUsage_unknown_selector_single_call RsrcUsage.ctor sampleTimeOfTimeval
      sampleGetrusage 7 (by decide) (by decide)).1⟩

/-- C16. `GetRsrcUsage(selector)` throws exactly when the `getrusage` call reports failure;
what it throws is then the system-error condition, and the snapshot it was called on
keeps every field; after a successful call nothing is thrown. -/
theorem GetRsrcUsage_fails_iff_getrusage_fails (this : RsrcUsage)
    (timeOfTimeval : timeval → RsrcUsageTime) (getrusage : Int → Option rusage)
    (selector : Int) :
    ((this.GetRsrcUsage timeOfTimeval getrusage selector).thrown.isSome = true ↔
      getrusage selector = none) ∧
    (getrusage selector = none →
      (∃ what, (this.GetRsrcUsage timeOfTimeval getrusage selector).thrown =
        some (.systemError what)) ∧
      (this.GetRsrcUsage timeOfTimeval getrusage selector).self = this) ∧
    (getrusage selector ≠ none →
      (this.GetRsrcUsage timeOfTimeval getrusage selector).thrown = none) := by
  unfold RsrcUsage.GetRsrcUsage MLB.Utility.GetRsrcUsage
  cases h : getrusage selector <;> simp

/-- C17. After a successful `getrusage` call that hands back `r`, nothing is thrown and the
snapshot holds the durations built from `r.ru_utime` and `r.ru_stime` and the ten counts
of `r`, each converted to the unsigned 64-bit count type (its value modulo `2 ^ 64`). -/
theorem GetRsrcUsage_posix_populates_from_rusage (this : RsrcUsage)
    (timeOfTimeval : timeval → RsrcUsageTime) (getrusage : Int → Option rusage)
    (selector : Int) (r : rusage) (hcall : getrusage selector = some r) :
    (this.GetRsrcUsage timeOfTimeval getrusage selector).thrown = none ∧
    (this.GetRsrcUsage timeOfTimeval getrusage selector).self.user_cpu_time =
      timeOfTimeval r.ru_utime ∧
    (this.GetRsrcUsage timeOfTimeval getrusage selector).self.system_cpu_time =
      timeOfTimeval r.ru_stime ∧
    ((this.GetRsrcUsage timeOfTimeval getrusage selector).self.minor_pagef : Int) =
      r.ru_minflt % 2 ^ 64 ∧
    ((this.GetRsrcUsage timeOfTimeval getrusage selector).self.major_pagef : Int) =
      r.ru_majflt % 2 ^ 64 ∧
    ((this.GetRsrcUsage timeOfTimeval getrusage selector).self.process_swaps : Int) =
      r.ru_nswap % 2 ^ 64 ∧
    ((this.GetRsrcUsage timeOfTimeval getrusage selector).self.input_blocks : Int) =
      r.ru_inblock % 2 ^ 64 ∧
    ((this.GetRsrcUsage timeOfTimeval getrusage selector).self.output_blocks : Int) =
      r.ru_oublock % 2 ^ 64 ∧
    ((this.GetRsrcUsage timeOfTimeval getrusage selector).self.messages_sent : Int) =
      r.ru_msgsnd % 2 ^ 64 ∧
    ((this.GetRsrcUsage timeOfTimeval getrusage selector).self.messages_received : Int) =
      r.ru_msgrcv % 2 ^ 64 ∧
    ((this.GetRsrcUsage timeOfTimeval getrusage selector).self.signals_received : Int) =
      r.ru_nsignals % 2 ^ 64 ∧
    ((this.GetRsrcUsage timeOfTimeval getrusage selector).self.vol_context_switch : Int) =
      r.ru_nvcsw % 2 ^ 64 ∧
    ((this.GetRsrcUsage timeOfTimeval getrusage selector).self.invol_context_switch : Int) =
      r.ru_nivcsw % 2 ^ 64 := by
  unfold RsrcUsage.GetRsrcUsage MLB.Utility.GetRsrcUsage
  simp only [hcall]
  exact ⟨trivial, trivial, trivial, castToRsrcUsageValue_spec _, castToRsrcUsageValue_spec _,
    castToRsrcUsageValue_spec _, castToRsrcUsageValue_spec _, castToRsrcUsageValue_spec _,
    castToRsrcUsageValue_spec _, castToRsrcUsageValue_spec _, castToRsrcUsageValue_spec _,
    castToRsrcUsageValue_spec _, castToRsrcUsageValue_spec _⟩

/-- C17, for `RUSAGE_SELF` on an operating system that hands back a record with a different
value in every member: the snapshot holds 5 minor and 6 major page faults. -/
theorem GetRsrcUsage_posix_populates_from_rusage_witness :
    sampleGetrusage RUSAGE_SELF = some sampleRusage ∧
    (RsrcUsage.ctor.GetRsrcUsage sampleTimeOfTimeval sampleGetrusage RUSAGE_SELF).thrown
      = none ∧
    (RsrcUsage.ctor.GetRsrcUsage sampleTimeOfTimeval sampleGetrusage
      RUSAGE_SELF).self.minor_pagef = 5 ∧
    (RsrcUsage.ctor.GetRsrcUsage sampleTimeOfTimeval sampleGetrusage
      RUSAGE_SELF).self.major_pagef = 6 :=
  ⟨by decide,
    (GetRsrcUsage_posix_populates_from_rusage RsrcUsage.ctor sampleTimeOfTimeval
      sampleGetrusage RUSAGE_SELF sampleRusage (by decide)).1,
    by decide, by decide⟩

/-! ## The registries of the builds -/

theorem collectedSnapshot_unpopulated_slot (timeOfTimeval : timeval → RsrcUsageTime)
    (r : rusage) (member_offset : Nat)
    (h : member_offset ∈ [2, 3, 4, 5, 6, 7, 8, 9, 17, 21, 22, 23, 24, 25, 26, 27, 28, 29]) :
    (collectedSnapshot timeOfTimeval r).slotAt member_offset =
      RsrcUsage.ctor.slotAt member_offset := by
  simp only [List.mem_cons, List.mem_singleton, List.not_mem_nil, or_false] at h
  rcases h with h | h | h | h | h | h | h | h | h | h | h | h | h | h | h | h | h | h <;>
    subst h <;>
    exact (rfl : ((⟨0, 0⟩ : RsrcUsageTime), (0 : RsrcUsageValue)) = (⟨0, 0⟩, 0))

/-- C18. On the POSIX/BSD build the registry marks supported exactly the 12 members the
collector assigns and unsupported the other 18. The supported ones are the fields the
collector populates: for each of them two `rusage` records lead to different values in
the field; in each unsupported field the collector leaves what the all-zero constructor
put there, whatever the record. -/
theorem RsrcUsageSpec_posix_supported_fields :
    (((PRIVATE_RsrcUsageSpec_INSTANCE .posix).member_set_.filter
        fun e => e.is_supported_flag_).map fun e => e.member_name_) =
      ["user_cpu_time", "system_cpu_time", "minor_pagef", "major_pagef",
       "process_swaps", "input_blocks", "output_blocks", "messages_sent",
       "messages_received", "signals_received", "vol_context_switch",
       "invol_context_switch"] ∧
    (((PRIVATE_RsrcUsageSpec_INSTANCE .posix).member_set_.filter
        fun e => !e.is_supported_flag_).map fun e => e.member_name_) =
      ["trap_cpu_time", "text_pagef_time", "data_pagef_time", "kernel_pagef_time",
       "user_lock_time", "other_sleep_time", "wait_cpu_time", "stopped_time",
       "messages_other", "system_calls", "chars_read_written", "chars_read",
       "chars_written", "chars_other", "working_set_size", "working_set_size_peak",
       "pagefile_usage", "pagefile_usage_peak"] ∧
    (∀ e ∈ (PRIVATE_RsrcUsageSpec_INSTANCE .posix).member_set_, e.is_supported_flag_ = true →
      (collectedSnapshot sampleTimeOfTimeval sampleRusageZero).slotAt e.member_offset_ ≠
        (collectedSnapshot sampleTimeOfTimeval sampleRusage).slotAt e.member_offset_) ∧
    (∀ e ∈ (PRIVATE_RsrcUsageSpec_INSTANCE .posix).member_set_, e.is_supported_flag_ = false →
      ∀ (timeOfTimeval : timeval → RsrcUsageTime) (r : rusage),
        (collectedSnapshot timeOfTimeval r).slotAt e.member_offset_ =
          RsrcUsage.ctor.slotAt e.member_offset_) := by
  refine ⟨by decide, by decide, by decide, ?_⟩
  intro e he hs timeOfTimeval r
  have hoff : ∀ x ∈ (PRIVATE_RsrcUsageSpec_INSTANCE .posix).member_set_,
      x.is_supported_flag_ = false →
      x.member_offset_ ∈
        [2, 3, 4, 5, 6, 7, 8, 9, 17, 21, 22, 23, 24, 25, 26, 27, 28, 29] := by
    decide
  exact collectedSnapshot_unpopulated_slot timeOfTimeval r e.member_offset_ (hoff e he hs)

/-- C19 (the code at the test value). For 25384687500 ticks of 100 nanoseconds the Windows
collector stores `(2538, 538_468_750)`: the second member is the microsecond count modulo
`1_000_000_000`, not the nanoseconds of the interval, so the duration is not the
`(2538, 468_750_000)` of the claim and its total is not `100 * t` nanoseconds. -/
theorem windowsTimeOfTicks_test_value :
    (windowsStoreProcessTimes RsrcUsage.ctor 25384687500 25384687500).user_cpu_time =
      ⟨2538, 538468750⟩ ∧
    (windowsStoreProcessTimes RsrcUsage.ctor 25384687500 25384687500).system_cpu_time =
      ⟨2538, 538468750⟩ ∧
    (windowsTimeOfTicks 25384687500).totalNanos ≠ 100 * 25384687500 ∧
    windowsTimeOfTicks 25384687500 ≠ ⟨2538, 468750000⟩ := by
  decide

/-- C20 (the claim fails as stated). On the Windows build the members the registry marks
unsupported are not just the eight durations, `process_swaps` and `signals_received`. -/
theorem RsrcUsageSpec_windows_unsupported_not_ten :
    (((PRIVATE_RsrcUsageSpec_INSTANCE .windows).member_set_.filter
        fun e => !e.is_supported_flag_).map fun e => e.member_name_) ≠
      ["trap_cpu_time", "text_pagef_time", "data_pagef_time", "kernel_pagef_time",
       "user_lock_time", "other_sleep_time", "wait_cpu_time", "stopped_time",
       "process_swaps", "signals_received"] := by
  decide

/-- C20 (amended). On the Windows build the registry marks unsupported the eight durations
beyond user and system CPU time and eight counts, `minor_pagef`, `process_swaps`,
`input_blocks`, `output_blocks`, `signals_received`, `vol_context_switch`,
`invol_context_switch` and `system_calls`; the other 14 members are marked supported. -/
theorem RsrcUsageSpec_windows_unsupported_fields :
    (((PRIVATE_RsrcUsageSpec_INSTANCE .windows).member_set_.filter
        fun e => !e.is_supported_flag_).map fun e => e.member_name_) =
      ["trap_cpu_time", "text_pagef_time", "data_pagef_time", "kernel_pagef_time",
       "user_lock_time", "other_sleep_time", "wait_cpu_time", "stopped_time",
       "minor_pagef", "process_swaps", "input_blocks", "output_blocks",
       "signals_received", "vol_context_switch", "invol_context_switch",
       "system_calls"] ∧
    (((PRIVATE_RsrcUsageSpec_INSTANCE .windows).member_set_.filter
        fun e => e.is_supported_flag_).map fun e => e.member_name_) =
      ["user_cpu_time", "system_cpu_time", "major_pagef", "messages_sent",
       "messages_received", "messages_other", "chars_read_written", "chars_read",
       "chars_written", "chars_other", "working_set_size", "working_set_size_peak",
       "pagefile_usage", "pagefile_usage_peak"] := by
  decide

/-! ## The exclusion lists and the stub build -/

/-- C21 (the claim fails as stated). The exclusion lists of two distinct builds are not
always disjoint: `trap_cpu_time` is cleared on the Windows build and on the POSIX/BSD
build. -/
theorem clearedMembers_not_pairwise_disjoint :
    ¬ (∀ p q : Platform, p ≠ q → ∀ m ∈ clearedMembers p, m ∉ clearedMembers q) := by
  intro h
  exact h .windows .posix (by decide) "trap_cpu_time" (by decide) (by decide)

/-- C21 (amended). The exclusion list of the stub build is empty; the lists of the Windows
and the System-V build are disjoint; the list of the POSIX/BSD build shares the eight
durations and `system_calls` with the Windows list and holds every member of the
System-V list. -/
theorem clearedMembers_overlaps :
    clearedMembers .msdos = [] ∧
    (∀ m ∈ clearedMembers .windows, m ∉ clearedMembers .svr4) ∧
    (clearedMembers .windows).filter (fun m => decide (m ∈ clearedMembers .posix)) =
      ["trap_cpu_time", "text_pagef_time", "data_pagef_time", "kernel_pagef_time",
       "user_lock_time", "other_sleep_time", "wait_cpu_time", "stopped_time",
       "system_calls"] ∧
    clearedMembers .svr4 =
      ["messages_other", "chars_read", "chars_written", "chars_other", "working_set_size",
       "working_set_size_peak", "pagefile_usage", "pagefile_usage_peak"] ∧
    (∀ m ∈ clearedMembers .svr4, m ∈ clearedMembers .posix) := by
  decide

/-- C22 (the claim fails as stated). On the stub build `ToStringList` with policy `Skip`
returns lines, 30 of them for the all-zero snapshot with width 30 and separator `": "`,
and the first descriptor of the registry is marked supported. -/
theorem ToStringList_msdos_Skip_returns_lines :
    (RsrcUsage.ToStringList .msdos (fun _ => "000000 00:00:00.000000000") RsrcUsage.ctor
      .RsrcUsageEmptyFormatSkip 30 ": ").length = 30 ∧
    ((PRIVATE_RsrcUsageSpec_INSTANCE .msdos).member_set_.map
      fun e => e.is_supported_flag_)[0]? = some true := by
  decide

/-- C22 (amended). On the stub build `GetRsrcUsage(selector)` assigns the all-zero snapshot
for every selector; the registry of that build clears no flag, so all 30 descriptors are
marked supported and `ToStringList` with policy `Skip` returns all 30 lines. -/
theorem GetRsrcUsageStub_all_zero_registry_all_supported (this : RsrcUsage) (selector : Int)
    (ToStringInterval : RsrcUsageTime → String) (rusage_datum : RsrcUsage)
    (text_width : Nat) (separator : String) :
    this.GetRsrcUsageStub selector = RsrcUsage.ctor ∧
    (PRIVATE_RsrcUsageSpec_INSTANCE .msdos).member_set_.length = 30 ∧
    (∀ e ∈ (PRIVATE_RsrcUsageSpec_INSTANCE .msdos).member_set_,
      e.is_supported_flag_ = true) ∧
    (RsrcUsage.ToStringList .msdos ToStringInterval rusage_datum .RsrcUsageEmptyFormatSkip
      text_width separator).length = 30 := by
  refine ⟨rfl, by decide, by decide, ?_⟩
  rw [ToStringList_eq_filterMap, filterMap_formatElement_Skip, List.length_map]
  decide

/-! ## The registry and the title lists -/

/-- C23. On every build `GetNameListTimes` is the list of the titles of the registry's
duration descriptors in registry order, `GetNameListValues` the list of the titles of its
count descriptors in registry order, and the two lists one after the other are the titles
of the whole registry. -/
theorem GetNameLists_agree_with_registry (p : Platform) :
    GetNameListTimes =
      ((PRIVATE_RsrcUsageSpec_INSTANCE p).member_set_.filter
        fun e => e.is_time_flag_).map (fun e => e.title_name_) ∧
    GetNameListValues =
      ((PRIVATE_RsrcUsageSpec_INSTANCE p).member_set_.filter
        fun e => !e.is_time_flag_).map (fun e => e.title_name_) ∧
    GetNameListTimes ++ GetNameListValues =
      (PRIVATE_RsrcUsageSpec_INSTANCE p).member_set_.map (fun e => e.title_name_) ∧
    GetNameListTimes.length = 10 ∧ GetNameListValues.length = 20 := by
  cases p <;> decide

/-- C24. On every build the registry holds 30 descriptors, the set built from the member
table keeps all 30 entries, the offsets in iteration order are the slots 0 to 29 (pairwise
distinct), the first 10 descriptors are durations and the other 20 counts. And
`RsrcUsageSpec_NULL_DEF` on any set keeps the number of descriptors and, place by place,
their offsets, titles, member names and kinds; the descriptor at a place is unchanged
unless its offset is the member's, and then only its supported flag is cleared. -/
theorem RsrcUsageSpec_registry_shape (p : Platform) (member_name : Member)
    (member_set_ : List RsrcUsageElement) :
    (PRIVATE_RsrcUsageSpec_INSTANCE p).member_set_.length = 30 ∧
    (setOfRange PRIVATE_RsrcUsageMemberList).length = PRIVATE_RsrcUsageMemberList.length ∧
    (PRIVATE_RsrcUsageSpec_INSTANCE p).member_set_.map (fun e => e.member_offset_) =
      List.range 30 ∧
    ((PRIVATE_RsrcUsageSpec_INSTANCE p).member_set_.map (fun e => e.member_offset_)).Nodup ∧
    (PRIVATE_RsrcUsageSpec_INSTANCE p).member_set_.map (fun e => e.is_time_flag_) =
      List.replicate 10 true ++ List.replicate 20 false ∧
    (RsrcUsageSpec_NULL_DEF member_name member_set_).length = member_set_.length ∧
    (RsrcUsageSpec_NULL_DEF member_name member_set_).map
        (fun e => (e.member_offset_, e.title_name_, e.member_name_, e.is_time_flag_)) =
      member_set_.map
        (fun e => (e.member_offset_, e.title_name_, e.member_name_, e.is_time_flag_)) ∧
    (∀ i : Nat, (RsrcUsageSpec_NULL_DEF member_name member_set_)[i]? =
      member_set_[i]?.map fun e =>
        if e.member_offset_ = offsetof member_name then { e with is_supported_flag_ := false }
        else e) := by
  have hoff : (PRIVATE_RsrcUsageSpec_INSTANCE p).member_set_.map (fun e => e.member_offset_) =
      List.range 30 := by
    cases p <;> decide
  refine ⟨member_set_length p, by decide, hoff, ?_, ?_, ?_, ?_, ?_⟩
  · rw [hoff]
    exact List.nodup_range 30
  · cases p <;> decide
  · simp [RsrcUsageSpec_NULL_DEF]
  · unfold RsrcUsageSpec_NULL_DEF
    rw [List.map_map]
    apply List.map_congr_left
    intro e _
    by_cases h : e.member_offset_ = offsetof member_name <;> simp [h]
  · intro i
    simp [RsrcUsageSpec_NULL_DEF, List.getElem?_map]

/-! ## The compact text form -/

/-- C25. `ToString` is the concatenation of 30 bracketed groups with nothing between them:
`"[" ++ value ++ "]"` for the 10 durations of `GetListTimes` (the interval text) followed
by the 20 counts of `GetListValues` (the decimal, unpadded); the two lists hold the fields
in slot order. -/
theorem ToString_is_thirty_bracketed_groups (r : RsrcUsage)
    (ToStringInterval : RsrcUsageTime → String) :
    r.ToString ToStringInterval =
      String.join
        ((r.GetListTimes.map fun t => "[" ++ ToStringInterval t ++ "]") ++
          (r.GetListValues.map fun v => "[" ++ toString v ++ "]")) ∧
    ((r.GetListTimes.map fun t => "[" ++ ToStringInterval t ++ "]") ++
      (r.GetListValues.map fun v => "[" ++ toString v ++ "]")).length = 30 ∧
    r.GetListTimes = (List.range 10).map (fun slot => r.timeAt slot) ∧
    r.GetListValues = (List.range 20).map (fun k => r.valueAt (10 + k)) := by
  refine ⟨?_, rfl, rfl, rfl⟩
  simp only [RsrcUsage.ToString, RsrcUsage.GetListTimes, RsrcUsage.GetListValues,
    List.map_cons, List.map_nil, List.cons_append, List.nil_append, String.join,
    List.foldl_cons, List.foldl_nil, String.append_assoc, String.empty_append]

/-! ## The delta of a count and the delta through references -/

theorem valueDelta_of_lt (a b : Nat) (ha : a < 2 ^ 64) (hb : b < 2 ^ 64) :
    valueDelta a b = max a b - min a b ∧
    ((valueDelta a b : Nat) : Int) = |(a : Int) - (b : Int)| ∧
    valueDelta a b < 2 ^ 64 := by
  have hval : valueDelta a b = max a b - min a b := by
    unfold valueDelta RsrcUsageValueModulus
    apply Nat.mod_eq_of_lt
    omega
  refine ⟨hval, ?_, ?_⟩
  · rw [hval]
    rcases le_total a b with h | h
    · rw [max_eq_right h, min_eq_left h, abs_of_nonpos (by omega)]
      omega
    · rw [max_eq_left h, min_eq_right h, abs_of_nonneg (by omega)]
      omega
  · rw [hval]
    exact lt_of_le_of_lt (Nat.sub_le _ _) (max_lt ha hb)

/-- C26. For two snapshots whose `minor_pagef` are unsigned 64-bit values, the delta's
`minor_pagef` is the absolute difference of the two as natural numbers, `max - min`
without any reduction modulo `2 ^ 64`, and is itself an unsigned 64-bit value; start 10
and end 3 give 7. -/
theorem GetRsrcUsageDelta_minor_pagef_abs_difference (start_rusage end_rusage : RsrcUsage)
    (hstart : start_rusage.minor_pagef < 2 ^ 64) (h_end : end_rusage.minor_pagef < 2 ^ 64) :
    ((GetRsrcUsageDelta start_rusage end_rusage).minor_pagef : Int) =
      |(start_rusage.minor_pagef : Int) - (end_rusage.minor_pagef : Int)| ∧
    (GetRsrcUsageDelta start_rusage end_rusage).minor_pagef =
      max start_rusage.minor_pagef end_rusage.minor_pagef -
        min start_rusage.minor_pagef end_rusage.minor_pagef ∧
    (GetRsrcUsageDelta start_rusage end_rusage).minor_pagef < 2 ^ 64 ∧
    (GetRsrcUsageDelta { RsrcUsage.ctor with minor_pagef := 10 }
      { RsrcUsage.ctor with minor_pagef := 3 }).minor_pagef = 7 := by
  have h := valueDelta_of_lt start_rusage.minor_pagef end_rusage.minor_pagef hstart h_end
  exact ⟨h.2.1, h.1, h.2.2, by decide⟩

/-- C26, at the scenario of the spec: start 10 and end 3. -/
theorem GetRsrcUsageDelta_minor_pagef_abs_difference_witness :
    ({ RsrcUsage.ctor with minor_pagef := 10 } : RsrcUsage).minor_pagef < 2 ^ 64 ∧
    ({ RsrcUsage.ctor with minor_pagef := 3 } : RsrcUsage).minor_pagef < 2 ^ 64 ∧
    ((GetRsrcUsageDelta { RsrcUsage.ctor with minor_pagef := 10 }
        { RsrcUsage.ctor with minor_pagef := 3 }).minor_pagef : Int) =
      |((({ RsrcUsage.ctor with minor_pagef := 10 } : RsrcUsage).minor_pagef : Nat) : Int) -
        ((({ RsrcUsage.ctor with minor_pagef := 3 } : RsrcUsage).minor_pagef : Nat) : Int)| :=
  ⟨by decide, by decide,
    (GetRsrcUsageDelta_minor_pagef_abs_difference { RsrcUsage.ctor with minor_pagef := 10 }
      { RsrcUsage.ctor with minor_pagef := 3 } (by decide) (by decide)).1⟩

/-- C27 (the code when `start_rusage` and `delta_rusage` are the same structure). The
structure then holds the delta of what it held before and of `end_rusage`, because the
operands are read into the local `tmp_delta_rusage` before the swap. With 10 minor page
faults in the structure at address 0 and 3 in the one at address 1, the call with
addresses 0, 1, 0 leaves 7 in the structure at address 0, not 0. -/
theorem GetRsrcUsageDeltaRef_aliased_start_is_delta (store : Nat → RsrcUsage)
    (start_rusage end_rusage : Nat) :
    GetRsrcUsageDeltaRef store start_rusage end_rusage start_rusage start_rusage =
      GetRsrcUsageDelta (store start_rusage) (store end_rusage) ∧
    (GetRsrcUsageDeltaRef
      (fun address =>
        if address = 0 then { RsrcUsage.ctor with minor_pagef := 10 }
        else { RsrcUsage.ctor with minor_pagef := 3 }) 0 1 0 0).minor_pagef = 7 := by
  refine ⟨?_, by decide⟩
  simp [GetRsrcUsageDeltaRef]

/-! ## The Windows collector and the process handle -/

/-- C28. When the selector is not the current process and `OpenProcess` answers a handle,
the handle calls of `GetRsrcUsage` are `OpenProcess` followed by one `CloseHandle` of that
handle, whether the population logic returns or throws: `CloseHandle` is called exactly
once for the handle and for no other. When the population logic throws, the same
condition leaves the call and `*this` is unchanged; when it returns, nothing is thrown
and `*this` holds the snapshot it produced. -/
theorem GetRsrcUsageWindows_closes_handle_once (this : RsrcUsage) (os : WindowsSystem)
    (selector selector_handle : Nat) (hother : selector ≠ os.CurrentProcessId)
    (hopen : os.OpenProcess selector = some selector_handle) :
    (this.GetRsrcUsageWindows os selector).events =
      [.OpenProcess selector, .CloseHandle selector_handle] ∧
    (∀ handle : Nat,
      (this.GetRsrcUsageWindows os selector).events.count (.CloseHandle handle) =
        if handle = selector_handle then 1 else 0) ∧
    (∀ e, GetRsrcUsageByWindowsHandle os selector_handle = .error e →
      (this.GetRsrcUsageWindows os selector).thrown = some e ∧
      (this.GetRsrcUsageWindows os selector).self = this) ∧
    (∀ datum, GetRsrcUsageByWindowsHandle os selector_handle = .ok datum →
      (this.GetRsrcUsageWindows os selector).thrown = none ∧
      (this.GetRsrcUsageWindows os selector).self = datum) := by
  have hevents : (this.GetRsrcUsageWindows os selector).events =
      [.OpenProcess selector, .CloseHandle selector_handle] := by
    unfold RsrcUsage.GetRsrcUsageWindows
    rw [if_neg hother]
    simp only [hopen]
    cases GetRsrcUsageByWindowsHandle os selector_handle <;> rfl
  refine ⟨hevents, ?_, ?_, ?_⟩
  · intro handle
    rw [hevents]
    by_cases h : handle = selector_handle
    · simp [h, List.count_cons]
    · have h' : selector_handle ≠ handle := fun heq => h heq.symm
      simp [h, h', List.count_cons]
  · intro e he
    unfold RsrcUsage.GetRsrcUsageWindows
    rw [if_neg hother]
    simp only [hopen, he]
    exact ⟨trivial, trivial⟩
  · intro datum hd
    unfold RsrcUsage.GetRsrcUsageWindows
    rw [if_neg hother]
    simp only [hopen, hd]
    exact ⟨trivial, trivial⟩

/-- C28, on an operating system where process 13 gets handle 1013, for which every query
fails, and process 14 gets handle 1014, for which every query succeeds: one `CloseHandle`
on the failing path and one on the successful path. -/
theorem GetRsrcUsageWindows_closes_handle_once_witness :
    (13 : Nat) ≠ sampleWindowsSystem.CurrentProcessId ∧
    sampleWindowsSystem.OpenProcess 13 = some 1013 ∧
    (RsrcUsage.ctor.GetRsrcUsageWindows sampleWindowsSystem 13).events =
      [.OpenProcess 13, .CloseHandle 1013] ∧
    (RsrcUsage.ctor.GetRsrcUsageWindows sampleWindowsSystem 13).thrown =
      some (.systemError "Call to 'GetProcessTimes()' failed.") ∧
    (RsrcUsage.ctor.GetRsrcUsageWindows sampleWindowsSystem 14).events =
      [.OpenProcess 14, .CloseHandle 1014] ∧
    (RsrcUsage.ctor.GetRsrcUsageWindows sampleWindowsSystem 14).thrown = none :=
  ⟨by decide, by decide,
    (GetRsrcUsageWindows_closes_handle_once RsrcUsage.ctor sampleWindowsSystem 13 1013
      (by decide) (by decide)).1,
    by decide,
    (GetRsrcUsageWindows_closes_handle_once RsrcUsage.ctor sampleWindowsSystem 14 1014
      (by decide) (by decide)).1,
    by decide⟩

/-! ## The System-V collector -/

/-- C29 (the code at process id 99999). Whatever `ZeroFill` does, the control file opened
for process id 99999 is the one opened for process id 0, because the name is built from
`selector % 99999`; with a `ZeroFill` that pads the decimal digits with zeros, the file
is `"/proc/00000"`, not `"/proc/99999"`. -/
theorem procFileName_99999_is_the_file_of_0 (ZeroFill : Int → Nat → String) :
    procFileName ZeroFill 99999 = procFileName ZeroFill 0 ∧
    procFileName sampleZeroFill 99999 = "/proc/00000" ∧
    procFileName sampleZeroFill 99998 = "/proc/99998" ∧
    (RsrcUsage.ctor.GetRsrcUsageSvr4 sampleZeroFill sampleTimeOfTimestruc (fun _ => some 3)
      (fun _ => some samplePrusage) 99999).events =
      [.opened "/proc/00000", .closed 3] := by
  refine ⟨?_, by decide, by decide, by decide⟩
  have h : (99999 : Int).tmod 99999 = (0 : Int).tmod 99999 := by decide
  unfold procFileName
  rw [h]

/-- C30 (the code on a usage record). After a successful control request the collected
`user_cpu_time` and `stopped_time` keep the seconds of the raw values, but their second
member is the raw sub-second component divided by 1000000: for a raw `pr_utime` of 5 s
123456789 ns the collected duration is `(5, 123)`, not `(5, 123456789)`. -/
theorem GetRsrcUsageSvr4_divides_sub_second (this : RsrcUsage)
    (ZeroFill : Int → Nat → String) (timeOfTimestruc : timestruc → RsrcUsageTime)
    (file_handle : Int) (tmp_prusage : prusage) (selector : Int) :
    (this.GetRsrcUsageSvr4 ZeroFill timeOfTimestruc (fun _ => some file_handle)
        (fun _ => some tmp_prusage) selector).self.user_cpu_time =
      ⟨(timeOfTimestruc tmp_prusage.pr_utime).tv_sec,
        (timeOfTimestruc tmp_prusage.pr_utime).tv_nsec.tdiv 1000000⟩ ∧
    (this.GetRsrcUsageSvr4 ZeroFill timeOfTimestruc (fun _ => some file_handle)
        (fun _ => some tmp_prusage) selector).self.stopped_time =
      ⟨(timeOfTimestruc tmp_prusage.pr_stoptime).tv_sec,
        (timeOfTimestruc tmp_prusage.pr_stoptime).tv_nsec.tdiv 1000000⟩ ∧
    (RsrcUsage.ctor.GetRsrcUsageSvr4 sampleZeroFill sampleTimeOfTimestruc (fun _ => some 3)
        (fun _ => some samplePrusage) 42).self.user_cpu_time = ⟨5, 123⟩ ∧
    (RsrcUsage.ctor.GetRsrcUsageSvr4 sampleZeroFill sampleTimeOfTimestruc (fun _ => some 3)
        (fun _ => some samplePrusage) 42).self.user_cpu_time ≠ ⟨5, 123456789⟩ :=
  ⟨rfl, rfl, by decide, by decide⟩

/-! ## The count column, and the two renderers side by side -/

theorem toString_length_le_twenty (v : Nat) (hv : v < 2 ^ 64) : (toString v).length ≤ 20 := by
  have h : v < 10 ^ 20 := lt_trans hv (by norm_num)
  exact Nat.repr_length v 20 (by norm_num) h

theorem setwRight_length (width : Nat) (s : String) :
    (setwRight width s).length = (width - s.length) + s.length := by
  unfold setwRight
  rw [String.length_append]
  show (List.replicate (width - s.length) ' ').length + s.length = _
  rw [List.length_replicate]

theorem setwRight_toList (width : Nat) (s : String) :
    (setwRight width s).toList = List.replicate (width - s.length) ' ' ++ s.toList := by
  simp [setwRight, String.toList]

/-- C31. For a count `v` below `2 ^ 64`, the value text of a supported count in
`ToStringList` and of a count other than the sentinel in `ToStringListValues` is the
decimal of `v` behind fill spaces, 20 characters in all, 20 being the width of the count
column; the `Zero` and `Null` placeholders have the same length. -/
theorem count_column_is_twenty_wide (v : Nat) (hv : v < 2 ^ 64) :
    IntegralValueMaxLengthDecUnsigned = 20 ∧
    (setwRight IntegralValueMaxLengthDecUnsigned (toString v)).length = 20 ∧
    (setwRight IntegralValueMaxLengthDecUnsigned (toString v)).toList =
      List.replicate (20 - (toString v).length) ' ' ++ (toString v).toList ∧
    (∀ (ToStringInterval : RsrcUsageTime → String) (rusage_datum : RsrcUsage)
      (null_format_type : RsrcUsageEmptyFormat) (text_width : Nat) (separator : String)
      (e : RsrcUsageElement), e.is_supported_flag_ = true → e.is_time_flag_ = false →
      rusage_datum.valueAt e.member_offset_ = v →
      formatElement ToStringInterval rusage_datum null_format_type text_width separator e =
        some (setwLeft text_width e.title_name_ ++ separator ++
          setwRight IntegralValueMaxLengthDecUnsigned (toString v))) ∧
    (∀ (null_format_type : RsrcUsageEmptyFormat) (text_width : Nat) (separator name : String),
      v ≠ RsrcUsageValueMax →
      valuesLine null_format_type text_width separator name v =
        some (setwLeft text_width name ++ separator ++
          setwRight IntegralValueMaxLengthDecUnsigned (toString v))) ∧
    (setwRight IntegralValueMaxLengthDecUnsigned "0").length = 20 ∧
    (setwRight IntegralValueMaxLengthDecUnsigned "?").length = 20 := by
  have hN : IntegralValueMaxLengthDecUnsigned = 20 := by decide
  have hlen := toString_length_le_twenty v hv
  refine ⟨hN, ?_, ?_, ?_, ?_, by decide, by decide⟩
  · rw [setwRight_length, hN]
    omega
  · rw [setwRight_toList, hN]
  · intro ToStringInterval rusage_datum null_format_type text_width separator e hs ht hval
    rw [formatElement_supported _ _ _ _ _ e hs]
    simp [supportedValueText, ht, hval]
  · intro null_format_type text_width separator name hne
    simp [valuesLine, hne]

/-- C31, at `UINT64_MAX - 1`. -/
theorem count_column_is_twenty_wide_witness :
    (2 ^ 64 - 2 : Nat) < 2 ^ 64 ∧
    (setwRight IntegralValueMaxLengthDecUnsigned (toString (2 ^ 64 - 2 : Nat))).length = 20 :=
  ⟨by decide, (count_column_is_twenty_wide (2 ^ 64 - 2) (by decide)).2.1⟩

/-- C32. For a snapshot that agrees with the registry of the build (a field holds the
unsupported sentinel of its type exactly when its descriptor is marked unsupported) and a
policy among `Zero`, `Null` and `Skip`, `ToStringListTimes` on an empty list followed by
`ToStringListValues` on its result gives the list `ToStringList` gives. -/
theorem ToStringListTimes_then_Values_eq_ToStringList (p : Platform)
    (ToStringInterval : RsrcUsageTime → String) (r : RsrcUsage)
    (null_format_type : RsrcUsageEmptyFormat) (text_width : Nat) (separator : String)
    (hagree : SentinelsAgree p r)
    (hfmt : null_format_type = .RsrcUsageEmptyFormatZero ∨
      null_format_type = .RsrcUsageEmptyFormatNull ∨
      null_format_type = .RsrcUsageEmptyFormatSkip) :
    r.ToStringListValues null_format_type text_width
        (r.ToStringListTimes ToStringInterval null_format_type text_width [] separator)
        separator =
      RsrcUsage.ToStringList p ToStringInterval r null_format_type text_width separator := by
  have hne : null_format_type ≠ .RsrcUsageEmptyFormatNone := by
    rcases hfmt with h | h | h <;> rw [h] <;> decide
  rw [ToStringListValues_eq_registry_lines p ToStringInterval _ _ _ _ _ hagree hne,
    ToStringListTimes_eq_registry_lines p _ _ _ _ _ _ hagree hne, List.nil_append,
    ToStringList_eq_filterMap, ← List.filterMap_append, ← member_set_times_then_values]

/-- C32, on the POSIX/BSD build with the snapshot that holds the sentinels in the 18
unsupported fields, policy `Skip`, width 30 and separator `": "`. -/
theorem ToStringListTimes_then_Values_eq_ToStringList_witness :
    SentinelsAgree .posix samplePosixAgreeing ∧
    samplePosixAgreeing.ToStringListValues .RsrcUsageEmptyFormatSkip 30
        (samplePosixAgreeing.ToStringListTimes (fun _ => "000000 00:00:00.000000000")
          .RsrcUsageEmptyFormatSkip 30 [] ": ") ": " =
      RsrcUsage.ToStringList .posix (fun _ => "000000 00:00:00.000000000")
        samplePosixAgreeing .RsrcUsageEmptyFormatSkip 30 ": " :=
  ⟨by decide,
    ToStringListTimes_then_Values_eq_ToStringList .posix
      (fun _ => "000000 00:00:00.000000000") samplePosixAgreeing .RsrcUsageEmptyFormatSkip 30
      ": " (by decide) (Or.inr (Or.inr rfl))⟩

theorem formatElement_unsupported_independent (ToStringInterval : RsrcUsageTime → String)
    (r₁ r₂ : RsrcUsage) (null_format_type : RsrcUsageEmptyFormat) (text_width : Nat)
    (separator : String) (e : RsrcUsageElement) (h : e.is_supported_flag_ = false) :
    formatElement ToStringInterval r₁ null_format_type text_width separator e =
      formatElement ToStringInterval r₂ null_format_type text_width separator e := by
  simp [formatElement, h]

/-- C33. Two snapshots that hold the same value in every field the registry of the build
marks supported render to the same list of lines under every policy, width and
separator, whatever they hold in the other fields. -/
theorem ToStringList_ignores_unsupported_fields (p : Platform)
    (ToStringInterval : RsrcUsageTime → String) (r₁ r₂ : RsrcUsage)
    (null_format_type : RsrcUsageEmptyFormat) (text_width : Nat) (separator : String)
    (hsame : ∀ e ∈ (PRIVATE_RsrcUsageSpec_INSTANCE p).member_set_,
      e.is_supported_flag_ = true →
      (e.is_time_flag_ = true → r₁.timeAt e.member_offset_ = r₂.timeAt e.member_offset_) ∧
      (e.is_time_flag_ = false →
        r₁.valueAt e.member_offset_ = r₂.valueAt e.member_offset_)) :
    RsrcUsage.ToStringList p ToStringInterval r₁ null_format_type text_width separator =
      RsrcUsage.ToStringList p ToStringInterval r₂ null_format_type text_width separator := by
  rw [ToStringList_eq_filterMap, ToStringList_eq_filterMap]
  apply filterMap_congr_mem
  intro e he
  cases hs : e.is_supported_flag_
  · exact formatElement_unsupported_independent _ _ _ _ _ _ e hs
  · rw [formatElement_supported _ _ _ _ _ e hs, formatElement_supported _ _ _ _ _ e hs]
    have h := hsame e he hs
    cases ht : e.is_time_flag_
    · simp [supportedValueText, ht, h.2 ht]
    · simp [supportedValueText, ht, h.1 ht]

/-- C33, on the POSIX/BSD build: the all-zero snapshot and one that holds 7 s 7 ns in the
unsupported `trap_cpu_time` and 99 in the unsupported `pagefile_usage`; policy `Zero`,
width 30, separator `": "`. -/
theorem ToStringList_ignores_unsupported_fields_witness :
    (∀ e ∈ (PRIVATE_RsrcUsageSpec_INSTANCE .posix).member_set_,
      e.is_supported_flag_ = true →
      (e.is_time_flag_ = true →
        RsrcUsage.ctor.timeAt e.member_offset_ =
          ({ RsrcUsage.ctor with trap_cpu_time := ⟨7, 7⟩, pagefile_usage := 99 } :
            RsrcUsage).timeAt e.member_offset_) ∧
      (e.is_time_flag_ = false →
        RsrcUsage.ctor.valueAt e.member_offset_ =
          ({ RsrcUsage.ctor with trap_cpu_time := ⟨7, 7⟩, pagefile_usage := 99 } :
            RsrcUsage).valueAt e.member_offset_)) ∧
    RsrcUsage.ToStringList .posix (fun t => toString t.tv_sec) RsrcUsage.ctor
        .RsrcUsageEmptyFormatZero 30 ": " =
      RsrcUsage.ToStringList .posix (fun t => toString t.tv_sec)
        { RsrcUsage.ctor with trap_cpu_time := ⟨7, 7⟩, pagefile_usage := 99 }
        .RsrcUsageEmptyFormatZero 30 ": " :=
  ⟨by decide,
    ToStringList_ignores_unsupported_fields .posix (fun t => toString t.tv_sec)
      RsrcUsage.ctor { RsrcUsage.ctor with trap_cpu_time := ⟨7, 7⟩, pagefile_usage := 99 }
      .RsrcUsageEmptyFormatZero 30 ": " (by decide)⟩

/-- C34. `ToStringListTimes` and `ToStringListValues` append: called on a list `L` they
return `L` followed by what they return on an empty list. `RsrcUsageSpec::ToStringList`
returns the same list whatever the caller's list held. -/
theorem ToStringListTimes_Values_append_ToStringList_replaces (p : Platform)
    (ToStringInterval : RsrcUsageTime → String) (r : RsrcUsage)
    (null_format_type : RsrcUsageEmptyFormat) (text_width : Nat) (separator : String)
    (out_list other_list : List String) :
    r.ToStringListTimes ToStringInterval null_format_type text_width out_list separator =
      out_list ++
        r.ToStringListTimes ToStringInterval null_format_type text_width [] separator ∧
    r.ToStringListValues null_format_type text_width out_list separator =
      out_list ++ r.ToStringListValues null_format_type text_width [] separator ∧
    (PRIVATE_RsrcUsageSpec_INSTANCE p).ToStringList ToStringInterval r null_format_type
        text_width separator out_list =
      (PRIVATE_RsrcUsageSpec_INSTANCE p).ToStringList ToStringInterval r null_format_type
        text_width separator other_list ∧
    (PRIVATE_RsrcUsageSpec_INSTANCE p).ToStringList ToStringInterval r null_format_type
        text_width separator out_list =
      RsrcUsage.ToStringList p ToStringInterval r null_format_type text_width separator := by
  refine ⟨?_, ?_, rfl, rfl⟩
  · rw [ToStringListTimes_eq_filterMap, ToStringListTimes_eq_filterMap _ _ _ _ [],
      List.nil_append]
  · rw [ToStringListValues_eq_filterMap, ToStringListValues_eq_filterMap _ _ _ [],
      List.nil_append]

/-! ## Comparison of snapshots -/

theorem GenericCompare_values {α : Type} (less greater : α → α → Bool) (x y : α) :
    GenericCompare less greater x y = -1 ∨ GenericCompare less greater x y = 0 ∨
      GenericCompare less greater x y = 1 := by
  unfold GenericCompare
  split
  · exact Or.inl rfl
  · split
    · exact Or.inr (Or.inr rfl)
    · exact Or.inr (Or.inl rfl)

theorem GenericCompare_eq_neg_one_iff {α : Type} (less greater : α → α → Bool) (x y : α) :
    GenericCompare less greater x y = -1 ↔ less x y = true := by
  unfold GenericCompare
  cases less x y <;> cases greater x y <;> simp

theorem GenericCompare_self {α : Type} {less greater : α → α → Bool} {x : α}
    (hless : less x x = false) (hgreater : greater x x = false) :
    GenericCompare less greater x x = 0 := by
  simp [GenericCompare, hless, hgreater]

theorem IsStrictTotalComparison.asymm {α : Type} {less greater : α → α → Bool}
    (h : IsStrictTotalComparison less greater) (x y : α) (hxy : less x y = true) :
    less y x = false := by
  cases hyx : less y x
  · rfl
  · have := h.2.2.1 x y x hxy hyx
    rw [h.2.1 x] at this
    cases this

theorem GenericCompare_eq_zero_iff {α : Type} {less greater : α → α → Bool}
    (h : IsStrictTotalComparison less greater) (x y : α) :
    GenericCompare less greater x y = 0 ↔ x = y := by
  constructor
  · intro h0
    by_contra hne
    unfold GenericCompare at h0
    rw [h.1 x y] at h0
    rcases h.2.2.2 x y hne with hlt | hgt
    · simp [hlt] at h0
    · have := h.asymm y x hgt
      simp [hgt, this] at h0
  · rintro rfl
    exact GenericCompare_self (h.2.1 x) (by rw [h.1 x x]; exact h.2.1 x)

theorem GenericCompare_neg {α : Type} {less greater : α → α → Bool}
    (h : IsStrictTotalComparison less greater) (x y : α) :
    GenericCompare less greater x y = -GenericCompare less greater y x := by
  unfold GenericCompare
  rw [h.1 x y, h.1 y x]
  cases hxy : less x y <;> cases hyx : less y x <;> simp
  have := h.asymm x y hxy
  rw [hyx] at this
  cases this

theorem GenericCompare_trans {α : Type} {less greater : α → α → Bool}
    (h : IsStrictTotalComparison less greater) (x y z : α)
    (hxy : GenericCompare less greater x y = -1) (hyz : GenericCompare less greater y z = -1) :
    GenericCompare less greater x z = -1 := by
  rw [GenericCompare_eq_neg_one_iff] at hxy hyz ⊢
  exact h.2.2.1 x y z hxy hyz

theorem valueLess_isStrictTotalComparison : IsStrictTotalComparison valueLess valueGreater := by
  refine ⟨?_, ?_, ?_, ?_⟩
  · intro a b
    simp [valueLess, valueGreater]
  · intro a
    simp [valueLess]
  · intro a b c hab hbc
    simp only [valueLess, decide_eq_true_eq] at hab hbc ⊢
    exact lt_trans hab hbc
  · intro a b hne
    simp only [valueLess, decide_eq_true_eq]
    exact Nat.lt_or_gt_of_ne hne

theorem RsrcUsageTime.lt_isStrictTotalComparison :
    IsStrictTotalComparison RsrcUsageTime.lt (fun a b => RsrcUsageTime.lt b a) := by
  refine ⟨fun _ _ => rfl, ?_, ?_, ?_⟩
  · intro a
    simp [RsrcUsageTime.lt]
  · intro a b c hab hbc
    simp only [RsrcUsageTime.lt, Bool.or_eq_true, Bool.and_eq_true, decide_eq_true_eq]
      at hab hbc ⊢
    omega
  · intro a b hne
    obtain ⟨as, an⟩ := a
    obtain ⟨bs, bn⟩ := b
    simp only [RsrcUsageTime.lt, Bool.or_eq_true, Bool.and_eq_true, decide_eq_true_eq]
    have hne' : as ≠ bs ∨ an ≠ bn := by
      by_contra hcon
      push_neg at hcon
      exact hne (by rw [hcon.1, hcon.2])
    omega

theorem RsrcUsage.timeAt_of_le (r : RsrcUsage) (slot : Nat) (h : 10 ≤ slot) :
    r.timeAt slot = ⟨0, 0⟩ := by
  unfold RsrcUsage.timeAt
  split <;> first | omega | rfl

theorem RsrcUsage.valueAt_of_lt (r : RsrcUsage) (slot : Nat) (h : slot < 10) :
    r.valueAt slot = 0 := by
  interval_cases slot <;> rfl

theorem fieldCompare_values (timeLess timeGreater : RsrcUsageTime → RsrcUsageTime → Bool)
    (a b : RsrcUsage) (slot : Nat) :
    fieldCompare timeLess timeGreater a b slot = -1 ∨
      fieldCompare timeLess timeGreater a b slot = 0 ∨
      fieldCompare timeLess timeGreater a b slot = 1 := by
  unfold fieldCompare
  split
  · exact GenericCompare_values _ _ _ _
  · exact GenericCompare_values _ _ _ _

theorem fieldCompare_eq_zero_iff {timeLess timeGreater : RsrcUsageTime → RsrcUsageTime → Bool}
    (h : IsStrictTotalComparison timeLess timeGreater) (a b : RsrcUsage) (slot : Nat) :
    fieldCompare timeLess timeGreater a b slot = 0 ↔ a.slotAt slot = b.slotAt slot := by
  unfold fieldCompare
  by_cases hs : slot < 10
  · rw [if_pos hs, GenericCompare_eq_zero_iff h]
    simp [RsrcUsage.slotAt, RsrcUsage.valueAt_of_lt _ _ hs]
  · rw [if_neg hs, GenericCompare_eq_zero_iff valueLess_isStrictTotalComparison]
    simp [RsrcUsage.slotAt, RsrcUsage.timeAt_of_le _ _ (Nat.le_of_not_lt hs)]

theorem fieldCompare_neg {timeLess timeGreater : RsrcUsageTime → RsrcUsageTime → Bool}
    (h : IsStrictTotalComparison timeLess timeGreater) (a b : RsrcUsage) (slot : Nat) :
    fieldCompare timeLess timeGreater a b slot = -fieldCompare timeLess timeGreater b a slot := by
  unfold fieldCompare
  split
  · exact GenericCompare_neg h _ _
  · exact GenericCompare_neg valueLess_isStrictTotalComparison _ _

theorem fieldCompare_trans {timeLess timeGreater : RsrcUsageTime → RsrcUsageTime → Bool}
    (h : IsStrictTotalComparison timeLess timeGreater) (a b c : RsrcUsage) (slot : Nat)
    (hab : fieldCompare timeLess timeGreater a b slot = -1)
    (hbc : fieldCompare timeLess timeGreater b c slot = -1) :
    fieldCompare timeLess timeGreater a c slot = -1 := by
  unfold fieldCompare at hab hbc ⊢
  by_cases hs : slot < 10
  · rw [if_pos hs] at hab hbc ⊢
    exact GenericCompare_trans h _ _ _ hab hbc
  · rw [if_neg hs] at hab hbc ⊢
    exact GenericCompare_trans valueLess_isStrictTotalComparison _ _ _ hab hbc

theorem fieldCompare_congr_left (timeLess timeGreater : RsrcUsageTime → RsrcUsageTime → Bool)
    (a a' b : RsrcUsage) (slot : Nat) (h : a.slotAt slot = a'.slotAt slot) :
    fieldCompare timeLess timeGreater a b slot = fieldCompare timeLess timeGreater a' b slot := by
  unfold fieldCompare
  rw [h]

theorem fieldCompare_congr_right (timeLess timeGreater : RsrcUsageTime → RsrcUsageTime → Bool)
    (a b b' : RsrcUsage) (slot : Nat) (h : b.slotAt slot = b'.slotAt slot) :
    fieldCompare timeLess timeGreater a b slot = fieldCompare timeLess timeGreater a b' slot := by
  unfold fieldCompare
  rw [h]

theorem RsrcUsage.eq_of_slotAt_eq (a b : RsrcUsage)
    (h : ∀ slot, slot < 30 → a.slotAt slot = b.slotAt slot) : a = b := by
  have h0 : a.user_cpu_time = b.user_cpu_time := congrArg Prod.fst (h 0 (by decide))
  have h1 : a.system_cpu_time = b.system_cpu_time := congrArg Prod.fst (h 1 (by decide))
  have h2 : a.trap_cpu_time = b.trap_cpu_time := congrArg Prod.fst (h 2 (by decide))
  have h3 : a.text_pagef_time = b.text_pagef_time := congrArg Prod.fst (h 3 (by decide))
  have h4 : a.data_pagef_time = b.data_pagef_time := congrArg Prod.fst (h 4 (by decide))
  have h5 : a.kernel_pagef_time = b.kernel_pagef_time := congrArg Prod.fst (h 5 (by decide))
  have h6 : a.user_lock_time = b.user_lock_time := congrArg Prod.fst (h 6 (by decide))
  have h7 : a.other_sleep_time = b.other_sleep_time := congrArg Prod.fst (h 7 (by decide))
  have h8 : a.wait_cpu_time = b.wait_cpu_time := congrArg Prod.fst (h 8 (by decide))
  have h9 : a.stopped_time = b.stopped_time := congrArg Prod.fst (h 9 (by decide))
  have h10 : a.minor_pagef = b.minor_pagef := congrArg Prod.snd (h 10 (by decide))
  have h11 : a.major_pagef = b.major_pagef := congrArg Prod.snd (h 11 (by decide))
  have h12 : a.process_swaps = b.process_swaps := congrArg Prod.snd (h 12 (by decide))
  have h13 : a.input_blocks = b.input_blocks := congrArg Prod.snd (h 13 (by decide))
  have h14 : a.output_blocks = b.output_blocks := congrArg Prod.snd (h 14 (by decide))
  have h15 : a.messages_sent = b.messages_sent := congrArg Prod.snd (h 15 (by decide))
  have h16 : a.messages_received = b.messages_received := congrArg Prod.snd (h 16 (by decide))
  have h17 : a.messages_other = b.messages_other := congrArg Prod.snd (h 17 (by decide))
  have h18 : a.signals_received = b.signals_received := congrArg Prod.snd (h 18 (by decide))
  have h19 : a.vol_context_switch = b.vol_context_switch := congrArg Prod.snd (h 19 (by decide))
  have h20 : a.invol_context_switch = b.invol_context_switch := congrArg Prod.snd (h 20 (by decide))
  have h21 : a.system_calls = b.system_calls := congrArg Prod.snd (h 21 (by decide))
  have h22 : a.chars_read_written = b.chars_read_written := congrArg Prod.snd (h 22 (by decide))
  have h23 : a.chars_read = b.chars_read := congrArg Prod.snd (h 23 (by decide))
  have h24 : a.chars_written = b.chars_written := congrArg Prod.snd (h 24 (by decide))
  have h25 : a.chars_other = b.chars_other := congrArg Prod.snd (h 25 (by decide))
  have h26 : a.working_set_size = b.working_set_size := congrArg Prod.snd (h 26 (by decide))
  have h27 : a.working_set_size_peak = b.working_set_size_peak := congrArg Prod.snd (h 27 (by decide))
  have h28 : a.pagefile_usage = b.pagefile_usage := congrArg Prod.snd (h 28 (by decide))
  have h29 : a.pagefile_usage_peak = b.pagefile_usage_peak := congrArg Prod.snd (h 29 (by decide))
  cases a
  cases b
  simp only [RsrcUsage.mk.injEq]
  exact ⟨h0, h1, h2, h3, h4, h5, h6, h7, h8, h9, h10, h11, h12, h13, h14,
    h15, h16, h17, h18, h19, h20, h21, h22, h23, h24, h25, h26, h27, h28, h29⟩

theorem returnIfNonZero_foldr_eq_zero_iff (l : List Int) :
    l.foldr returnIfNonZero 0 = 0 ↔ ∀ c, c ∈ l → c = 0 := by
  induction l with
  | nil => simp
  | cons x xs ih =>
    simp only [List.foldr_cons, List.mem_cons, forall_eq_or_imp, returnIfNonZero]
    by_cases hx : x = 0
    · simp [hx, ih]
    · simp [hx]

theorem returnIfNonZero_foldr_eq_of_first (l : List Int) (k : Nat) (c : Int)
    (hzero : ∀ j : Nat, j < k → l[j]? = some 0) (hk : l[k]? = some c) (hc : c ≠ 0) :
    l.foldr returnIfNonZero 0 = c := by
  induction l generalizing k with
  | nil => simp at hk
  | cons x xs ih =>
    cases k with
    | zero =>
      simp only [List.getElem?_cons_zero, Option.some.injEq] at hk
      simp [returnIfNonZero, hk, hc]
    | succ k =>
      have h0 := hzero 0 (Nat.succ_pos k)
      simp only [List.getElem?_cons_zero, Option.some.injEq] at h0
      have hrest : xs.foldr returnIfNonZero 0 = c := by
        apply ih k
        · intro j hj
          have := hzero (j + 1) (Nat.succ_lt_succ hj)
          simpa using this
        · simpa using hk
      simp [returnIfNonZero, h0, hrest]

theorem returnIfNonZero_foldr_first_exists (l : List Int)
    (hne : l.foldr returnIfNonZero 0 ≠ 0) :
    ∃ k : Nat, l[k]? = some (l.foldr returnIfNonZero 0) ∧ ∀ j : Nat, j < k → l[j]? = some 0 := by
  induction l with
  | nil => simp at hne
  | cons x xs ih =>
    by_cases hx : x = 0
    · have hfold : (x :: xs).foldr returnIfNonZero 0 = xs.foldr returnIfNonZero 0 := by
        simp [returnIfNonZero, hx]
      rw [hfold] at hne ⊢
      obtain ⟨k, hk, hpre⟩ := ih hne
      refine ⟨k + 1, by simpa using hk, ?_⟩
      intro j hj
      cases j with
      | zero => simp [hx]
      | succ j =>
        have := hpre j (Nat.lt_of_succ_lt_succ hj)
        simpa using this
    · have hfold : (x :: xs).foldr returnIfNonZero 0 = x := by
        simp [returnIfNonZero, hx]
      rw [hfold]
      exact ⟨0, by simp, fun j hj => absurd hj (Nat.not_lt_zero j)⟩

theorem returnIfNonZero_foldr_map_neg (l : List Int) :
    (l.map (fun c => -c)).foldr returnIfNonZero 0 = -(l.foldr returnIfNonZero 0) := by
  induction l with
  | nil => simp
  | cons x xs ih =>
    simp only [List.map_cons, List.foldr_cons, returnIfNonZero, ih]
    by_cases hx : x = 0
    · simp [hx]
    · simp [hx]

theorem rangeMap_getElem? (f : Nat → Int) (n j : Nat) (h : j < n) :
    ((List.range n).map f)[j]? = some (f j) := by
  simp [List.getElem?_map, List.getElem?_range h]

theorem rangeMap_getElem?_eq_some (f : Nat → Int) (n k : Nat) (v : Int)
    (h : ((List.range n).map f)[k]? = some v) : k < n ∧ f k = v := by
  by_cases hk : k < n
  · rw [rangeMap_getElem? f n k hk] at h
    exact ⟨hk, Option.some.inj h⟩
  · have hnone : ((List.range n).map f)[k]? = none := by
      apply List.getElem?_eq_none
      simp only [List.length_map, List.length_range]
      omega
    rw [hnone] at h
    cases h

theorem RsrcUsage.Compare_eq_foldr (timeLess timeGreater : RsrcUsageTime → RsrcUsageTime → Bool)
    (a b : RsrcUsage) :
    RsrcUsage.Compare timeLess timeGreater a b =
      ((List.range 30).map (fieldCompare timeLess timeGreater a b)).foldr returnIfNonZero 0 :=
  rfl

theorem RsrcUsage.Compare_eq_of_first_nonzero
    {timeLess timeGreater : RsrcUsageTime → RsrcUsageTime → Bool}
    (h : IsStrictTotalComparison timeLess timeGreater) (a b : RsrcUsage) (k : Nat)
    (hk : k < 30) (hpre : ∀ j, j < k → a.slotAt j = b.slotAt j)
    (hne : fieldCompare timeLess timeGreater a b k ≠ 0) :
    RsrcUsage.Compare timeLess timeGreater a b = fieldCompare timeLess timeGreater a b k := by
  rw [RsrcUsage.Compare_eq_foldr]
  apply returnIfNonZero_foldr_eq_of_first _ k _ _ (rangeMap_getElem? _ 30 k hk) hne
  intro j hj
  rw [rangeMap_getElem? _ 30 j (lt_trans hj hk)]
  exact congrArg some ((fieldCompare_eq_zero_iff h a b j).2 (hpre j hj))

theorem RsrcUsage.Compare_first_nonzero_exists
    {timeLess timeGreater : RsrcUsageTime → RsrcUsageTime → Bool}
    (h : IsStrictTotalComparison timeLess timeGreater) (a b : RsrcUsage)
    (hne : RsrcUsage.Compare timeLess timeGreater a b ≠ 0) :
    ∃ k, k < 30 ∧ (∀ j, j < k → a.slotAt j = b.slotAt j) ∧
      fieldCompare timeLess timeGreater a b k = RsrcUsage.Compare timeLess timeGreater a b := by
  rw [RsrcUsage.Compare_eq_foldr] at hne ⊢
  obtain ⟨k, hk, hpre⟩ := returnIfNonZero_foldr_first_exists _ hne
  obtain ⟨hk30, hval⟩ := rangeMap_getElem?_eq_some _ _ _ _ hk
  refine ⟨k, hk30, ?_, hval⟩
  intro j hj
  obtain ⟨_, hj0⟩ := rangeMap_getElem?_eq_some _ _ _ _ (hpre j hj)
  exact (fieldCompare_eq_zero_iff h a b j).1 hj0

theorem RsrcUsage.Compare_eq_zero_iff
    {timeLess timeGreater : RsrcUsageTime → RsrcUsageTime → Bool}
    (h : IsStrictTotalComparison timeLess timeGreater) (a b : RsrcUsage) :
    RsrcUsage.Compare timeLess timeGreater a b = 0 ↔ a = b := by
  rw [RsrcUsage.Compare_eq_foldr, returnIfNonZero_foldr_eq_zero_iff]
  constructor
  · intro hall
    apply RsrcUsage.eq_of_slotAt_eq
    intro slot hslot
    apply (fieldCompare_eq_zero_iff h a b slot).1
    apply hall
    exact List.mem_map.2 ⟨slot, List.mem_range.2 hslot, rfl⟩
  · rintro rfl c hc
    obtain ⟨slot, _, rfl⟩ := List.mem_map.1 hc
    exact (fieldCompare_eq_zero_iff h a a slot).2 rfl

theorem RsrcUsage.Compare_values
    {timeLess timeGreater : RsrcUsageTime → RsrcUsageTime → Bool}
    (h : IsStrictTotalComparison timeLess timeGreater) (a b : RsrcUsage) :
    RsrcUsage.Compare timeLess timeGreater a b = -1 ∨
      RsrcUsage.Compare timeLess timeGreater a b = 0 ∨
      RsrcUsage.Compare timeLess timeGreater a b = 1 := by
  by_cases h0 : RsrcUsage.Compare timeLess timeGreater a b = 0
  · exact Or.inr (Or.inl h0)
  · obtain ⟨k, _, _, hval⟩ := RsrcUsage.Compare_first_nonzero_exists h a b h0
    rw [← hval]
    exact fieldCompare_values _ _ _ _ _

theorem RsrcUsage.Compare_neg
    {timeLess timeGreater : RsrcUsageTime → RsrcUsageTime → Bool}
    (h : IsStrictTotalComparison timeLess timeGreater) (a b : RsrcUsage) :
    RsrcUsage.Compare timeLess timeGreater a b = -RsrcUsage.Compare timeLess timeGreater b a := by
  rw [RsrcUsage.Compare_eq_foldr, RsrcUsage.Compare_eq_foldr, ← returnIfNonZero_foldr_map_neg,
    List.map_map]
  congr 1
  apply List.map_congr_left
  intro slot _
  exact fieldCompare_neg h a b slot

theorem RsrcUsage.Compare_trans
    {timeLess timeGreater : RsrcUsageTime → RsrcUsageTime → Bool}
    (h : IsStrictTotalComparison timeLess timeGreater) (a b c : RsrcUsage)
    (hab : RsrcUsage.Compare timeLess timeGreater a b = -1)
    (hbc : RsrcUsage.Compare timeLess timeGreater b c = -1) :
    RsrcUsage.Compare timeLess timeGreater a c = -1 := by
  obtain ⟨k1, hk1, hpre1, hval1⟩ :=
    RsrcUsage.Compare_first_nonzero_exists h a b (by rw [hab]; decide)
  obtain ⟨k2, hk2, hpre2, hval2⟩ :=
    RsrcUsage.Compare_first_nonzero_exists h b c (by rw [hbc]; decide)
  rw [hab] at hval1
  rw [hbc] at hval2
  rcases Nat.lt_trichotomy k1 k2 with hlt | heq | hgt
  · have hfc : fieldCompare timeLess timeGreater a c k1 = -1 := by
      rw [← fieldCompare_congr_right _ _ a b c k1 (hpre2 k1 hlt)]
      exact hval1
    rw [RsrcUsage.Compare_eq_of_first_nonzero h a c k1 hk1
      (fun j hj => (hpre1 j hj).trans (hpre2 j (lt_trans hj hlt))) (by rw [hfc]; decide)]
    exact hfc
  · subst heq
    have hfc : fieldCompare timeLess timeGreater a c k1 = -1 :=
      fieldCompare_trans h a b c k1 hval1 hval2
    rw [RsrcUsage.Compare_eq_of_first_nonzero h a c k1 hk1
      (fun j hj => (hpre1 j hj).trans (hpre2 j hj)) (by rw [hfc]; decide)]
    exact hfc
  · have hfc : fieldCompare timeLess timeGreater a c k2 = -1 := by
      rw [fieldCompare_congr_left _ _ a b c k2 (hpre1 k2 hgt)]
      exact hval2
    rw [RsrcUsage.Compare_eq_of_first_nonzero h a c k2 hk2
      (fun j hj => (hpre1 j (lt_trans hj hgt)).trans (hpre2 j hj)) (by rw [hfc]; decide)]
    exact hfc

theorem RsrcUsage.Compare_self (timeLess timeGreater : RsrcUsageTime → RsrcUsageTime → Bool)
    (hirr : ∀ t, timeLess t t = false ∧ timeGreater t t = false) (a : RsrcUsage) :
    RsrcUsage.Compare timeLess timeGreater a a = 0 := by
  rw [RsrcUsage.Compare_eq_foldr, returnIfNonZero_foldr_eq_zero_iff]
  intro c hc
  obtain ⟨slot, _, rfl⟩ := List.mem_map.1 hc
  unfold fieldCompare
  split
  · exact GenericCompare_self (hirr _).1 (hirr _).2
  · exact GenericCompare_self (by simp [valueLess]) (by simp [valueGreater])

theorem GenericCompare_eq_one_iff {α : Type} {less greater : α → α → Bool}
    (h : IsStrictTotalComparison less greater) (x y : α) :
    GenericCompare less greater x y = 1 ↔ less y x = true := by
  rw [GenericCompare_neg h x y, ← GenericCompare_eq_neg_one_iff less greater y x]
  omega

/-- C35: with a strict total order on durations, `RsrcUsage::Compare` returns -1, 0 or 1;
it returns 0 exactly when the two snapshots agree on all 30 fields; and when `slot` is the
first field, in declaration order, on which they differ, the result is not 0, it is -1
exactly when the field of the first snapshot is the lesser and 1 exactly when it is the
greater. Slot 0 is `user_cpu_time` and slot 29 is `pagefile_usage_peak`. -/
theorem RsrcUsage_Compare_is_lexicographic
    (timeLess timeGreater : RsrcUsageTime → RsrcUsageTime → Bool)
    (hord : IsStrictTotalComparison timeLess timeGreater) (a b : RsrcUsage) :
    (RsrcUsage.Compare timeLess timeGreater a b = -1 ∨
      RsrcUsage.Compare timeLess timeGreater a b = 0 ∨
      RsrcUsage.Compare timeLess timeGreater a b = 1) ∧
    (RsrcUsage.Compare timeLess timeGreater a b = 0 ↔ a = b) ∧
    (∀ slot, slot < 30 → (∀ j, j < slot → a.slotAt j = b.slotAt j) →
      a.slotAt slot ≠ b.slotAt slot →
      RsrcUsage.Compare timeLess timeGreater a b ≠ 0 ∧
      (slot < 10 →
        (RsrcUsage.Compare timeLess timeGreater a b = -1 ↔
          timeLess (a.timeAt slot) (b.timeAt slot) = true) ∧
        (RsrcUsage.Compare timeLess timeGreater a b = 1 ↔
          timeLess (b.timeAt slot) (a.timeAt slot) = true)) ∧
      (10 ≤ slot →
        (RsrcUsage.Compare timeLess timeGreater a b = -1 ↔ a.valueAt slot < b.valueAt slot) ∧
        (RsrcUsage.Compare timeLess timeGreater a b = 1 ↔ b.valueAt slot < a.valueAt slot))) ∧
    a.slotAt 0 = (a.user_cpu_time, 0) ∧
    a.slotAt 29 = (⟨0, 0⟩, a.pagefile_usage_peak) := by
  refine ⟨RsrcUsage.Compare_values hord a b, RsrcUsage.Compare_eq_zero_iff hord a b, ?_,
    rfl, rfl⟩
  intro slot hslot hpre hne
  have hfc0 : fieldCompare timeLess timeGreater a b slot ≠ 0 :=
    fun h0 => hne ((fieldCompare_eq_zero_iff hord a b slot).1 h0)
  rw [RsrcUsage.Compare_eq_of_first_nonzero hord a b slot hslot hpre hfc0]
  refine ⟨hfc0, ?_, ?_⟩
  · intro hs
    unfold fieldCompare
    rw [if_pos hs]
    exact ⟨GenericCompare_eq_neg_one_iff _ _ _ _, GenericCompare_eq_one_iff hord _ _⟩
  · intro hs
    unfold fieldCompare
    rw [if_neg (Nat.not_lt.2 hs)]
    refine ⟨?_, ?_⟩
    · rw [GenericCompare_eq_neg_one_iff]
      simp [valueLess, RsrcUsage.slotAt]
    · rw [GenericCompare_eq_one_iff valueLess_isStrictTotalComparison]
      simp [valueLess, RsrcUsage.slotAt]

theorem RsrcUsage_Compare_is_lexicographic_witness :
    IsStrictTotalComparison RsrcUsageTime.lt (fun a b => RsrcUsageTime.lt b a) ∧
    (RsrcUsage.Compare RsrcUsageTime.lt (fun a b => RsrcUsageTime.lt b a)
        RsrcUsage.ctor samplePosixAgreeing = 0 ↔ RsrcUsage.ctor = samplePosixAgreeing) :=
  ⟨RsrcUsageTime.lt_isStrictTotalComparison,
    (RsrcUsage_Compare_is_lexicographic RsrcUsageTime.lt (fun a b => RsrcUsageTime.lt b a)
      RsrcUsageTime.lt_isStrictTotalComparison RsrcUsage.ctor samplePosixAgreeing).2.1⟩

/-- C36: with a strict total order on durations, `RsrcUsage::operator <` is irreflexive and
transitive, for every two snapshots exactly one of `a < b`, `b < a` and equality of all 30
fields holds, and `Compare(a, b) = -Compare(b, a)`. -/
theorem RsrcUsage_operatorLess_is_strict_total_order
    (timeLess timeGreater : RsrcUsageTime → RsrcUsageTime → Bool)
    (hord : IsStrictTotalComparison timeLess timeGreater) (a b c : RsrcUsage) :
    RsrcUsage.operatorLess timeLess timeGreater a a = false ∧
    (RsrcUsage.operatorLess timeLess timeGreater a b = true →
      RsrcUsage.operatorLess timeLess timeGreater b c = true →
      RsrcUsage.operatorLess timeLess timeGreater a c = true) ∧
    ((RsrcUsage.operatorLess timeLess timeGreater a b = true ∧
        RsrcUsage.operatorLess timeLess timeGreater b a = false ∧ a ≠ b) ∨
      (RsrcUsage.operatorLess timeLess timeGreater a b = false ∧
        RsrcUsage.operatorLess timeLess timeGreater b a = true ∧ a ≠ b) ∨
      (RsrcUsage.operatorLess timeLess timeGreater a b = false ∧
        RsrcUsage.operatorLess timeLess timeGreater b a = false ∧ a = b)) ∧
    RsrcUsage.Compare timeLess timeGreater a b = -RsrcUsage.Compare timeLess timeGreater b a := by
  have hneg := RsrcUsage.Compare_neg hord a b
  have hzero := RsrcUsage.Compare_eq_zero_iff hord a b
  have hself := (RsrcUsage.Compare_eq_zero_iff hord a a).2 rfl
  simp only [RsrcUsage.operatorLess, decide_eq_true_eq, decide_eq_false_iff_not]
  refine ⟨by omega, ?_, ?_, hneg⟩
  · intro hab hbc
    have hab1 : RsrcUsage.Compare timeLess timeGreater a b = -1 := by
      rcases RsrcUsage.Compare_values hord a b with h | h | h <;> omega
    have hbc1 : RsrcUsage.Compare timeLess timeGreater b c = -1 := by
      rcases RsrcUsage.Compare_values hord b c with h | h | h <;> omega
    rw [RsrcUsage.Compare_trans hord a b c hab1 hbc1]
    decide
  · rcases RsrcUsage.Compare_values hord a b with h | h | h
    · refine Or.inl ⟨by omega, by omega, fun hab => ?_⟩
      have := hzero.2 hab
      omega
    · exact Or.inr (Or.inr ⟨by omega, by omega, hzero.1 h⟩)
    · refine Or.inr (Or.inl ⟨by omega, by omega, fun hab => ?_⟩)
      have := hzero.2 hab
      omega

theorem RsrcUsage_operatorLess_is_strict_total_order_witness :
    IsStrictTotalComparison RsrcUsageTime.lt (fun a b => RsrcUsageTime.lt b a) ∧
    RsrcUsage.Compare RsrcUsageTime.lt (fun a b => RsrcUsageTime.lt b a)
        RsrcUsage.ctor samplePosixAgreeing =
      -RsrcUsage.Compare RsrcUsageTime.lt (fun a b => RsrcUsageTime.lt b a)
        samplePosixAgreeing RsrcUsage.ctor :=
  ⟨RsrcUsageTime.lt_isStrictTotalComparison,
    (RsrcUsage_operatorLess_is_strict_total_order RsrcUsageTime.lt
      (fun a b => RsrcUsageTime.lt b a) RsrcUsageTime.lt_isStrictTotalComparison
      RsrcUsage.ctor samplePosixAgreeing RsrcUsage.ctor).2.2.2⟩

/-! ## Swap, copy and assignment -/

/-- C37: `RsrcUsage::swap` exchanges the two snapshots field for field, so that a second
swap restores both; the copy constructor yields its argument; and the copy-assignment
`a = b` leaves `b` as it was and makes `a` equal to `b`, with `Compare(a, b) = 0` for any
duration comparison under which no duration is less or greater than itself. -/
theorem RsrcUsage_swap_exchanges_and_assign_copies
    (timeLess timeGreater : RsrcUsageTime → RsrcUsageTime → Bool)
    (hirr : ∀ t, timeLess t t = false ∧ timeGreater t t = false) (a b : RsrcUsage) :
    a.swap b = (b, a) ∧
    (a.swap b).1.swap (a.swap b).2 = (a, b) ∧
    RsrcUsage.copy b = b ∧
    a.assign b = (b, b) ∧
    RsrcUsage.Compare timeLess timeGreater (a.assign b).1 (a.assign b).2 = 0 := by
  have hswap : ∀ x y : RsrcUsage, x.swap y = (y, x) := fun _ _ => rfl
  have hassign : a.assign b = (b, b) := rfl
  refine ⟨hswap a b, ?_, rfl, hassign, ?_⟩
  · rw [hswap a b, hswap b a]
  · rw [hassign]
    exact RsrcUsage.Compare_self timeLess timeGreater hirr b

theorem RsrcUsage_swap_exchanges_and_assign_copies_witness :
    (∀ t, RsrcUsageTime.lt t t = false ∧ (fun a b => RsrcUsageTime.lt b a) t t = false) ∧
    RsrcUsage.ctor.assign samplePosixAgreeing = (samplePosixAgreeing, samplePosixAgreeing) :=
  ⟨fun t => ⟨RsrcUsageTime.lt_isStrictTotalComparison.2.1 t,
      RsrcUsageTime.lt_isStrictTotalComparison.2.1 t⟩,
    (RsrcUsage_swap_exchanges_and_assign_copies RsrcUsageTime.lt
      (fun a b => RsrcUsageTime.lt b a)
      (fun t => ⟨RsrcUsageTime.lt_isStrictTotalComparison.2.1 t,
        RsrcUsageTime.lt_isStrictTotalComparison.2.1 t⟩)
      RsrcUsage.ctor samplePosixAgreeing).2.2.2.1⟩

/-! ## `TimeTM::Compare` -/

theorem compareStep_values (x y rest : Int) (h : rest = -1 ∨ rest = 0 ∨ rest = 1) :
    compareStep x y rest = -1 ∨ compareStep x y rest = 0 ∨ compareStep x y rest = 1 := by
  unfold compareStep
  split_ifs <;> simp [h]

theorem compareStep_eq_neg_one_iff (x y rest : Int) :
    compareStep x y rest = -1 ↔ x < y ∨ (x = y ∧ rest = -1) := by
  unfold compareStep
  split_ifs <;> constructor <;> intro h <;> first | omega | contradiction

theorem compareStep_eq_one_iff (x y rest : Int) :
    compareStep x y rest = 1 ↔ y < x ∨ (y = x ∧ rest = 1) := by
  unfold compareStep
  split_ifs <;> constructor <;> intro h <;> first | omega | contradiction

theorem compareStep_eq_zero_iff (x y rest : Int) :
    compareStep x y rest = 0 ↔ x = y ∧ rest = 0 := by
  unfold compareStep
  split_ifs <;> constructor <;> intro h <;> first | omega | contradiction

theorem TimeTM.tm_Compare_eq_steps (lhs rhs : TimeTM) :
    TimeTM.Compare lhs rhs =
      compareStep lhs.tm_year rhs.tm_year (compareStep lhs.tm_mon rhs.tm_mon
        (compareStep lhs.tm_mday rhs.tm_mday (compareStep lhs.tm_hour rhs.tm_hour
          (compareStep lhs.tm_min rhs.tm_min (compareStep lhs.tm_sec rhs.tm_sec 0))))) :=
  rfl

theorem TimeTM.tm_Compare_values (lhs rhs : TimeTM) :
    TimeTM.Compare lhs rhs = -1 ∨ TimeTM.Compare lhs rhs = 0 ∨ TimeTM.Compare lhs rhs = 1 := by
  rw [TimeTM.tm_Compare_eq_steps]
  exact compareStep_values _ _ _ (compareStep_values _ _ _ (compareStep_values _ _ _
    (compareStep_values _ _ _ (compareStep_values _ _ _ (compareStep_values _ _ _
      (Or.inr (Or.inl rfl)))))))

theorem TimeTM.tm_Compare_eq_neg_one_iff (lhs rhs : TimeTM) :
    TimeTM.Compare lhs rhs = -1 ↔ TimeTM.lexLess lhs rhs := by
  rw [TimeTM.tm_Compare_eq_steps]
  simp only [compareStep_eq_neg_one_iff, TimeTM.lexLess]
  omega

theorem TimeTM.tm_Compare_eq_one_iff (lhs rhs : TimeTM) :
    TimeTM.Compare lhs rhs = 1 ↔ TimeTM.lexLess rhs lhs := by
  rw [TimeTM.tm_Compare_eq_steps]
  simp only [compareStep_eq_one_iff, TimeTM.lexLess]
  omega

theorem TimeTM.tm_Compare_eq_zero_iff (lhs rhs : TimeTM) :
    TimeTM.Compare lhs rhs = 0 ↔
      (lhs.tm_year = rhs.tm_year ∧ lhs.tm_mon = rhs.tm_mon ∧ lhs.tm_mday = rhs.tm_mday ∧
        lhs.tm_hour = rhs.tm_hour ∧ lhs.tm_min = rhs.tm_min ∧ lhs.tm_sec = rhs.tm_sec) := by
  rw [TimeTM.tm_Compare_eq_steps]
  simp [compareStep_eq_zero_iff]

theorem TimeTM.tm_Compare_neg (lhs rhs : TimeTM) :
    TimeTM.Compare lhs rhs = -TimeTM.Compare rhs lhs := by
  have h1 : TimeTM.Compare lhs rhs = -1 ↔ TimeTM.Compare rhs lhs = 1 :=
    (TimeTM.tm_Compare_eq_neg_one_iff lhs rhs).trans (TimeTM.tm_Compare_eq_one_iff rhs lhs).symm
  have h2 : TimeTM.Compare lhs rhs = 1 ↔ TimeTM.Compare rhs lhs = -1 :=
    (TimeTM.tm_Compare_eq_one_iff lhs rhs).trans (TimeTM.tm_Compare_eq_neg_one_iff rhs lhs).symm
  rcases TimeTM.tm_Compare_values lhs rhs with h | h | h <;>
    rcases TimeTM.tm_Compare_values rhs lhs with h3 | h3 | h3 <;> omega

/-- C38: `TimeTM::Compare` returns -1, 0 or 1; `Compare(a, b) = -Compare(b, a)`; it returns
-1 exactly when `(tm_year, tm_mon, tm_mday, tm_hour, tm_min, tm_sec)` of `lhs` precedes that
of `rhs` lexicographically and 1 exactly when it follows; it returns 0, `operator ==` is
true and `operator <=>` is `equal`, exactly when those six members are pairwise equal; and
`tm_wday`, `tm_yday` and `tm_isdst` have no part in the result. -/
theorem TimeTM_Compare_is_lexicographic (lhs rhs : TimeTM) :
    (TimeTM.Compare lhs rhs = -1 ∨ TimeTM.Compare lhs rhs = 0 ∨ TimeTM.Compare lhs rhs = 1) ∧
    TimeTM.Compare lhs rhs = -TimeTM.Compare rhs lhs ∧
    (TimeTM.Compare lhs rhs = -1 ↔ TimeTM.lexLess lhs rhs) ∧
    (TimeTM.Compare lhs rhs = 1 ↔ TimeTM.lexLess rhs lhs) ∧
    (TimeTM.Compare lhs rhs = 0 ↔
      (lhs.tm_year = rhs.tm_year ∧ lhs.tm_mon = rhs.tm_mon ∧ lhs.tm_mday = rhs.tm_mday ∧
        lhs.tm_hour = rhs.tm_hour ∧ lhs.tm_min = rhs.tm_min ∧ lhs.tm_sec = rhs.tm_sec)) ∧
    (TimeTM.operatorEq lhs rhs = true ↔ TimeTM.Compare lhs rhs = 0) ∧
    (TimeTM.operatorSpaceship lhs rhs = StrongOrdering.equal ↔ TimeTM.Compare lhs rhs = 0) ∧
    (∀ wday yday isdst wday2 yday2 isdst2 : Int,
      TimeTM.Compare
          { lhs with tm_wday := wday, tm_yday := yday, tm_isdst := isdst }
          { rhs with tm_wday := wday2, tm_yday := yday2, tm_isdst := isdst2 } =
        TimeTM.Compare lhs rhs) := by
  refine ⟨TimeTM.tm_Compare_values lhs rhs, TimeTM.tm_Compare_neg lhs rhs,
    TimeTM.tm_Compare_eq_neg_one_iff lhs rhs, TimeTM.tm_Compare_eq_one_iff lhs rhs,
    TimeTM.tm_Compare_eq_zero_iff lhs rhs, ?_, ?_, ?_⟩
  · simp [TimeTM.operatorEq]
  · rcases TimeTM.tm_Compare_values lhs rhs with h | h | h <;>
      simp [TimeTM.operatorSpaceship, h]
  · intro _ _ _ _ _ _
    rfl

/-! ## `ValueTraits.hpp` -/

theorem two_pow_eq_double (w : Nat) (hw : 0 < w) : (2 : Int) ^ w = 2 * 2 ^ (w - 1) := by
  obtain ⟨n, rfl⟩ : ∃ n, w = n + 1 := ⟨w - 1, by omega⟩
  rw [Nat.add_sub_cancel, pow_succ]
  ring

theorem wrapSigned_of_mem (w : Nat) (hw : 0 < w) (x : Int)
    (hlo : -(2 : Int) ^ (w - 1) ≤ x) (hhi : x < (2 : Int) ^ (w - 1)) :
    wrapSigned w x = x := by
  unfold wrapSigned
  rw [two_pow_eq_double w hw]
  generalize (2 : Int) ^ (w - 1) = M at hlo hhi ⊢
  rw [Int.emod_eq_of_lt (by omega) (by omega)]
  omega

theorem wrapSigned_two_pow (w : Nat) (hw : 0 < w) :
    wrapSigned w ((2 : Int) ^ (w - 1)) = -(2 : Int) ^ (w - 1) := by
  unfold wrapSigned
  rw [two_pow_eq_double w hw]
  have hM : (0 : Int) < (2 : Int) ^ (w - 1) := by positivity
  generalize (2 : Int) ^ (w - 1) = M at hM ⊢
  have : M + M = 2 * M := by ring
  rw [this, Int.emod_self]
  omega

theorem negateSigned_of_mem (int_bits w : Nat) (hw : 0 < w) (x : Int)
    (hlo : -(2 : Int) ^ (w - 1) < x) (hhi : x < (2 : Int) ^ (w - 1)) :
    negateSigned int_bits w x = some (-x) := by
  unfold negateSigned
  split
  · rw [wrapSigned_of_mem w hw (-x) (by omega) (by omega)]
  · rw [if_pos ⟨by omega, by omega⟩]

theorem negateSigned_minimum_narrow (int_bits w : Nat) (hw : 0 < w) (hnarrow : w < int_bits) :
    negateSigned int_bits w (-(2 : Int) ^ (w - 1)) = some (-(2 : Int) ^ (w - 1)) := by
  unfold negateSigned
  rw [if_pos hnarrow, neg_neg, wrapSigned_two_pow w hw]

theorem negateSigned_minimum_wide (int_bits w : Nat) (hwide : int_bits ≤ w) :
    negateSigned int_bits w (-(2 : Int) ^ (w - 1)) = none := by
  unfold negateSigned
  rw [if_neg (Nat.not_lt.2 hwide), neg_neg, if_neg (fun h => lt_irrefl _ h.2)]

/-- C39, the claim as written fails: for `int` of 32 bits, `GetValueAbsolute` of the minimum
`-2 ^ 31` does not return the minimum; the negation is a signed overflow and no result is
defined. -/
theorem GetValueAbsolute_int_minimum_is_overflow :
    ¬ (GetValueAbsolute true 32 32 (-(2 : Int) ^ (32 - 1)) = some (-(2 : Int) ^ (32 - 1))) := by
  rw [show GetValueAbsolute true 32 32 (-(2 : Int) ^ (32 - 1)) = none from by
    simp only [GetValueAbsolute, IsSignedTypeTrue.GetValueAbsolute, if_true]
    rw [if_pos (by decide)]
    exact negateSigned_minimum_wide 32 32 (le_refl 32)]
  exact fun h => Option.noConfusion h

/-- C39, amended: in a signed type of `w` bits, `int` having `int_bits` bits, for every
value other than the minimum `-2 ^ (w - 1)`, `GetValueAbsolute` returns the absolute value,
which is non-negative, is its own `GetValueAbsolute` and is not reported negative. At the
minimum, a type narrower than `int` gets the minimum back from `GetValueNegated` and
`GetValueAbsolute`, and `IsValueNegative` reports it negative; for `int` and the wider types
the negation is a signed overflow and neither function has a defined result. In an unsigned
type `IsValueNegative` is false and `GetValueAbsolute` and `GetValueNegated` return the
value. -/
theorem GetValueAbsolute_signed_and_unsigned (int_bits w : Nat) (v : Int) (hw : 0 < w)
    (hlo : -(2 : Int) ^ (w - 1) ≤ v) (hhi : v < (2 : Int) ^ (w - 1)) :
    (v ≠ -(2 : Int) ^ (w - 1) →
      GetValueAbsolute true int_bits w v = some |v| ∧
      0 ≤ |v| ∧
      GetValueAbsolute true int_bits w |v| = some |v| ∧
      IsValueNegative true |v| = false) ∧
    (w < int_bits →
      GetValueNegated true int_bits w (-(2 : Int) ^ (w - 1)) = some (-(2 : Int) ^ (w - 1)) ∧
      GetValueAbsolute true int_bits w (-(2 : Int) ^ (w - 1)) = some (-(2 : Int) ^ (w - 1)) ∧
      IsValueNegative true (-(2 : Int) ^ (w - 1)) = true) ∧
    (int_bits ≤ w →
      GetValueNegated true int_bits w (-(2 : Int) ^ (w - 1)) = none ∧
      GetValueAbsolute true int_bits w (-(2 : Int) ^ (w - 1)) = none) ∧
    (∀ u : Int, IsValueNegative false u = false ∧
      GetValueAbsolute false int_bits w u = some u ∧
      GetValueNegated false int_bits w u = some u) := by
  have hM : (0 : Int) < (2 : Int) ^ (w - 1) := by positivity
  have hlt : -(2 : Int) ^ (w - 1) < 0 := by omega
  have habsmin : GetValueAbsolute true int_bits w (-(2 : Int) ^ (w - 1)) =
      negateSigned int_bits w (-(2 : Int) ^ (w - 1)) := by
    simp only [GetValueAbsolute, IsSignedTypeTrue.GetValueAbsolute, IsSignedTypeTrue.IsNegative,
      if_true, decide_eq_true hlt]
  have hnegmin : GetValueNegated true int_bits w (-(2 : Int) ^ (w - 1)) =
      negateSigned int_bits w (-(2 : Int) ^ (w - 1)) := by
    simp only [GetValueNegated, IsSignedTypeTrue.GetValueNegated, if_true]
  have hnonneg : ∀ x : Int, 0 ≤ x → GetValueAbsolute true int_bits w x = some x := by
    intro x hx
    have hnot : ¬ x < 0 := by omega
    simp [GetValueAbsolute, IsSignedTypeTrue.GetValueAbsolute, IsSignedTypeTrue.IsNegative,
      hnot]
  have hnotneg : ∀ x : Int, 0 ≤ x → IsValueNegative true x = false := by
    intro x hx
    have hnot : ¬ x < 0 := by omega
    simp [IsValueNegative, IsSignedTypeTrue.IsNegative, hnot]
  refine ⟨?_, ?_, ?_, ?_⟩
  · intro hne
    refine ⟨?_, abs_nonneg v, hnonneg _ (abs_nonneg v), hnotneg _ (abs_nonneg v)⟩
    by_cases hv : v < 0
    · rw [abs_of_neg hv, ← negateSigned_of_mem int_bits w hw v (by omega) hhi]
      simp only [GetValueAbsolute, IsSignedTypeTrue.GetValueAbsolute,
        IsSignedTypeTrue.IsNegative, if_true, decide_eq_true hv]
    · rw [abs_of_nonneg (by omega)]
      exact hnonneg v (by omega)
  · intro hnarrow
    refine ⟨?_, ?_, ?_⟩
    · rw [hnegmin]
      exact negateSigned_minimum_narrow int_bits w hw hnarrow
    · rw [habsmin]
      exact negateSigned_minimum_narrow int_bits w hw hnarrow
    · simp only [IsValueNegative, IsSignedTypeTrue.IsNegative, if_true, decide_eq_true hlt]
  · intro hwide
    refine ⟨?_, ?_⟩
    · rw [hnegmin]
      exact negateSigned_minimum_wide int_bits w hwide
    · rw [habsmin]
      exact negateSigned_minimum_wide int_bits w hwide
  · intro u
    exact ⟨rfl, rfl, rfl⟩

/-- C39, amended, at `int` of 32 bits and the value -5: the absolute value is 5. -/
theorem GetValueAbsolute_signed_and_unsigned_witness :
    (0 < 32 ∧ -(2 : Int) ^ (32 - 1) ≤ -5 ∧ (-5 : Int) < (2 : Int) ^ (32 - 1)) ∧
    ((-5 : Int) ≠ -(2 : Int) ^ (32 - 1) →
      GetValueAbsolute true 32 32 (-5) = some |(-5 : Int)| ∧
      0 ≤ |(-5 : Int)| ∧
      GetValueAbsolute true 32 32 |(-5 : Int)| = some |(-5 : Int)| ∧
      IsValueNegative true |(-5 : Int)| = false) :=
  ⟨⟨by decide, by decide, by decide⟩,
    (GetValueAbsolute_signed_and_unsigned 32 32 (-5) (by decide) (by decide) (by decide)).1⟩

end MLB.Utility
